import Mathlib

/-!
# adwumawura-frontend: session store, role classifier, route guard, navigation

A shallow embedding of the client logic in `src/routes/ProtectedRoute.jsx`,
`src/components/Navbar.jsx`, `src/context/AuthContext.jsx` and
`src/api/axios.js`.

JavaScript values are embedded as the JSON-shaped type `JSVal`: every value the
embedded functions receive is either a literal of the program or the result of
`JSON.parse` (stored session, backend response).  Operations that can raise a
`TypeError` in JavaScript return `Except JSError _`.

Boundaries of the embedding: numbers inside `JSVal` are integers and print as
decimal numerals; `toLowerCase` maps the letters `A`-`Z` only; `localStorage`
reads and writes do not fail; `JSON.parse`, `JSON.stringify` and the
conversion of a string to a number are parameters; asynchronous code is
embedded from the point where its request has settled, and timers and window
events are events of a transition system.
-/

namespace Adwumawura

/-- JavaScript values as produced by `JSON.parse` and by literals of the program. -/
inductive JSVal where
  | undefined : JSVal
  | null : JSVal
  | bool (b : Bool) : JSVal
  | num (n : Int) : JSVal
  | str (s : String) : JSVal
  | arr (items : List JSVal) : JSVal
  | obj (fields : List (String × JSVal)) : JSVal

/-- Exceptions raised by the embedded code. -/
inductive JSError where
  | typeError : JSError
  | syntaxError : JSError
  deriving DecidableEq, Repr

namespace JSVal

/-- JavaScript `ToBoolean`: `undefined`, `null`, `false`, `0` and `""` are falsy. -/
def truthy : JSVal → Bool
  | undefined => false
  | null => false
  | bool b => b
  | num n => n != 0
  | str s => s != ""
  | arr _ => true
  | obj _ => true

/-- The test `v === undefined || v === null` used by `?.` and `??`. -/
def nullish : JSVal → Bool
  | undefined => true
  | null => true
  | _ => false

/-- `Array.isArray(v)`. -/
def isArray : JSVal → Bool
  | arr _ => true
  | _ => false

/-- `typeof v === "object"` (true of `null`, arrays and objects). -/
def typeofObject : JSVal → Bool
  | null => true
  | arr _ => true
  | obj _ => true
  | _ => false

/-- Own data property of an object literal; the first entry for a key is the live one. -/
def lookup (k : String) : List (String × JSVal) → Option JSVal
  | [] => none
  | (k', v) :: rest => if k' = k then some v else lookup k rest

/-- Property read `v.k` for a data key `k` that no built-in prototype defines
(`role`, `type`, `roles`, `name`, ...): a `TypeError` on `undefined` and `null`,
the own property of an object, `undefined` otherwise. -/
def getProp (v : JSVal) (k : String) : Except JSError JSVal :=
  match v with
  | undefined => .error .typeError
  | null => .error .typeError
  | obj fields => .ok ((lookup k fields).getD undefined)
  | _ => .ok undefined

/-- Optional chaining `v?.k`: `undefined` when `v` is nullish. -/
def optProp (v : JSVal) (k : String) : Except JSError JSVal :=
  if v.nullish then .ok undefined else getProp v k

/-- `v[0]` on an array. -/
def index0 : JSVal → JSVal
  | arr (x :: _) => x
  | _ => undefined

/-- `a ?? b`. -/
def coalesce (a b : JSVal) : JSVal :=
  if a.nullish then b else a

/-- `SameValueZero`, the comparison of `Array.prototype.includes`.  Arrays and
objects compare by reference; a value of the session never shares a reference
with an element of a list literal, so they never match. -/
def sameValueZero : JSVal → JSVal → Bool
  | undefined, undefined => true
  | null, null => true
  | bool a, bool b => a == b
  | num a, num b => a == b
  | str a, str b => a == b
  | _, _ => false

/-- `xs.includes(v)`. -/
def includes (xs : List JSVal) (v : JSVal) : Bool :=
  xs.any fun x => sameValueZero x v

/-- `String.prototype.toLowerCase` restricted to ASCII: `A`-`Z` are mapped to
`a`-`z`, every other character is kept (JavaScript also maps letters outside
ASCII). -/
def toLowerCase (s : String) : String :=
  ⟨s.data.map Char.toLower⟩

mutual
/-- The method call `v.toString()`.  On `undefined` and `null` the property read
fails; an object that carries an own `toString` entry (any JSON value, none of
them callable) fails the call; any other object prints as `[object Object]`;
an array prints as `join(",")` of its elements. -/
def callToString : JSVal → Except JSError String
  | undefined => .error .typeError
  | null => .error .typeError
  | bool b => .ok (if b then "true" else "false")
  | num n => .ok (toString n)
  | str s => .ok s
  | arr items => (joinItems items).map fun parts => ",".intercalate parts
  | obj fields =>
    if (lookup "toString" fields).isSome then .error .typeError else .ok "[object Object]"
/-- The element strings of `Array.prototype.join`: `undefined` and `null` give
the empty string, every other element its `ToString`. -/
def joinItems : List JSVal → Except JSError (List String)
  | [] => .ok []
  | undefined :: rest => (joinItems rest).map fun parts => "" :: parts
  | null :: rest => (joinItems rest).map fun parts => "" :: parts
  | x :: rest => (callToString x).bind fun s => (joinItems rest).map fun parts => s :: parts
end

mutual
/-- No object inside the value carries an own `toString` entry. -/
def plain : JSVal → Bool
  | arr items => plainItems items
  | obj fields => !(lookup "toString" fields).isSome && plainFields fields
  | _ => true
/-- Every element is `plain`. -/
def plainItems : List JSVal → Bool
  | [] => true
  | x :: rest => plain x && plainItems rest
/-- Every field value is `plain`. -/
def plainFields : List (String × JSVal) → Bool
  | [] => true
  | (_, v) :: rest => plain v && plainFields rest
end

/-- The own property `k` of `v`, `undefined` when there is none. -/
def field (v : JSVal) (k : String) : JSVal :=
  match v with
  | obj fields => (lookup k fields).getD undefined
  | _ => undefined

end JSVal

open JSVal

/-! ## Route guard (`src/routes/ProtectedRoute.jsx`) -/

/-- The value of `useAuth()` read by the guard. -/
structure Session where
  user : JSVal
  token : JSVal

/-- What `ProtectedRoute` returns: a `<Navigate>` element or its children. -/
inductive Element (Loc Child : Type) where
  | navigate (to_ : String) (state : Option Loc) (replace : Bool) : Element Loc Child
  | children (c : Child) : Element Loc Child

/-- `ProtectedRoute({ roles = [], children })`; `state := some location` stands
for `state={{ from: location }}`, `none` for no `state` prop. -/
def ProtectedRoute {Loc Child : Type} (auth : Session) (location : Loc)
    (roles : List JSVal) (children : Child) : Except JSError (Element Loc Child) :=
  if !auth.token.truthy || !auth.user.truthy then
    .ok (.navigate "/login" (some location) true)
  else
    (getProp auth.user "role").bind fun role =>
    if decide (roles.length > 0) && !includes roles role then
      .ok (.navigate "/" none true)
    else
      .ok (.children children)

/-! ## Role classifier (`src/components/Navbar.jsx`) -/

/-- `normalizeRole(role)`. -/
def normalizeRole (role : JSVal) : Except JSError String :=
  let r := role
  let r := if r.isArray then index0 r else r
  (if r.truthy && r.typeofObject then
      (getProp r "name").bind fun n =>
      (getProp r "role").bind fun ro =>
      (getProp r "type").bind fun t =>
      .ok (coalesce (coalesce n ro) t)
    else .ok r).bind fun r =>
  (callToString (if r.truthy then r else str "")).map toLowerCase

/-- `xs.map(normalizeRole)`: elements are converted left to right, the first
exception ends the call. -/
def mapNormalizeRole : List JSVal → Except JSError (List String)
  | [] => .ok []
  | x :: rest =>
    (normalizeRole x).bind fun s => (mapNormalizeRole rest).map fun ss => s :: ss

/-- The expression `u?.type?.toString().toLowerCase()`; `none` is `undefined`. -/
def typeLowerCase (u : JSVal) : Except JSError (Option String) :=
  (optProp u "type").bind fun t =>
  if t.nullish then .ok none else (callToString t).map fun s => some (toLowerCase s)

/-- The expression `Array.isArray(u?.roles) && u.roles.map(normalizeRole).includes(target)`. -/
def rolesInclude (u : JSVal) (target : String) : Except JSError Bool :=
  (optProp u "roles").bind fun roles =>
  match roles with
  | arr items => (mapNormalizeRole items).map fun ss => decide (target ∈ ss)
  | _ => .ok false

/-- `isEmployer(u)`. -/
def isEmployer (u : JSVal) : Except JSError Bool :=
  if !u.truthy then .ok false else
  (getProp u "role").bind fun role =>
  (normalizeRole role).bind fun r =>
  if r = "employer" then .ok true else
  (typeLowerCase u).bind fun t =>
  if t = some "employer" then .ok true else
  (rolesInclude u "employer").bind fun inRoles =>
  if inRoles then .ok true else .ok false

/-- `isJobseeker(u)`. -/
def isJobseeker (u : JSVal) : Except JSError Bool :=
  if !u.truthy then .ok false else
  (getProp u "role").bind fun role =>
  (normalizeRole role).bind fun r =>
  if r = "jobseeker" then .ok true else
  (typeLowerCase u).bind fun t =>
  if t = some "jobseeker" then .ok true else
  (rolesInclude u "jobseeker").bind fun inRoles =>
  if inRoles then .ok true else .ok false

/-- `isAdmin(u)`. -/
def isAdmin (u : JSVal) : Except JSError Bool :=
  if !u.truthy then .ok false else
  (optProp u "isAdmin").bind fun flag =>
  if flag.truthy then .ok true else
  (getProp u "role").bind fun role =>
  (normalizeRole role).bind fun r =>
  if r = "admin" then .ok true else
  (rolesInclude u "admin").bind fun inRoles =>
  if inRoles then .ok true else .ok false

/-- `isEmployerVerified(u)`. -/
def isEmployerVerified (u : JSVal) : Except JSError Bool :=
  if !u.truthy then .ok false else
  (optProp u "verificationStatus").bind fun vs =>
  (callToString (if vs.truthy then vs else str "")).bind fun s =>
  let status := toLowerCase s
  (optProp u "isVerified").bind fun a =>
  (optProp u "verified").bind fun b =>
  (optProp u "is_verified").bind fun c =>
  .ok (a.truthy || b.truthy || c.truthy || decide (status = "approved"))

/-- A list is replaced by its first element. -/
def firstOfList (v : JSVal) : JSVal :=
  if v.isArray then index0 v else v

/-- An object is replaced by its first non-null sub-field among `name`, `role`, `type`. -/
def nameRoleType (v : JSVal) : JSVal :=
  if v.typeofObject && !v.nullish then
    coalesce (coalesce (field v "name") (field v "role")) (field v "type")
  else v

/-- The claimed rule for `normalizeRole`, word for word: a list is replaced by
its first element; then an object by its first non-null sub-field among `name`,
`role`, `type`; the result is the lower-cased string form of the value, or the
empty string when the value is absent. -/
def normalizeRoleSpec (v : JSVal) : Except JSError String :=
  if (nameRoleType (firstOfList v)).nullish then .ok ""
  else (callToString (nameRoleType (firstOfList v))).map toLowerCase

/-- The rule of `normalizeRoleSpec` with "absent" widened to "falsy". -/
def normalizeRoleAmended (v : JSVal) : Except JSError String :=
  if !(nameRoleType (firstOfList v)).truthy then .ok ""
  else (callToString (nameRoleType (firstOfList v))).map toLowerCase

/-- The value is the boolean `true`. -/
def isBoolTrue : JSVal → Bool
  | .bool true => true
  | _ => false

/-- The string form of `u.verificationStatus` equals `approved` when compared
case-insensitively. -/
def statusApproved (u : JSVal) : Bool :=
  match callToString (if (field u "verificationStatus").truthy
      then field u "verificationStatus" else str "") with
  | .ok s => decide (toLowerCase s = "approved")
  | .error _ => false

/-- The claimed rule for `isEmployerVerified`, word for word: one of the
boolean aliases is `true`, or the status equals `approved` case-insensitively. -/
def isEmployerVerifiedSpec (u : JSVal) : Bool :=
  isBoolTrue (field u "isVerified") || isBoolTrue (field u "verified")
    || isBoolTrue (field u "is_verified") || statusApproved u

/-! ## Session store (`src/context/AuthContext.jsx`) -/

/-- The content of `localStorage`: the string stored under each key, if any. -/
abbrev Storage := String → Option String

/-- `ALIASES.USER`. -/
def ALIASES.USER : List String := ["user", "authUser", "currentUser"]

/-- `ALIASES.TOKEN`. -/
def ALIASES.TOKEN : List String := ["token", "authToken", "accessToken"]

/-- How a block ends: normally, or by a `throw`, each with the values of the
local variables `user` and `token` at that point. -/
inductive Completion where
  | normal (vars : Session) : Completion
  | thrown (vars : Session) : Completion

/-- The first loop of `readFromStorage`: `for (const k of ALIASES.USER)` with
`if (raw) { user = JSON.parse(raw); break; }`.  `JSON_parse` is the platform
function `JSON.parse`; when it throws, `user` has not been assigned. -/
def userLoop (JSON_parse : String → Except JSError JSVal) (store : Storage) :
    List String → Session → Completion
  | [], vars => .normal vars
  | k :: rest, vars =>
    match store k with
    | some raw =>
      if raw ≠ "" then
        match JSON_parse raw with
        | .ok v => .normal { vars with user := v }
        | .error _ => .thrown vars
      else userLoop JSON_parse store rest vars
    | none => userLoop JSON_parse store rest vars

/-- The second loop of `readFromStorage`: `for (const k of ALIASES.TOKEN)` with
`if (raw) { token = raw; break; }`. -/
def tokenLoop (store : Storage) : List String → Session → Session
  | [], vars => vars
  | k :: rest, vars =>
    match store k with
    | some raw => if raw ≠ "" then { vars with token := str raw } else tokenLoop store rest vars
    | none => tokenLoop store rest vars

/-- `readFromStorage()`: both loops run inside one `try`, and `catch {}` keeps
whatever `user` and `token` hold at the point of the exception. -/
def readFromStorage (JSON_parse : String → Except JSError JSVal) (store : Storage) : Session :=
  match userLoop JSON_parse store ALIASES.USER ⟨null, null⟩ with
  | .normal vars => tokenLoop store ALIASES.TOKEN vars
  | .thrown vars => vars

/-- The value under the first key of the list that holds a non-empty string. -/
def firstNonEmpty (store : Storage) (keys : List String) : Option String :=
  keys.findSome? fun k => (store k).filter fun raw => raw != ""

/-- A fragment of `JSON.parse` for the examples: three valid texts, every other
text is rejected with a `SyntaxError`. -/
def sampleParse (raw : String) : Except JSError JSVal :=
  if raw = "null" then .ok null
  else if raw = "\x7b\x7d" then .ok (obj [])
  else if raw = "\x7b\"role\":\"employer\"\x7d" then .ok (obj [("role", str "employer")])
  else .error .syntaxError

/-- A `localStorage` holding the given entries. -/
def storageOf (entries : List (String × String)) : Storage :=
  fun k => (entries.find? fun e => e.1 == k).map Prod.snd

/-- A fragment of `JSON.stringify` for the examples, exact on `null`, on the
empty object and on `{role: "employer"}`. -/
def sampleStringify : JSVal → String
  | .null => "null"
  | .obj [] => "\x7b\x7d"
  | _ => "\x7b\"role\":\"employer\"\x7d"

/-- `KEYS.USER`. -/
def KEYS.USER : String := "user"

/-- `KEYS.TOKEN`. -/
def KEYS.TOKEN : String := "token"

/-- `localStorage.setItem(k, v)` for a string `v`. -/
def setItem (store : Storage) (k v : String) : Storage :=
  fun k' => if k' = k then some v else store k'

/-- `localStorage.removeItem(k)`. -/
def removeItem (store : Storage) (k : String) : Storage :=
  fun k' => if k' = k then none else store k'

/-- `keys.forEach((k) => localStorage.removeItem(k))`. -/
def removeAll (store : Storage) : List String → Storage
  | [] => store
  | k :: rest => removeAll (removeItem store k) rest

/-- The state the `AuthProvider` works on: `localStorage` and the in-memory
`{ user, token }` held by `useState`. -/
structure AuthState where
  storage : Storage
  auth : Session

/-- `login(nextUser, nextToken)`.  `JSON_stringify` is the platform function
`JSON.stringify`.  `setItem` converts its value with `ToString`; when that
throws, `catch {}` ends the block and the write of the user stays. -/
def login (JSON_stringify : JSVal → String) (st : AuthState) (nextUser nextToken : JSVal) :
    AuthState :=
  let afterUser :=
    if nextUser.truthy then setItem st.storage KEYS.USER (JSON_stringify nextUser)
    else st.storage
  let afterToken :=
    if nextToken.truthy then
      match callToString nextToken with
      | .ok t => setItem afterUser KEYS.TOKEN t
      | .error _ => afterUser
    else afterUser
  { storage := afterToken
    auth := ⟨if nextUser.truthy then nextUser else null,
      if nextToken.truthy then nextToken else null⟩ }

/-- `logout()`. -/
def logout (st : AuthState) : AuthState :=
  { storage := removeAll st.storage (ALIASES.USER ++ ALIASES.TOKEN)
    auth := ⟨null, null⟩ }

/-- `refreshUser()` from the point where `api.get("/api/users/me")` settles:
`response` is `.ok data` for a response with body `data`, `.error e` for a
rejected request.  The result pairs the new state with the returned value. -/
def refreshUser {ε : Type} (JSON_stringify : JSVal → String) (response : Except ε JSVal)
    (st : AuthState) : AuthState × JSVal :=
  match response with
  | .ok data =>
    let next := if data.truthy then data else null
    let storage :=
      if next.truthy then setItem st.storage KEYS.USER (JSON_stringify next) else st.storage
    ({ storage := storage, auth := { st.auth with user := next } }, next)
  | .error _ => (st, null)

/-- A call `navigate(to, { replace })`. -/
structure Navigation where
  to_ : String
  replace : Bool

/-- `handleLogout()` of the Navbar: the six keys are removed, `auth.logout()`
runs, and `finally` navigates to `/login`. -/
def handleLogout (st : AuthState) : AuthState × Navigation :=
  let storage := removeAll st.storage
    ["user", "authUser", "currentUser", "token", "authToken", "accessToken"]
  (logout { storage := storage, auth := st.auth }, ⟨"/login", true⟩)

/-! ## Navigation renderer (`src/components/Navbar.jsx`) -/

/-- An element of a menu: a `NavLink` with its target and text, or a `button`
with its title.  Icons, styling and the unread badge are left out. -/
inductive NavItem where
  | link (to_ : String) (text : String) : NavItem
  | button (title : String) : NavItem
  deriving DecidableEq

/-- The entry an element stands for: the target of a link, the title of a button. -/
def NavItem.key : NavItem → String
  | .link to_ _ => to_
  | .button title => title

/-- What the Navbar renders: the desktop menu and, when open, the mobile menu. -/
structure NavView where
  desktop : List NavItem
  mobile : Option (List NavItem)

/-- `s.split(" ")[0]`: the text before the first space. -/
def firstWord (s : String) : String :=
  ⟨s.data.takeWhile fun c => c != ' '⟩

/-- `(sessionUser?.name || "Profile").split(" ")[0]`; only strings have a
`split` method, on any other truthy value the call is a `TypeError`. -/
def displayName (sessionUser : JSVal) : Except JSError String :=
  (optProp sessionUser "name").bind fun name =>
  match (if name.truthy then name else str "Profile") with
  | str s => .ok (firstWord s)
  | _ => .error .typeError

/-- The children of the desktop menu (`hidden md:flex`), in source order. -/
def desktopMenu (sessionUser : JSVal) (authed employer jobseeker admin : Bool)
    (displayName : String) (darkNow : Bool) : Except JSError (List NavItem) :=
  (if employer then
      (isEmployerVerified sessionUser).map fun verified =>
        (if !verified then [NavItem.link "/employer/verify" "Verify"] else [])
          ++ [.link "/employer/post-job" "Post Job", .link "/employer/jobs" "My Jobs"]
    else .ok []).map fun employerItems =>
  [NavItem.link "/" "Home"]
    ++ (if authed then [.link "/jobs" "Jobs"] else [])
    ++ (if jobseeker then [.link "/applications" "Applications"] else [])
    ++ employerItems
    ++ (if admin then [.link "/admin/verifications" "Admin"] else [])
    ++ (if authed then [.link "/notifications" "Notifications"] else [])
    ++ (if authed then [.link "/profile" displayName] else [])
    ++ (if !authed then [.link "/register" "Register", .link "/login" "Login"] else [])
    ++ (if authed then [.button "Logout"] else [])
    ++ [.button (if darkNow then "Switch to light mode" else "Switch to dark mode")]

/-- The children of the mobile menu (`md:hidden`), in source order; it calls
`isJobseeker` and `isEmployer` again. -/
def mobileMenu (sessionUser : JSVal) (authed admin : Bool) (darkNow : Bool) :
    Except JSError (List NavItem) :=
  (isJobseeker sessionUser).bind fun jobseeker =>
  (isEmployer sessionUser).bind fun employer =>
  (if employer then
      (isEmployerVerified sessionUser).map fun verified =>
        (if !verified then [NavItem.link "/employer/verify" "Verify"] else [])
          ++ [.link "/employer/post-job" "Post Job", .link "/employer/jobs" "My Jobs"]
    else .ok []).map fun employerItems =>
  [NavItem.link "/" "Home"]
    ++ (if authed then [.link "/jobs" "Jobs"] else [])
    ++ (if jobseeker then [.link "/applications" "Applications"] else [])
    ++ employerItems
    ++ (if admin then [.link "/admin/verifications" "Admin"] else [])
    ++ (if authed then [.link "/notifications" "Notifications"] else [])
    ++ (if authed then [.link "/profile" "Profile"] else [])
    ++ (if !authed then [.link "/register" "Register", .link "/login" "Login"] else [])
    ++ (if authed then [.button "Logout"] else [])
    ++ [.button (if darkNow then "Switch to light mode" else "Switch to dark mode")]

/-- `ctxUser || storedUser`. -/
def sessionUserOf (ctxUser storedUser : JSVal) : JSVal :=
  if ctxUser.truthy then ctxUser else storedUser

/-- One render of `Navbar()`: `ctxUser` is `auth.user`, `storedUser`, `open_`
and `darkNow` are the component states of these names. -/
def Navbar (ctxUser storedUser : JSVal) (open_ darkNow : Bool) : Except JSError NavView :=
  let sessionUser := sessionUserOf ctxUser storedUser
  let authed := sessionUser.truthy
  (isEmployer sessionUser).bind fun employer =>
  (isJobseeker sessionUser).bind fun jobseeker =>
  (isAdmin sessionUser).bind fun admin =>
  (displayName sessionUser).bind fun displayName =>
  (desktopMenu sessionUser authed employer jobseeker admin displayName darkNow).bind
    fun desktop =>
  (if open_ then (mobileMenu sessionUser authed admin darkNow).map some
    else .ok none).bind fun mobile =>
  .ok ⟨desktop, mobile⟩

/-- The `name` of the user is absent, falsy or a string. -/
def nameIsText (u : JSVal) : Bool :=
  match field u "name" with
  | str _ => true
  | v => !v.truthy

/-- The composition rule of the specification: the menu as a function of the
session flag, the classified roles, the verification flag, the text of the
profile link and the theme. -/
def navEntries (authed jobseeker employer verified admin : Bool) (profileText : String)
    (darkNow : Bool) : List NavItem :=
  [NavItem.link "/" "Home"]
    ++ (if authed then [.link "/jobs" "Jobs"] else [])
    ++ (if jobseeker then [.link "/applications" "Applications"] else [])
    ++ (if employer && !verified then [.link "/employer/verify" "Verify"] else [])
    ++ (if employer then
        [.link "/employer/post-job" "Post Job", .link "/employer/jobs" "My Jobs"] else [])
    ++ (if admin then [.link "/admin/verifications" "Admin"] else [])
    ++ (if authed then [.link "/notifications" "Notifications"] else [])
    ++ (if authed then [.link "/profile" profileText] else [])
    ++ (if !authed then [.link "/register" "Register", .link "/login" "Login"] else [])
    ++ (if authed then [.button "Logout"] else [])
    ++ [.button (if darkNow then "Switch to light mode" else "Switch to dark mode")]

/-! ## Unread-count poll (`src/components/Navbar.jsx`, the effect on `sessionUser`) -/

/-- A JavaScript number: a finite value, `NaN`, or an infinity. -/
inductive JSNumber where
  | finite (q : ℚ) : JSNumber
  | nan : JSNumber
  | infinity (negative : Bool) : JSNumber

/-- The global `isFinite(n)` on a number. -/
def JSNumber.isFinite : JSNumber → Bool
  | .finite _ => true
  | _ => false

/-- `Number(v)`.  `stringToNumber` is the platform conversion of a string
(`StringToNumber`); arrays and objects are first converted to a string, which
raises a `TypeError` exactly when `callToString` does. -/
def Number (stringToNumber : String → JSNumber) : JSVal → Except JSError JSNumber
  | .undefined => .ok .nan
  | .null => .ok (.finite 0)
  | .bool b => .ok (.finite (if b then 1 else 0))
  | .num n => .ok (.finite n)
  | .str s => .ok (stringToNumber s)
  | .arr items => (callToString (.arr items)).map stringToNumber
  | .obj fields => (callToString (.obj fields)).map stringToNumber

/-- The value `data?.unread ?? data?.count ?? 0` of `fetchCount`. -/
def unreadField (data : JSVal) : Except JSError JSVal :=
  (optProp data "unread").bind fun unread =>
  (optProp data "count").bind fun count =>
  .ok (coalesce (coalesce unread count) (num 0))

/-- The argument `fetchCount` passes to `setUnread` once the request has
settled: `isFinite(n) ? n : 0` for a response with body `data`, and `0` from
the `catch` branch, which also receives an exception of `Number`. -/
def unreadOf {ε : Type} (stringToNumber : String → JSNumber) (response : Except ε JSVal) :
    JSNumber :=
  match response with
  | .ok data =>
    match (unreadField data).bind (Number stringToNumber) with
    | .ok n => if n.isFinite then n else .finite 0
    | .error _ => .finite 0
  | .error _ => .finite 0

/-- The closure variables of one run of the effect. -/
structure EffectRun where
  sessionUser : JSVal
  mounted : Bool

/-- The state the effect works on: the `unread` state of the component, every
run of the effect so far (run `i` exists for `i < nextRun`), the run whose
interval and listener are registered, the runs that issued the requests still
in flight, and the number of requests issued so far. -/
structure PollState where
  unread : JSNumber
  runs : Nat → Option EffectRun
  nextRun : Nat
  active : Option Nat
  inFlight : List Nat
  issued : Nat

/-- The state after the first render: `useState(0)`, no effect has run. -/
def PollState.initial : PollState :=
  { unread := .finite 0, runs := fun _ => none, nextRun := 0, active := none,
    inFlight := [], issued := 0 }

/-- A call of `fetchCount()` in run `i`, up to the `await`: without a session
user it sets the count to `0` when mounted and returns; otherwise it issues
the request. -/
def fetchCount (i : Nat) (st : PollState) : PollState :=
  match st.runs i with
  | none => st
  | some run =>
    if !run.sessionUser.truthy then
      if run.mounted then { st with unread := .finite 0 } else st
    else { st with inFlight := st.inFlight ++ [i], issued := st.issued + 1 }

/-- The rest of `fetchCount()` in run `i` once its request has settled:
`if (mounted) setUnread(...)` in the `try` and in the `catch` branch. -/
def fetchCountSettled {ε : Type} (stringToNumber : String → JSNumber) (i : Nat)
    (response : Except ε JSVal) (st : PollState) : PollState :=
  match st.runs i with
  | none => st
  | some run =>
    if run.mounted then { st with unread := unreadOf stringToNumber response } else st

/-- The cleanup function of the active run: `mounted = false`, the interval
is cleared and the listener removed. -/
def cleanupEffect (st : PollState) : PollState :=
  match st.active with
  | none => st
  | some i =>
    { st with
      runs := fun j =>
        if j = i then (st.runs j).map fun run => { run with mounted := false } else st.runs j
      active := none }

/-- React runs the effect for a new `sessionUser`, after the cleanup of the
previous run: `mounted = true`, the initial `fetchCount()`, then the interval
and the listener are registered. -/
def runEffect (sessionUser : JSVal) (st : PollState) : PollState :=
  let st1 := cleanupEffect st
  let i := st1.nextRun
  let st2 : PollState :=
    { st1 with
      runs := fun j => if j = i then some ⟨sessionUser, true⟩ else st1.runs j
      nextRun := i + 1 }
  { fetchCount i st2 with active := some i }

/-- What can happen to the poll. -/
inductive PollEvent (ε : Type) where
  | effect (sessionUser : JSVal) : PollEvent ε
  | unmount : PollEvent ε
  | tick : PollEvent ε
  | notificationsChanged : PollEvent ε
  | response (k : Nat) (outcome : Except ε JSVal) : PollEvent ε

/-- One event: the effect runs, the component unmounts, the 30-second interval
fires, a `notifications-changed` event arrives, or the `k`-th request in
flight settles. -/
def pollStep {ε : Type} (stringToNumber : String → JSNumber) (ev : PollEvent ε)
    (st : PollState) : PollState :=
  match ev with
  | .effect sessionUser => runEffect sessionUser st
  | .unmount => cleanupEffect st
  | .tick =>
    match st.active with
    | some i => fetchCount i st
    | none => st
  | .notificationsChanged =>
    match st.active with
    | some i => fetchCount i st
    | none => st
  | .response k outcome =>
    match st.inFlight.get? k with
    | some i =>
      fetchCountSettled stringToNumber i outcome { st with inFlight := st.inFlight.eraseIdx k }
    | none => st

/-- A sequence of events, oldest first. -/
def pollRun {ε : Type} (stringToNumber : String → JSNumber) :
    List (PollEvent ε) → PollState → PollState
  | [], st => st
  | ev :: rest, st => pollRun stringToNumber rest (pollStep stringToNumber ev st)

/-! ## API client (`src/api/axios.js`) -/

/-- The headers of a request config: the value under each header name, if any. -/
abbrev Headers := String → Option JSVal

/-- A request config: its `headers`, possibly undefined, and all other fields. -/
structure RequestConfig (α : Type) where
  headers : Option Headers
  rest : α

/-- The `for` loop of the interceptor over `possibleKeys`: the first
non-empty stored value. -/
def interceptorToken (store : Storage) : List String → Option String
  | [] => none
  | k :: rest =>
    match store k with
    | some v => if v ≠ "" then some v else interceptorToken store rest
    | none => interceptorToken store rest

/-- The request interceptor registered with `api.interceptors.request.use`. -/
def requestInterceptor {α : Type} (store : Storage) (config : RequestConfig α) :
    RequestConfig α :=
  let skip :=
    match config.headers with
    | some headers => ((headers "X-Skip-Auth").getD undefined).truthy
    | none => false
  if skip then
    { config with
      headers := config.headers.map fun headers =>
        fun name => if name = "X-Skip-Auth" then none else headers name }
  else
    match interceptorToken store ["token", "authToken", "jwt", "accessToken"] with
    | some token =>
      { config with
        headers := some fun name =>
          if name = "Authorization" then some (str ("Bearer " ++ token))
          else (config.headers.getD fun _ => none) name }
    | none => config

/-- The run whose interval and listener are registered exists and is mounted. -/
def PollState.activeMounted (st : PollState) : Bool :=
  match st.active with
  | none => true
  | some i =>
    decide (i < st.nextRun) &&
      match st.runs i with
      | some run => run.mounted
      | none => false

/-- Run `i` exists and its cleanup has run (`mounted` is `false`). -/
def PollState.cleanedUp (st : PollState) (i : Nat) : Bool :=
  decide (i < st.nextRun) &&
    match st.runs i with
    | some run => !run.mounted
    | none => false

/-! ## Login page (`src/pages/Login.jsx`) -/

/-- A react-router location. -/
structure Location where
  pathname : String
  search : String
  hash : String

/-- The path a location stands for: `pathname + search + hash`. -/
def Location.createPath (l : Location) : String :=
  l.pathname ++ l.search ++ l.hash

/-- `a || b`. -/
def JSVal.or (a b : JSVal) : JSVal :=
  if a.truthy then a else b

/-- `String(v)`: like `v.toString()`, except that `undefined` and `null` print. -/
def stringOf : JSVal → Except JSError String
  | .undefined => .ok "undefined"
  | .null => .ok "null"
  | v => callToString v

/-- The object after `object.k = v`: the entry is replaced in place, or added
at the end. -/
def setField (k : String) (v : JSVal) (fields : List (String × JSVal)) :
    List (String × JSVal) :=
  if (lookup k fields).isSome then fields.map fun p => if p.1 = k then (k, v) else p
  else fields ++ [(k, v)]

/-- The candidate endpoints of `attempts`, in order. -/
def loginEndpoints : List String :=
  ["/api/auth/login", "/api/login", "/api/users/login"]

/-- The loop `for (const call of attempts) { try { res = await call(); break; } catch {} }`:
`post url body` is how the request to `url` settles, `.ok d` for a response
with body `d`, `.error e` for a rejection with the error object `e`.  The
result lists the requests made, in order, and `res.data` of the response kept. -/
def postAttempts (post : String → JSVal → Except JSVal JSVal) (body : JSVal) :
    List String → List (String × JSVal) × Option JSVal
  | [] => ([], none)
  | url :: rest =>
    match post url body with
    | .ok resData => ([(url, body)], some resData)
    | .error _ => ((url, body) :: (postAttempts post body rest).1, (postAttempts post body rest).2)

/-- `res.data?.data || res.data || {}`; a property read that cannot throw is
written with `field`. -/
def responseData (resData : JSVal) : JSVal :=
  ((field resData "data").or resData).or (obj [])

/-- `data.token || data.accessToken || data.jwt || data.authToken || data?.session?.token || ""`. -/
def responseToken (data : JSVal) : JSVal :=
  (((((field data "token").or (field data "accessToken")).or (field data "jwt")).or
    (field data "authToken")).or (field (field data "session") "token")).or (str "")

/-- `data.user || data.account || data.profile || data.me || null`, followed
by `if (!user) user = { email }`. -/
def responseUser (data : JSVal) (email : String) : JSVal :=
  if ((((field data "user").or (field data "account")).or (field data "profile")).or
      (field data "me")).truthy then
    (((field data "user").or (field data "account")).or (field data "profile")).or
      (field data "me")
  else obj [("email", str email)]

/-- `data.role || data.userRole || user.type || "jobseeker"`. -/
def roleFallback (data user : JSVal) : JSVal :=
  (((field data "role").or (field data "userRole")).or (field user "type")).or (str "jobseeker")

/-- The statement `if (!user.role) { user.role = ...; }` on a truthy `user`:
the user afterwards and the value of `user.role` afterwards.  The module is
strict code, so the assignment on a string, number or boolean is a
`TypeError`.  On a list the assignment adds an own property, which `JSVal`
cannot hold and `JSON.stringify` does not write: the list is kept as it is. -/
def ensureRole (data user : JSVal) : Except JSError (JSVal × JSVal) :=
  if (field user "role").truthy then .ok (user, field user "role")
  else
    match user with
    | .obj fields =>
      .ok (.obj (setField "role" (roleFallback data user) fields), roleFallback data user)
    | .arr items => .ok (.arr items, roleFallback data user)
    | _ => .error .typeError

/-- The target of the final `navigate`: `from`, the `pathname` of
`location.state.from`, when truthy; otherwise chosen by
`String(user.role).toLowerCase() === "employer"`. -/
def destination (from_ : Option Location) (role : JSVal) : Except JSError String :=
  if (match from_ with
      | some l => str l.pathname
      | none => undefined).truthy then
    match from_ with
    | some l => .ok l.pathname
    | none => .ok ""
  else
    (stringOf role).map fun s =>
      if toLowerCase s = "employer" then "/employer/jobs" else "/jobs"

/-- What the outer `try` of `handleSubmit` can throw: the `Error` created by
`new Error(message)`, or a `TypeError` raised by the engine. -/
inductive Thrown where
  | error (message : String) : Thrown
  | typeError : Thrown

/-- `e2?.response?.data?.message || e2.message || "Login failed."` for a thrown
`Error`, which has no `response`; `typeErrorMessage` is the engine's message
of a `TypeError`. -/
def errorText (typeErrorMessage : String) : Thrown → String
  | .error message => if message ≠ "" then message else "Login failed."
  | .typeError => if typeErrorMessage ≠ "" then typeErrorMessage else "Login failed."

/-- The state after `handleSubmit`: the session store, the inline error, the
navigation made, if any, and the requests sent, in order. -/
structure LoginPage where
  auth : AuthState
  err : String
  navigation : Option Navigation
  requests : List (String × JSVal)

/-- `handleSubmit(e)` of the login page, with the form fields `email` and `pw`
and `from_` standing for `location.state?.from`. -/
def handleSubmit (JSON_stringify : JSVal → String) (typeErrorMessage : String)
    (post : String → JSVal → Except JSVal JSVal) (from_ : Option Location)
    (email pw : String) (st : AuthState) : LoginPage :=
  let body := obj [("email", str email), ("password", str pw)]
  match (postAttempts post body loginEndpoints).2 with
  | none =>
    { auth := st, err := errorText typeErrorMessage (.error "Login failed."),
      navigation := none, requests := (postAttempts post body loginEndpoints).1 }
  | some resData =>
    match ensureRole (responseData resData) (responseUser (responseData resData) email) with
    | .error _ =>
      { auth := st, err := errorText typeErrorMessage .typeError, navigation := none,
        requests := (postAttempts post body loginEndpoints).1 }
    | .ok (user, role) =>
      match destination from_ role with
      | .ok to_ =>
        { auth := login JSON_stringify st user (responseToken (responseData resData)),
          err := "", navigation := some ⟨to_, true⟩,
          requests := (postAttempts post body loginEndpoints).1 }
      | .error _ =>
        { auth := login JSON_stringify st user (responseToken (responseData resData)),
          err := errorText typeErrorMessage .typeError, navigation := none,
          requests := (postAttempts post body loginEndpoints).1 }

/-! ## Registration page (`src/pages/Register.jsx`) -/

/-- The characters `String.prototype.trim` removes: JavaScript white space
and line terminators. -/
def isJSWhitespace (c : Char) : Bool :=
  c.toNat = 0x09 || c.toNat = 0x0A || c.toNat = 0x0B || c.toNat = 0x0C || c.toNat = 0x0D
    || c.toNat = 0x20 || c.toNat = 0xA0 || c.toNat = 0x1680
    || (0x2000 ≤ c.toNat && c.toNat ≤ 0x200A)
    || c.toNat = 0x2028 || c.toNat = 0x2029 || c.toNat = 0x202F || c.toNat = 0x205F
    || c.toNat = 0x3000 || c.toNat = 0xFEFF

/-- `s.trim()`. -/
def trim (s : String) : String :=
  ⟨((s.data.dropWhile isJSWhitespace).reverse.dropWhile isJSWhitespace).reverse⟩

/-- `s.length`: the number of UTF-16 code units. -/
def utf16Length (s : String) : Nat :=
  (s.data.map fun c => if 0x10000 ≤ c.toNat then 2 else 1).sum

/-- The value of the `rules` memo. -/
structure Rules where
  upper : Bool
  lower : Bool
  special : Bool
  len : Bool
  ok : Bool

/-- The `rules` memo: `/[A-Z]/`, `/[a-z]/`, `/[^A-Za-z0-9]/` and `pw.length >= 6`. -/
def rules (pw : String) : Rules :=
  let upper := pw.data.any fun c => 65 ≤ c.toNat && c.toNat ≤ 90
  let lower := pw.data.any fun c => 97 ≤ c.toNat && c.toNat ≤ 122
  let special := pw.data.any fun c =>
    !((65 ≤ c.toNat && c.toNat ≤ 90) || (97 ≤ c.toNat && c.toNat ≤ 122)
      || (48 ≤ c.toNat && c.toNat ≤ 57))
  let len := decide (6 ≤ utf16Length pw)
  { upper := upper, lower := lower, special := special, len := len,
    ok := upper && lower && special && len }

/-- The truth value of `match`, that is of `pw && pw2 && pw === pw2`. -/
def passwordsMatch (pw pw2 : String) : Bool :=
  decide (pw ≠ "") && decide (pw2 ≠ "") && decide (pw = pw2)

/-- The `body` of the registration request. -/
def registerBody (name email role pw : String) : JSVal :=
  obj [("name", str (trim name)), ("email", str (trim email)), ("password", str (trim pw)),
    ("role", str role), ("accountType", str role), ("userType", str role)]

/-- The candidate endpoints of `tries`, in order. -/
def registerEndpoints : List String :=
  ["/api/auth/register", "/api/users/register", "/api/register"]

/-- The loop over `tries`: `try { await call(); ok = true; break; } catch (e2) { lastError = e2; }`.
The result lists the requests made, `ok` and `lastError`. -/
def postTries (post : String → JSVal → Except JSVal JSVal) (body : JSVal) :
    List String → JSVal → List (String × JSVal) × Bool × JSVal
  | [], lastError => ([], false, lastError)
  | url :: rest, lastError =>
    match post url body with
    | .ok _ => ([(url, body)], true, lastError)
    | .error e2 =>
      ((url, body) :: (postTries post body rest e2).1, (postTries post body rest e2).2)

/-- The state after `submit`: the inline error, the message, the navigation
scheduled by `setTimeout`, and the requests sent, in order. -/
structure RegisterPage where
  err : JSVal
  msg : String
  navigation : Option String
  requests : List (String × JSVal)

/-- `submit(e)` of the registration page with the form state `name`, `email`,
`role`, `pw`, `pw2`. -/
def submit (post : String → JSVal → Except JSVal JSVal) (name email role pw pw2 : String) :
    RegisterPage :=
  if !(rules pw).ok then
    { err := str "Password does not meet the required rules.", msg := "", navigation := none,
      requests := [] }
  else if !passwordsMatch pw pw2 then
    { err := str "Passwords do not match.", msg := "", navigation := none, requests := [] }
  else
    match postTries post (registerBody name email role pw) registerEndpoints null with
    | (requests, true, _) =>
      { err := str "", msg := "Account created! You can now log in.",
        navigation := some "/login", requests := requests }
    | (requests, false, lastError) =>
      { err :=
          if lastError.truthy then
            ((field (field (field lastError "response") "data") "message").or
              (field lastError "message")).or (str "Registration failed.")
          else str "Registration failed."
        msg := "", navigation := none, requests := requests }

/-! ## Post Job page (`src/pages/PostJob.jsx`) -/

/-- The `canSubmit` memo.  A salary field is `none` for the empty input and
`some n` for a text whose `Number` is the integer `n`. -/
def canSubmit (title region description : String) (minSalary maxSalary : Option Int) : Bool :=
  let haveSalary :=
    (match minSalary with
      | some n => decide (0 < n)
      | none => false)
    || (match maxSalary with
      | some n => decide (0 < n)
      | none => false)
  decide (trim title ≠ "") && decide (region ≠ "") && decide (trim description ≠ "")
    && haveSalary

/-- `salaryNumber`: `maxSalary !== "" ? Number(maxSalary) : Number(minSalary || 0)`. -/
def salaryNumber (minSalary maxSalary : Option Int) : Int :=
  match maxSalary with
  | some n => n
  | none =>
    match minSalary with
    | some m => m
    | none => 0

/-- The fields of the payload that the title, region, description and salary
inputs determine. -/
structure JobPayload where
  title : String
  description : String
  location : String
  salary : Int
  minSalary : Option Int
  maxSalary : Option Int

/-- `onSubmit(e)` up to the first `api.post`: the payload sent, or `none` when
the handler returns at `if (!canSubmit || submitting) return;`. -/
def onSubmit (submitting : Bool) (title region description : String)
    (minSalary maxSalary : Option Int) : Option JobPayload :=
  if !canSubmit title region description minSalary maxSalary || submitting then none
  else
    some { title := trim title, description := trim description, location := region,
           salary := salaryNumber minSalary maxSalary, minSalary := minSalary,
           maxSalary := maxSalary }

/-! ## Employer jobs page (`src/pages/EmployerJobs.jsx`) -/

/-- A job of the `jobs` state: an object, given by its entries. -/
abbrev Job := List (String × JSVal)

/-- The value is the boolean `false`. -/
def isBoolFalse : JSVal → Bool
  | .bool false => true
  | _ => false

/-- `a === b`.  Arrays and objects compare by reference, which the embedding
does not track: they are never equal here, so the ids of jobs are to be
strings, numbers or booleans. -/
def strictEquals : JSVal → JSVal → Bool
  | .undefined, .undefined => true
  | .null, .null => true
  | .bool a, .bool b => a == b
  | .num a, .num b => a == b
  | .str a, .str b => a == b
  | _, _ => false

/-- `getStatus(job)`. -/
def getStatus (job : Job) : Except JSError String :=
  (callToString (((field (obj job) "status").or (field (obj job) "state")).or (str ""))).bind
    fun raw =>
  if toLowerCase raw = "open" ∨ toLowerCase raw = "closed" then .ok (toLowerCase raw)
  else if isBoolTrue (field (obj job) "isOpen") || isBoolTrue (field (obj job) "active")
      || isBoolTrue (field (obj job) "open") then .ok "open"
  else if isBoolFalse (field (obj job) "isOpen") || isBoolFalse (field (obj job) "active")
      || isBoolTrue (field (obj job) "closed") then .ok "closed"
  else .ok "open"

/-- `j._id || j.id`. -/
def jobId (j : Job) : JSVal :=
  (field (obj j) "_id").or (field (obj j) "id")

/-- The optimistic update:
`arr.map((j) => ((j._id || j.id) === id ? { ...j, status: target } : j))`. -/
def optimisticUpdate (id : JSVal) (target : String) (arr : List Job) : List Job :=
  arr.map fun j => if strictEquals (jobId j) id then setField "status" (str target) j else j

/-- The rollback:
`arr.map((j) => ((j._id || j.id) === (prev._id || prev.id) ? prev : j))`. -/
def rollback (prev : Job) (arr : List Job) : List Job :=
  arr.map fun j => if strictEquals (jobId j) (jobId prev) then prev else j

/-- The own entries `{ ...v }` copies from an object or a list. -/
def ownEntries : JSVal → List (String × JSVal)
  | .obj fields => fields
  | .arr items => items.enum.map fun p => (toString p.1, p.2)
  | _ => []

/-- The update from the response:
`arr.map((j) => ((j._id || j.id) === id ? { ...j, ...updated } : j))`; the
entries of `updated` come first, so they are the live ones. -/
def mergeUpdated (id updated : JSVal) (arr : List Job) : List Job :=
  arr.map fun j => if strictEquals (jobId j) id then ownEntries updated ++ j else j

/-- The candidate requests of `attempts`, in order. -/
def toggleRequests : List String :=
  ["PUT /api/jobs/:id", "PATCH /api/jobs/:id", "PATCH /api/employer/jobs/:id"]

/-- The loop over `attempts` of `toggleOpen`:
`try { res = await call(); ok = true; break; } catch {}`; the result is
`res.data` of the first request that succeeds. -/
def firstUpdate (request : String → Except JSVal JSVal) : List String → Option JSVal
  | [] => none
  | r :: rest =>
    match request r with
    | .ok resData => some resData
    | .error _ => firstUpdate request rest

/-- The state after `toggleOpen`: the `jobs` state and the text of the
`alert`, if one was shown. -/
structure EmployerJobsPage where
  jobs : List Job
  alert : Option String

/-- `toggleOpen(job)` on the `jobs` state; `getStatus(job)` runs before the
`try`, so its exception ends the call. -/
def toggleOpen (request : String → Except JSVal JSVal) (job : Job) (jobs : List Job) :
    Except JSError EmployerJobsPage :=
  (getStatus job).bind fun current =>
  let target := if current = "open" then "closed" else "open"
  let optimistic := optimisticUpdate (jobId job) target jobs
  match firstUpdate request toggleRequests with
  | some resData =>
    let updated := (field resData "job").or resData
    if updated.truthy && updated.typeofObject then
      .ok { jobs := mergeUpdated (jobId job) updated optimistic, alert := none }
    else .ok { jobs := optimistic, alert := none }
  | none => .ok { jobs := rollback job optimistic, alert := some "Could not update status." }

end Adwumawura

namespace Adwumawura
open JSVal

/-! ## Shared lemmas -/

theorem getProp_of_truthy (u : JSVal) (k : String) (h : u.truthy = true) :
    getProp u k = .ok (field u k) := by
  cases u <;> simp_all [getProp, field, truthy]

theorem optProp_of_truthy (u : JSVal) (k : String) (h : u.truthy = true) :
    optProp u k = .ok (field u k) := by
  cases u <;> simp_all [optProp, getProp, field, truthy, nullish]

theorem char_toLower_toLower (c : Char) : c.toLower.toLower = c.toLower := by
  by_cases h : c.toNat ≥ 65 ∧ c.toNat ≤ 90
  · obtain ⟨h1, h2⟩ := h
    have hc : c = Char.ofNat c.toNat := (Char.ofNat_toNat c).symm
    generalize c.toNat = n at *
    subst hc
    interval_cases n <;> rfl
  · have hfix : c.toLower = c := by
      unfold Char.toLower
      simp only []
      rw [if_neg h]
    rw [hfix, hfix]

theorem toLowerCase_idem (s : String) : toLowerCase (toLowerCase s) = toLowerCase s := by
  unfold toLowerCase
  simp only [List.map_map]
  congr 1
  apply List.map_congr_left
  intro c _
  exact char_toLower_toLower c

theorem plain_lookup (k : String) (v : JSVal) :
    ∀ fields : List (String × JSVal),
      plainFields fields = true → lookup k fields = some v → plain v = true := by
  intro fields
  induction fields with
  | nil => intro _ h; simp [lookup] at h
  | cons p rest ih =>
    obtain ⟨k', w⟩ := p
    intro hp hl
    simp only [plainFields, Bool.and_eq_true] at hp
    simp only [lookup] at hl
    split at hl
    · cases hl
      exact hp.1
    · exact ih hp.2 hl

theorem plain_field (v : JSVal) (k : String) (h : plain v = true) : plain (field v k) = true := by
  cases v with
  | obj fields =>
    simp only [plain, Bool.and_eq_true] at h
    simp only [field]
    cases hl : lookup k fields with
    | none => simp [plain]
    | some w => simpa using plain_lookup k w fields h.2 hl
  | _ => simp [field, plain]

theorem plain_index0 (v : JSVal) (h : plain v = true) : plain (index0 v) = true := by
  cases v with
  | arr items =>
    cases items with
    | nil => simp [index0, plain]
    | cons x rest =>
      simp only [plain, plainItems, Bool.and_eq_true] at h
      simpa [index0] using h.1
  | _ => simp [index0, plain]

theorem plain_coalesce (a b : JSVal) (ha : plain a = true) (hb : plain b = true) :
    plain (coalesce a b) = true := by
  unfold coalesce
  split <;> assumption

mutual
theorem callToString_plain :
    ∀ v : JSVal, plain v = true → v.nullish = false → ∃ s, callToString v = .ok s
  | .undefined, _, hn => by simp [nullish] at hn
  | .null, _, hn => by simp [nullish] at hn
  | .bool b, _, _ => by simp [callToString]
  | .num n, _, _ => by simp [callToString]
  | .str s, _, _ => by simp [callToString]
  | .arr items, hp, _ => by
    obtain ⟨ps, hps⟩ := joinItems_plain items (by simpa [plain] using hp)
    simp [callToString, hps, Except.map]
  | .obj fields, hp, _ => by
    simp only [plain, Bool.and_eq_true, Bool.not_eq_true'] at hp
    simp [callToString, hp.1]
theorem joinItems_plain :
    ∀ items : List JSVal, plainItems items = true → ∃ ps, joinItems items = .ok ps
  | [], _ => by simp [joinItems]
  | x :: rest, hp => by
    simp only [plainItems, Bool.and_eq_true] at hp
    obtain ⟨ps, hps⟩ := joinItems_plain rest hp.2
    cases hx : x.nullish with
    | true =>
      cases x <;> simp [nullish] at hx <;> simp [joinItems, hps, Except.map]
    | false =>
      obtain ⟨s, hs⟩ := callToString_plain x hp.1 hx
      cases x <;> simp [nullish] at hx <;>
        simp [joinItems, hs, hps, Except.map, Except.bind]
end

theorem callToString_orEmpty (v : JSVal) (h : plain v = true) :
    ∃ s, callToString (if v.truthy then v else str "") = .ok s := by
  cases ht : v.truthy with
  | true =>
    have hn : v.nullish = false := by cases v <;> simp_all [truthy, nullish]
    simpa using callToString_plain v h hn
  | false => exact ⟨"", by simp [callToString]⟩

theorem normalizeRole_step (r : JSVal) :
    ((if r.truthy && r.typeofObject then
        (getProp r "name").bind fun n =>
        (getProp r "role").bind fun ro =>
        (getProp r "type").bind fun t =>
        .ok (coalesce (coalesce n ro) t)
      else .ok r).bind fun r =>
      (callToString (if r.truthy then r else str "")).map toLowerCase)
    = (if !(nameRoleType r).truthy then .ok ""
        else (callToString (nameRoleType r)).map toLowerCase) := by
  have hempty : (callToString (str "")).map toLowerCase = .ok "" := rfl
  cases r with
  | arr items =>
    have e1 : (arr items).truthy = true := rfl
    have e2 : (arr items).typeofObject = true := rfl
    have e3 : (arr items).nullish = false := rfl
    simp only [nameRoleType, e1, e2, e3, getProp, field, Except.bind,
      Bool.and_self, Bool.not_false, if_true]
    generalize coalesce (coalesce undefined undefined) undefined = x
    cases hx : x.truthy <;> simp [hempty]
  | obj fields =>
    have e1 : (obj fields).truthy = true := rfl
    have e2 : (obj fields).typeofObject = true := rfl
    have e3 : (obj fields).nullish = false := rfl
    simp only [nameRoleType, e1, e2, e3, getProp, field, Except.bind,
      Bool.and_self, Bool.not_false, if_true]
    generalize coalesce (coalesce ((lookup "name" fields).getD undefined)
      ((lookup "role" fields).getD undefined)) ((lookup "type" fields).getD undefined) = x
    cases hx : x.truthy <;> simp [hempty]
  | bool b => cases b <;> simp [nameRoleType, truthy, typeofObject, nullish, Except.bind, hempty]
  | num n =>
    by_cases hn : n = 0 <;>
      simp [nameRoleType, truthy, typeofObject, nullish, Except.bind, hempty, hn]
  | str t =>
    by_cases ht : t = "" <;>
      simp [nameRoleType, truthy, typeofObject, nullish, Except.bind, hempty, ht]
  | undefined => simp [nameRoleType, truthy, typeofObject, nullish, Except.bind, hempty]
  | null => simp [nameRoleType, truthy, typeofObject, nullish, Except.bind, hempty]

theorem normalizeRole_eq_amended (v : JSVal) : normalizeRole v = normalizeRoleAmended v := by
  unfold normalizeRole normalizeRoleAmended firstOfList
  exact normalizeRole_step _

theorem normalizeRole_lower (v : JSVal) (s : String) (h : normalizeRole v = .ok s) :
    toLowerCase s = s := by
  rw [normalizeRole_eq_amended] at h
  unfold normalizeRoleAmended at h
  generalize nameRoleType (firstOfList v) = x at h
  cases hx : x.truthy with
  | false =>
    simp [hx] at h
    subst h
    rfl
  | true =>
    simp only [hx, Bool.not_true, Bool.false_eq_true, if_false] at h
    cases hc : callToString x with
    | error e => rw [hc] at h; cases h
    | ok t =>
      rw [hc] at h
      simp only [Except.map] at h
      cases h
      exact toLowerCase_idem t

theorem plain_nameRoleType (w : JSVal) (h : plain w = true) : plain (nameRoleType w) = true := by
  unfold nameRoleType
  split
  · exact plain_coalesce _ _ (plain_coalesce _ _ (plain_field w _ h) (plain_field w _ h))
      (plain_field w _ h)
  · exact h

theorem plain_firstOfList (v : JSVal) (h : plain v = true) : plain (firstOfList v) = true := by
  unfold firstOfList
  split
  · exact plain_index0 v h
  · exact h

theorem normalizeRole_total (v : JSVal) (h : plain v = true) : ∃ s, normalizeRole v = .ok s := by
  rw [normalizeRole_eq_amended]
  unfold normalizeRoleAmended
  have h2 := plain_nameRoleType _ (plain_firstOfList v h)
  generalize nameRoleType (firstOfList v) = x at h2
  cases hx : x.truthy with
  | false => simp
  | true =>
    have hn : x.nullish = false := by cases x <;> simp_all [truthy, nullish]
    obtain ⟨s, hs⟩ := callToString_plain x h2 hn
    simp [hs, Except.map]

theorem rolesInclude_of_not_array (u : JSVal) (target : String) (hu : u.truthy = true)
    (h : (field u "roles").isArray = false) : rolesInclude u target = .ok false := by
  unfold rolesInclude
  rw [optProp_of_truthy u _ hu]
  simp only [Except.bind]
  cases hr : field u "roles" <;> simp_all [isArray]

theorem isEmployer_true (u : JSVal) (h : isEmployer u = .ok true) :
    u.truthy = true ∧ ∃ r, normalizeRole (field u "role") = .ok r
      ∧ (r = "employer" ∨ typeLowerCase u = .ok (some "employer")
          ∨ rolesInclude u "employer" = .ok true) := by
  unfold isEmployer at h
  cases hu : u.truthy with
  | false => simp [hu] at h
  | true =>
    refine ⟨rfl, ?_⟩
    simp only [hu, Bool.not_true, Bool.false_eq_true, if_false, getProp_of_truthy u _ hu,
      Except.bind] at h
    cases hr : normalizeRole (field u "role") with
    | error e => simp [hr] at h
    | ok r =>
      refine ⟨r, rfl, ?_⟩
      simp only [hr] at h
      by_cases h1 : r = "employer"
      · exact Or.inl h1
      · simp only [h1, if_false] at h
        cases ht : typeLowerCase u with
        | error e => simp [ht] at h
        | ok t =>
          simp only [ht] at h
          by_cases h2 : t = some "employer"
          · exact Or.inr (Or.inl (by rw [h2]))
          · simp only [h2, if_false] at h
            cases hi : rolesInclude u "employer" with
            | error e => simp [hi] at h
            | ok b =>
              simp only [hi] at h
              cases b
              · simp at h
              · exact Or.inr (Or.inr rfl)

theorem isJobseeker_true (u : JSVal) (h : isJobseeker u = .ok true) :
    u.truthy = true ∧ ∃ r, normalizeRole (field u "role") = .ok r
      ∧ (r = "jobseeker" ∨ typeLowerCase u = .ok (some "jobseeker")
          ∨ rolesInclude u "jobseeker" = .ok true) := by
  unfold isJobseeker at h
  cases hu : u.truthy with
  | false => simp [hu] at h
  | true =>
    refine ⟨rfl, ?_⟩
    simp only [hu, Bool.not_true, Bool.false_eq_true, if_false, getProp_of_truthy u _ hu,
      Except.bind] at h
    cases hr : normalizeRole (field u "role") with
    | error e => simp [hr] at h
    | ok r =>
      refine ⟨r, rfl, ?_⟩
      simp only [hr] at h
      by_cases h1 : r = "jobseeker"
      · exact Or.inl h1
      · simp only [h1, if_false] at h
        cases ht : typeLowerCase u with
        | error e => simp [ht] at h
        | ok t =>
          simp only [ht] at h
          by_cases h2 : t = some "jobseeker"
          · exact Or.inr (Or.inl (by rw [h2]))
          · simp only [h2, if_false] at h
            cases hi : rolesInclude u "jobseeker" with
            | error e => simp [hi] at h
            | ok b =>
              simp only [hi] at h
              cases b
              · simp at h
              · exact Or.inr (Or.inr rfl)

theorem isAdmin_true (u : JSVal) (h : isAdmin u = .ok true) :
    u.truthy = true ∧ ((field u "isAdmin").truthy = true
      ∨ ∃ r, normalizeRole (field u "role") = .ok r
          ∧ (r = "admin" ∨ rolesInclude u "admin" = .ok true)) := by
  unfold isAdmin at h
  cases hu : u.truthy with
  | false => simp [hu] at h
  | true =>
    refine ⟨rfl, ?_⟩
    simp only [hu, Bool.not_true, Bool.false_eq_true, if_false, getProp_of_truthy u _ hu,
      optProp_of_truthy u _ hu, Except.bind] at h
    cases hf : (field u "isAdmin").truthy with
    | true => exact Or.inl rfl
    | false =>
      right
      simp only [hf, Bool.false_eq_true, if_false] at h
      cases hr : normalizeRole (field u "role") with
      | error e => simp [hr] at h
      | ok r =>
        refine ⟨r, rfl, ?_⟩
        simp only [hr] at h
        by_cases h1 : r = "admin"
        · exact Or.inl h1
        · simp only [h1, if_false] at h
          cases hi : rolesInclude u "admin" with
          | error e => simp [hi] at h
          | ok b =>
            simp only [hi] at h
            cases b
            · simp at h
            · exact Or.inr rfl

theorem mapNormalizeRole_total :
    ∀ items : List JSVal, plainItems items = true → ∃ ss, mapNormalizeRole items = .ok ss := by
  intro items
  induction items with
  | nil => intro _; simp [mapNormalizeRole]
  | cons x rest ih =>
    intro hp
    simp only [plainItems, Bool.and_eq_true] at hp
    obtain ⟨s, hs⟩ := normalizeRole_total x hp.1
    obtain ⟨ss, hss⟩ := ih hp.2
    simp [mapNormalizeRole, hs, hss, Except.bind, Except.map]

theorem typeLowerCase_total (u : JSVal) (hu : u.truthy = true) (hp : plain u = true) :
    ∃ t, typeLowerCase u = .ok t := by
  unfold typeLowerCase
  rw [optProp_of_truthy u _ hu]
  simp only [Except.bind]
  cases hn : (field u "type").nullish with
  | true => simp
  | false =>
    obtain ⟨s, hs⟩ := callToString_plain _ (plain_field u "type" hp) hn
    simp [hs, Except.map]

theorem rolesInclude_total (u : JSVal) (target : String) (hu : u.truthy = true)
    (hp : plain u = true) : ∃ b, rolesInclude u target = .ok b := by
  unfold rolesInclude
  rw [optProp_of_truthy u _ hu]
  simp only [Except.bind]
  have hr := plain_field u "roles" hp
  cases hf : field u "roles" with
  | arr items =>
    rw [hf] at hr
    obtain ⟨ss, hss⟩ := mapNormalizeRole_total items (by simpa [plain] using hr)
    simp [hss, Except.map]
  | _ => simp

theorem isEmployer_total (u : JSVal) (hp : plain u = true) : ∃ b, isEmployer u = .ok b := by
  unfold isEmployer
  cases hu : u.truthy with
  | false => simp
  | true =>
    obtain ⟨r, hr⟩ := normalizeRole_total _ (plain_field u "role" hp)
    obtain ⟨t, ht⟩ := typeLowerCase_total u hu hp
    obtain ⟨b, hb⟩ := rolesInclude_total u "employer" hu hp
    simp only [Bool.not_true, Bool.false_eq_true, if_false, getProp_of_truthy u _ hu,
      Except.bind, hr, ht, hb]
    by_cases h1 : r = "employer" <;> by_cases h2 : t = some "employer" <;> cases b <;>
      simp [h1, h2]

theorem isJobseeker_total (u : JSVal) (hp : plain u = true) : ∃ b, isJobseeker u = .ok b := by
  unfold isJobseeker
  cases hu : u.truthy with
  | false => simp
  | true =>
    obtain ⟨r, hr⟩ := normalizeRole_total _ (plain_field u "role" hp)
    obtain ⟨t, ht⟩ := typeLowerCase_total u hu hp
    obtain ⟨b, hb⟩ := rolesInclude_total u "jobseeker" hu hp
    simp only [Bool.not_true, Bool.false_eq_true, if_false, getProp_of_truthy u _ hu,
      Except.bind, hr, ht, hb]
    by_cases h1 : r = "jobseeker" <;> by_cases h2 : t = some "jobseeker" <;> cases b <;>
      simp [h1, h2]

theorem isAdmin_total (u : JSVal) (hp : plain u = true) : ∃ b, isAdmin u = .ok b := by
  unfold isAdmin
  cases hu : u.truthy with
  | false => simp
  | true =>
    obtain ⟨r, hr⟩ := normalizeRole_total _ (plain_field u "role" hp)
    obtain ⟨b, hb⟩ := rolesInclude_total u "admin" hu hp
    simp only [Bool.not_true, Bool.false_eq_true, if_false, getProp_of_truthy u _ hu,
      optProp_of_truthy u _ hu, Except.bind, hr, hb]
    cases (field u "isAdmin").truthy <;> by_cases h1 : r = "admin" <;> cases b <;> simp [h1]

theorem isEmployerVerified_total (u : JSVal) (hp : plain u = true) :
    ∃ b, isEmployerVerified u = .ok b := by
  unfold isEmployerVerified
  cases hu : u.truthy with
  | false => simp
  | true =>
    obtain ⟨s, hs⟩ := callToString_orEmpty _ (plain_field u "verificationStatus" hp)
    simp [optProp_of_truthy u _ hu, Except.bind, hs]

theorem isEmployer_iff (u : JSVal) (hu : u.truthy = true) (hp : plain u = true) :
    isEmployer u = .ok true ↔
      (normalizeRole (field u "role") = .ok "employer"
        ∨ typeLowerCase u = .ok (some "employer")
        ∨ rolesInclude u "employer" = .ok true) := by
  obtain ⟨r, hr⟩ := normalizeRole_total _ (plain_field u "role" hp)
  obtain ⟨t, ht⟩ := typeLowerCase_total u hu hp
  obtain ⟨b, hb⟩ := rolesInclude_total u "employer" hu hp
  unfold isEmployer
  simp only [hu, Bool.not_true, Bool.false_eq_true, if_false, getProp_of_truthy u _ hu,
    Except.bind, hr, ht, hb]
  by_cases h1 : r = "employer" <;> by_cases h2 : t = some "employer" <;> cases b <;>
    simp [h1, h2]

theorem isJobseeker_iff (u : JSVal) (hu : u.truthy = true) (hp : plain u = true) :
    isJobseeker u = .ok true ↔
      (normalizeRole (field u "role") = .ok "jobseeker"
        ∨ typeLowerCase u = .ok (some "jobseeker")
        ∨ rolesInclude u "jobseeker" = .ok true) := by
  obtain ⟨r, hr⟩ := normalizeRole_total _ (plain_field u "role" hp)
  obtain ⟨t, ht⟩ := typeLowerCase_total u hu hp
  obtain ⟨b, hb⟩ := rolesInclude_total u "jobseeker" hu hp
  unfold isJobseeker
  simp only [hu, Bool.not_true, Bool.false_eq_true, if_false, getProp_of_truthy u _ hu,
    Except.bind, hr, ht, hb]
  by_cases h1 : r = "jobseeker" <;> by_cases h2 : t = some "jobseeker" <;> cases b <;>
    simp [h1, h2]

theorem isAdmin_iff (u : JSVal) (hu : u.truthy = true) (hp : plain u = true) :
    isAdmin u = .ok true ↔
      ((field u "isAdmin").truthy = true
        ∨ normalizeRole (field u "role") = .ok "admin"
        ∨ rolesInclude u "admin" = .ok true) := by
  obtain ⟨r, hr⟩ := normalizeRole_total _ (plain_field u "role" hp)
  obtain ⟨b, hb⟩ := rolesInclude_total u "admin" hu hp
  unfold isAdmin
  simp only [hu, Bool.not_true, Bool.false_eq_true, if_false, getProp_of_truthy u _ hu,
    optProp_of_truthy u _ hu, Except.bind, hr, hb]
  cases (field u "isAdmin").truthy <;> by_cases h1 : r = "admin" <;> cases b <;> simp [h1]

theorem mapNormalizeRole_mem (target : String) :
    ∀ (items : List JSVal) (ss : List String), mapNormalizeRole items = .ok ss →
      (target ∈ ss ↔ ∃ x ∈ items, normalizeRole x = .ok target) := by
  intro items
  induction items with
  | nil =>
    intro ss h
    simp only [mapNormalizeRole] at h
    cases h
    simp
  | cons x rest ih =>
    intro ss h
    simp only [mapNormalizeRole] at h
    cases hx : normalizeRole x with
    | error e => simp [hx, Except.bind] at h
    | ok s =>
      cases hr : mapNormalizeRole rest with
      | error e => simp [hx, hr, Except.bind, Except.map] at h
      | ok ss' =>
        simp only [hx, hr, Except.bind, Except.map] at h
        cases h
        have := ih ss' hr
        simp only [List.mem_cons, this, exists_eq_or_imp, Except.ok.injEq]
        constructor
        · rintro (h1 | h1)
          · exact Or.inl (by rw [hx, h1])
          · exact Or.inr h1
        · rintro (h1 | h1)
          · rw [hx] at h1
            exact Or.inl (Except.ok.inj h1).symm
          · exact Or.inr h1

theorem rolesInclude_iff (u : JSVal) (target : String) (hu : u.truthy = true)
    (hp : plain u = true) :
    rolesInclude u target = .ok true ↔
      ∃ items, field u "roles" = arr items ∧ ∃ x ∈ items, normalizeRole x = .ok target := by
  unfold rolesInclude
  rw [optProp_of_truthy u _ hu]
  simp only [Except.bind]
  have hr := plain_field u "roles" hp
  cases hf : field u "roles" with
  | arr items =>
    rw [hf] at hr
    obtain ⟨ss, hss⟩ := mapNormalizeRole_total items (by simpa [plain] using hr)
    have hmem := mapNormalizeRole_mem target items ss hss
    simp [hss, Except.map, hmem]
  | _ => simp

theorem userLoop_eq (JSON_parse : String → Except JSError JSVal) (store : Storage)
    (vars : Session) :
    ∀ keys : List String, userLoop JSON_parse store keys vars =
      match firstNonEmpty store keys with
      | none => .normal vars
      | some raw =>
        match JSON_parse raw with
        | .ok v => .normal { vars with user := v }
        | .error _ => .thrown vars := by
  intro keys
  induction keys with
  | nil => simp [userLoop, firstNonEmpty]
  | cons k rest ih =>
    unfold firstNonEmpty at ih ⊢
    cases hk : store k with
    | none => simp [userLoop, hk, ih, Option.filter]
    | some raw =>
      by_cases hraw : raw = ""
      · simp [userLoop, hk, hraw, ih, Option.filter]
      · simp [userLoop, hk, hraw, Option.filter]

theorem tokenLoop_eq (store : Storage) (vars : Session) :
    ∀ keys : List String, tokenLoop store keys vars =
      match firstNonEmpty store keys with
      | none => vars
      | some raw => { vars with token := str raw } := by
  intro keys
  induction keys with
  | nil => simp [tokenLoop, firstNonEmpty]
  | cons k rest ih =>
    unfold firstNonEmpty at ih ⊢
    cases hk : store k with
    | none => simp [tokenLoop, hk, ih, Option.filter]
    | some raw =>
      by_cases hraw : raw = ""
      · simp [tokenLoop, hk, hraw, ih, Option.filter]
      · simp [tokenLoop, hk, hraw, Option.filter]

theorem firstNonEmpty_none (store : Storage) :
    ∀ keys : List String, (∀ k ∈ keys, store k = none) → firstNonEmpty store keys = none := by
  intro keys h
  unfold firstNonEmpty
  rw [List.findSome?_eq_none_iff]
  intro k hk
  simp [h k hk, Option.filter]

theorem setItem_same (store : Storage) (k v : String) : setItem store k v k = some v := by
  simp [setItem]

theorem setItem_other (store : Storage) (k v k' : String) (h : k' ≠ k) :
    setItem store k v k' = store k' := by
  simp [setItem, h]

theorem removeAll_apply (keys : List String) :
    ∀ (store : Storage) (k : String),
      removeAll store keys k = if k ∈ keys then none else store k := by
  induction keys with
  | nil => intro store k; simp [removeAll]
  | cons a rest ih =>
    intro store k
    simp only [removeAll, ih, removeItem, List.mem_cons]
    by_cases h1 : k ∈ rest
    · simp [h1]
    · by_cases h2 : k = a <;> simp [h1, h2]

theorem firstNonEmpty_head (store : Storage) (k v : String) (rest : List String)
    (h : store k = some v) (hv : v ≠ "") : firstNonEmpty store (k :: rest) = some v := by
  simp [firstNonEmpty, List.findSome?, h, Option.filter, hv]

theorem firstNonEmpty_congr (store store' : Storage) (keys : List String)
    (h : ∀ k ∈ keys, store' k = store k) :
    firstNonEmpty store' keys = firstNonEmpty store keys := by
  induction keys with
  | nil => rfl
  | cons a rest ih =>
    have ha : store' a = store a := h a (by simp)
    have hrest := ih fun k hk => h k (List.mem_cons_of_mem _ hk)
    unfold firstNonEmpty at hrest ⊢
    simp only [List.findSome?, ha, hrest]

theorem readFromStorage_cleared (JSON_parse : String → Except JSError JSVal) (store : Storage)
    (h : ∀ k ∈ ALIASES.USER ++ ALIASES.TOKEN, store k = none) :
    readFromStorage JSON_parse store = ⟨null, null⟩ := by
  have hU : firstNonEmpty store ALIASES.USER = none :=
    firstNonEmpty_none store _ fun k hk => h k (List.mem_append_left _ hk)
  have hT : firstNonEmpty store ALIASES.TOKEN = none :=
    firstNonEmpty_none store _ fun k hk => h k (List.mem_append_right _ hk)
  unfold readFromStorage
  rw [userLoop_eq, hU]
  simp only [tokenLoop_eq, hT]

theorem readFromStorage_user_first (JSON_parse : String → Except JSError JSVal)
    (store : Storage) (text : String) (u : JSVal) (h : store "user" = some text)
    (hne : text ≠ "") (hparse : JSON_parse text = .ok u) :
    readFromStorage JSON_parse store
      = ⟨u, match firstNonEmpty store ALIASES.TOKEN with
        | none => null
        | some raw => str raw⟩ := by
  have hU : firstNonEmpty store ALIASES.USER = some text :=
    firstNonEmpty_head store "user" text _ h hne
  unfold readFromStorage
  rw [userLoop_eq, hU]
  simp only [hparse, tokenLoop_eq]
  cases firstNonEmpty store ALIASES.TOKEN <;> rfl

theorem optProp_eq_field (u : JSVal) (k : String) : optProp u k = .ok (field u k) := by
  cases u <;> simp [optProp, getProp, field, nullish]

theorem displayName_total (u : JSVal) (h : nameIsText u = true) :
    ∃ s, displayName u = .ok s := by
  unfold displayName
  rw [optProp_eq_field]
  simp only [Except.bind]
  unfold nameIsText at h
  cases hn : field u "name" with
  | str s =>
    by_cases hs : s = "" <;> simp [truthy, hs]
  | undefined => simp [truthy]
  | null => simp [truthy]
  | bool b =>
    rw [hn] at h
    cases b <;> simp_all [truthy]
  | num n =>
    rw [hn] at h
    by_cases h0 : n = 0 <;> simp_all [truthy]
  | arr items =>
    rw [hn] at h
    simp [truthy] at h
  | obj fields =>
    rw [hn] at h
    simp [truthy] at h

theorem desktopMenu_eq (u : JSVal) (authed employer jobseeker admin verified : Bool)
    (text : String) (darkNow : Bool) (hv : isEmployerVerified u = .ok verified) :
    desktopMenu u authed employer jobseeker admin text darkNow
      = .ok (navEntries authed jobseeker employer verified admin text darkNow) := by
  unfold desktopMenu navEntries
  cases employer <;> cases verified <;> simp [hv, Except.map]

theorem mobileMenu_eq (u : JSVal) (authed employer jobseeker admin verified : Bool)
    (darkNow : Bool) (he : isEmployer u = .ok employer) (hj : isJobseeker u = .ok jobseeker)
    (hv : isEmployerVerified u = .ok verified) :
    mobileMenu u authed admin darkNow
      = .ok (navEntries authed jobseeker employer verified admin "Profile" darkNow) := by
  unfold mobileMenu navEntries
  cases employer <;> cases verified <;> simp [he, hj, hv, Except.map, Except.bind]

theorem Navbar_eq (ctxUser storedUser : JSVal) (open_ darkNow : Bool)
    (employer jobseeker admin verified : Bool) (text : String)
    (he : isEmployer (sessionUserOf ctxUser storedUser) = .ok employer)
    (hj : isJobseeker (sessionUserOf ctxUser storedUser) = .ok jobseeker)
    (ha : isAdmin (sessionUserOf ctxUser storedUser) = .ok admin)
    (hv : isEmployerVerified (sessionUserOf ctxUser storedUser) = .ok verified)
    (hd : displayName (sessionUserOf ctxUser storedUser) = .ok text) :
    Navbar ctxUser storedUser open_ darkNow
      = .ok ⟨navEntries (sessionUserOf ctxUser storedUser).truthy jobseeker employer verified
            admin text darkNow,
          if open_ then
            some (navEntries (sessionUserOf ctxUser storedUser).truthy jobseeker employer
              verified admin "Profile" darkNow)
          else none⟩ := by
  unfold Navbar
  simp only [he, hj, ha, hd, Except.bind, desktopMenu_eq _ _ _ _ _ _ _ _ hv,
    mobileMenu_eq _ _ _ _ _ _ _ he hj hv, Except.map]
  cases open_ <;> rfl

theorem Navbar_total (ctxUser storedUser : JSVal) (open_ darkNow : Bool)
    (hp : plain (sessionUserOf ctxUser storedUser) = true)
    (hn : nameIsText (sessionUserOf ctxUser storedUser) = true) :
    ∃ employer jobseeker admin verified text,
      isEmployer (sessionUserOf ctxUser storedUser) = .ok employer
      ∧ isJobseeker (sessionUserOf ctxUser storedUser) = .ok jobseeker
      ∧ isAdmin (sessionUserOf ctxUser storedUser) = .ok admin
      ∧ isEmployerVerified (sessionUserOf ctxUser storedUser) = .ok verified
      ∧ Navbar ctxUser storedUser open_ darkNow
        = .ok ⟨navEntries (sessionUserOf ctxUser storedUser).truthy jobseeker employer verified
              admin text darkNow,
            if open_ then
              some (navEntries (sessionUserOf ctxUser storedUser).truthy jobseeker employer
                verified admin "Profile" darkNow)
            else none⟩ := by
  obtain ⟨e, he⟩ := isEmployer_total _ hp
  obtain ⟨j, hj⟩ := isJobseeker_total _ hp
  obtain ⟨a, ha⟩ := isAdmin_total _ hp
  obtain ⟨v, hv⟩ := isEmployerVerified_total _ hp
  obtain ⟨t, ht⟩ := displayName_total _ hn
  exact ⟨e, j, a, v, t, he, hj, ha, hv, Navbar_eq _ _ _ _ _ _ _ _ _ he hj ha hv ht⟩

theorem navEntries_session (authed jobseeker employer verified admin : Bool) (text : String)
    (darkNow : Bool) :
    NavItem.link "/" "Home" ∈ navEntries authed jobseeker employer verified admin text darkNow
    ∧ (NavItem.link "/jobs" "Jobs"
        ∈ navEntries authed jobseeker employer verified admin text darkNow ↔ authed = true)
    ∧ (NavItem.link "/notifications" "Notifications"
        ∈ navEntries authed jobseeker employer verified admin text darkNow ↔ authed = true)
    ∧ (NavItem.link "/profile" text
        ∈ navEntries authed jobseeker employer verified admin text darkNow ↔ authed = true)
    ∧ (NavItem.button "Logout"
        ∈ navEntries authed jobseeker employer verified admin text darkNow ↔ authed = true)
    ∧ (NavItem.link "/register" "Register"
        ∈ navEntries authed jobseeker employer verified admin text darkNow ↔ authed = false)
    ∧ (NavItem.link "/login" "Login"
        ∈ navEntries authed jobseeker employer verified admin text darkNow ↔ authed = false) := by
  unfold navEntries
  cases authed <;> cases jobseeker <;> cases employer <;> cases verified <;> cases admin <;>
    cases darkNow <;> simp

theorem navEntries_roles (authed jobseeker employer verified admin : Bool) (text : String)
    (darkNow : Bool) :
    (NavItem.link "/applications" "Applications"
        ∈ navEntries authed jobseeker employer verified admin text darkNow ↔ jobseeker = true)
    ∧ (NavItem.link "/employer/post-job" "Post Job"
        ∈ navEntries authed jobseeker employer verified admin text darkNow ↔ employer = true)
    ∧ (NavItem.link "/employer/jobs" "My Jobs"
        ∈ navEntries authed jobseeker employer verified admin text darkNow ↔ employer = true)
    ∧ (NavItem.link "/employer/verify" "Verify"
        ∈ navEntries authed jobseeker employer verified admin text darkNow
          ↔ (employer = true ∧ verified = false))
    ∧ (NavItem.link "/admin/verifications" "Admin"
        ∈ navEntries authed jobseeker employer verified admin text darkNow ↔ admin = true) := by
  unfold navEntries
  cases authed <;> cases jobseeker <;> cases employer <;> cases verified <;> cases admin <;>
    cases darkNow <;> simp

theorem navEntries_keys (authed jobseeker employer verified admin : Bool) (text text' : String)
    (darkNow : Bool) :
    (navEntries authed jobseeker employer verified admin text darkNow).map NavItem.key
      = (navEntries authed jobseeker employer verified admin text' darkNow).map NavItem.key := by
  unfold navEntries
  cases authed <;> cases jobseeker <;> cases employer <;> cases verified <;> cases admin <;>
    cases darkNow <;> simp [NavItem.key]

theorem unreadOf_isFinite {ε : Type} (stringToNumber : String → JSNumber)
    (response : Except ε JSVal) : (unreadOf stringToNumber response).isFinite = true := by
  unfold unreadOf
  cases response with
  | error e => rfl
  | ok data =>
    simp only []
    cases h : (unreadField data).bind (Number stringToNumber) with
    | error e => rfl
    | ok n =>
      simp only []
      cases hn : n.isFinite with
      | true => simpa using hn
      | false => rfl

theorem fetchCount_frame (i : Nat) (st : PollState) :
    (fetchCount i st).runs = st.runs ∧ (fetchCount i st).nextRun = st.nextRun
      ∧ (fetchCount i st).active = st.active := by
  unfold fetchCount
  cases st.runs i with
  | none => simp
  | some run =>
    simp only []
    cases run.sessionUser.truthy <;> cases run.mounted <;> simp

theorem fetchCountSettled_frame {ε : Type} (stringToNumber : String → JSNumber) (i : Nat)
    (response : Except ε JSVal) (st : PollState) :
    (fetchCountSettled stringToNumber i response st).runs = st.runs
      ∧ (fetchCountSettled stringToNumber i response st).nextRun = st.nextRun
      ∧ (fetchCountSettled stringToNumber i response st).active = st.active
      ∧ (fetchCountSettled stringToNumber i response st).inFlight = st.inFlight
      ∧ (fetchCountSettled stringToNumber i response st).issued = st.issued := by
  unfold fetchCountSettled
  cases st.runs i with
  | none => simp
  | some run =>
    simp only []
    cases run.mounted <;> simp

theorem fetchCount_no_session (i : Nat) (st : PollState) (run : EffectRun)
    (hrun : st.runs i = some run) (hs : run.sessionUser.truthy = false)
    (hm : run.mounted = true) :
    (fetchCount i st).unread = .finite 0 ∧ (fetchCount i st).issued = st.issued
      ∧ (fetchCount i st).inFlight = st.inFlight := by
  unfold fetchCount
  simp [hrun, hs, hm]

theorem fetchCount_cleanedUp (i j : Nat) (st : PollState) (h : st.cleanedUp j = true) :
    (fetchCount i st).cleanedUp j = true := by
  obtain ⟨h1, h2, _⟩ := fetchCount_frame i st
  unfold PollState.cleanedUp at h ⊢
  rw [h1, h2]
  exact h

theorem cleanupEffect_cleanedUp (j : Nat) (st : PollState) (h : st.cleanedUp j = true) :
    (cleanupEffect st).cleanedUp j = true := by
  unfold cleanupEffect
  cases ha : st.active with
  | none => simpa using h
  | some i =>
    unfold PollState.cleanedUp at h ⊢
    simp only [Bool.and_eq_true, decide_eq_true_eq] at h ⊢
    refine ⟨h.1, ?_⟩
    by_cases hji : j = i
    · subst hji
      cases hr : st.runs j with
      | none => simp [hr] at h
      | some run => simp
    · simp only [hji, if_false]
      exact h.2

theorem cleanupEffect_active (i : Nat) (st : PollState) (ha : st.active = some i)
    (hwf : st.activeMounted = true) : (cleanupEffect st).cleanedUp i = true := by
  unfold PollState.activeMounted at hwf
  rw [ha] at hwf
  simp only [Bool.and_eq_true, decide_eq_true_eq] at hwf
  unfold cleanupEffect PollState.cleanedUp
  simp only [ha, Bool.and_eq_true, decide_eq_true_eq]
  refine ⟨hwf.1, ?_⟩
  cases hr : st.runs i with
  | none => simp [hr] at hwf
  | some run => simp

theorem cleanupEffect_frame (st : PollState) :
    (cleanupEffect st).nextRun = st.nextRun ∧ (cleanupEffect st).unread = st.unread
      ∧ (cleanupEffect st).issued = st.issued ∧ (cleanupEffect st).inFlight = st.inFlight := by
  unfold cleanupEffect
  cases st.active <;> simp

theorem runEffect_cleanedUp (su : JSVal) (j : Nat) (st : PollState)
    (h : (cleanupEffect st).cleanedUp j = true) : (runEffect su st).cleanedUp j = true := by
  unfold PollState.cleanedUp at h ⊢
  simp only [Bool.and_eq_true, decide_eq_true_eq] at h ⊢
  obtain ⟨hlt, hrun⟩ := h
  have hne : j ≠ (cleanupEffect st).nextRun := Nat.ne_of_lt hlt
  unfold runEffect
  simp only []
  obtain ⟨h1, h2, _⟩ := fetchCount_frame (cleanupEffect st).nextRun
    { cleanupEffect st with
      runs := fun j =>
        if j = (cleanupEffect st).nextRun then some ⟨su, true⟩ else (cleanupEffect st).runs j
      nextRun := (cleanupEffect st).nextRun + 1 }
  rw [h1, h2]
  simp only [hne, if_false]
  exact ⟨Nat.lt_succ_of_lt hlt, hrun⟩

theorem pollStep_cleanedUp {ε : Type} (stringToNumber : String → JSNumber) (ev : PollEvent ε)
    (j : Nat) (st : PollState) (h : st.cleanedUp j = true) :
    (pollStep stringToNumber ev st).cleanedUp j = true := by
  cases ev with
  | effect su => exact runEffect_cleanedUp su j st (cleanupEffect_cleanedUp j st h)
  | unmount => exact cleanupEffect_cleanedUp j st h
  | tick =>
    simp only [pollStep]
    cases st.active with
    | none => exact h
    | some i => exact fetchCount_cleanedUp i j st h
  | notificationsChanged =>
    simp only [pollStep]
    cases st.active with
    | none => exact h
    | some i => exact fetchCount_cleanedUp i j st h
  | response k outcome =>
    simp only [pollStep]
    cases st.inFlight.get? k with
    | none => exact h
    | some i =>
      simp only []
      obtain ⟨h1, h2, _⟩ := fetchCountSettled_frame stringToNumber i outcome
        { st with inFlight := st.inFlight.eraseIdx k }
      unfold PollState.cleanedUp at h ⊢
      rw [h1, h2]
      exact h

theorem pollRun_cleanedUp {ε : Type} (stringToNumber : String → JSNumber) (j : Nat) :
    ∀ (evs : List (PollEvent ε)) (st : PollState), st.cleanedUp j = true →
      (pollRun stringToNumber evs st).cleanedUp j = true := by
  intro evs
  induction evs with
  | nil => intro st h; exact h
  | cons ev rest ih =>
    intro st h
    exact ih _ (pollStep_cleanedUp stringToNumber ev j st h)

theorem runEffect_fetch (su : JSVal) (st : PollState) :
    runEffect su st
      = { fetchCount (cleanupEffect st).nextRun
            { cleanupEffect st with
              runs := fun j =>
                if j = (cleanupEffect st).nextRun then some ⟨su, true⟩
                else (cleanupEffect st).runs j
              nextRun := (cleanupEffect st).nextRun + 1 } with
          active := some (cleanupEffect st).nextRun } := rfl

theorem runEffect_activeMounted (su : JSVal) (st : PollState) :
    (runEffect su st).activeMounted = true := by
  rw [runEffect_fetch]
  obtain ⟨h1, h2, _⟩ := fetchCount_frame (cleanupEffect st).nextRun
    { cleanupEffect st with
      runs := fun j =>
        if j = (cleanupEffect st).nextRun then some ⟨su, true⟩ else (cleanupEffect st).runs j
      nextRun := (cleanupEffect st).nextRun + 1 }
  unfold PollState.activeMounted
  simp only [h1, h2, if_true, Bool.and_eq_true, decide_eq_true_eq]
  exact ⟨Nat.lt_succ_self _, trivial⟩

theorem runEffect_no_session (su : JSVal) (st : PollState) (hs : su.truthy = false) :
    (runEffect su st).unread = .finite 0 ∧ (runEffect su st).issued = st.issued
      ∧ (runEffect su st).inFlight = st.inFlight := by
  rw [runEffect_fetch]
  obtain ⟨_, hu, hi, hf⟩ := cleanupEffect_frame st
  have h := fetchCount_no_session (cleanupEffect st).nextRun
    { cleanupEffect st with
      runs := fun j =>
        if j = (cleanupEffect st).nextRun then some ⟨su, true⟩ else (cleanupEffect st).runs j
      nextRun := (cleanupEffect st).nextRun + 1 } ⟨su, true⟩ (by simp) hs rfl
  simp only [] at h ⊢
  exact ⟨h.1, h.2.1.trans hi, h.2.2.trans hf⟩

theorem pollStep_activeMounted {ε : Type} (stringToNumber : String → JSNumber)
    (ev : PollEvent ε) (st : PollState) (h : st.activeMounted = true) :
    (pollStep stringToNumber ev st).activeMounted = true := by
  cases ev with
  | effect su => exact runEffect_activeMounted su st
  | unmount =>
    simp only [pollStep]
    unfold cleanupEffect
    cases ha : st.active with
    | none => simpa using h
    | some i => simp [PollState.activeMounted]
  | tick =>
    simp only [pollStep]
    cases ha : st.active with
    | none => exact h
    | some i =>
      obtain ⟨h1, h2, h3⟩ := fetchCount_frame i st
      unfold PollState.activeMounted at h ⊢
      rw [h1, h2, h3]
      exact h
  | notificationsChanged =>
    simp only [pollStep]
    cases ha : st.active with
    | none => exact h
    | some i =>
      obtain ⟨h1, h2, h3⟩ := fetchCount_frame i st
      unfold PollState.activeMounted at h ⊢
      rw [h1, h2, h3]
      exact h
  | response k outcome =>
    simp only [pollStep]
    cases st.inFlight.get? k with
    | none => exact h
    | some i =>
      simp only []
      obtain ⟨h1, h2, h3, _⟩ := fetchCountSettled_frame stringToNumber i outcome
        { st with inFlight := st.inFlight.eraseIdx k }
      unfold PollState.activeMounted at h ⊢
      rw [h1, h2, h3]
      exact h

theorem pollRun_activeMounted {ε : Type} (stringToNumber : String → JSNumber) :
    ∀ (evs : List (PollEvent ε)) (st : PollState), st.activeMounted = true →
      (pollRun stringToNumber evs st).activeMounted = true := by
  intro evs
  induction evs with
  | nil => intro st h; exact h
  | cons ev rest ih =>
    intro st h
    exact ih _ (pollStep_activeMounted stringToNumber ev st h)

theorem fetchCount_isFinite (i : Nat) (st : PollState) (h : st.unread.isFinite = true) :
    (fetchCount i st).unread.isFinite = true := by
  unfold fetchCount
  cases st.runs i with
  | none => exact h
  | some run =>
    simp only []
    cases run.sessionUser.truthy <;> cases run.mounted <;>
      first
        | exact h
        | rfl

theorem pollStep_isFinite {ε : Type} (stringToNumber : String → JSNumber) (ev : PollEvent ε)
    (st : PollState) (h : st.unread.isFinite = true) :
    (pollStep stringToNumber ev st).unread.isFinite = true := by
  cases ev with
  | effect su =>
    simp only [pollStep]
    rw [runEffect_fetch]
    exact fetchCount_isFinite _ _ (by rw [(cleanupEffect_frame st).2.1]; exact h)
  | unmount =>
    simp only [pollStep]
    rw [(cleanupEffect_frame st).2.1]
    exact h
  | tick =>
    simp only [pollStep]
    cases st.active with
    | none => exact h
    | some i => exact fetchCount_isFinite i st h
  | notificationsChanged =>
    simp only [pollStep]
    cases st.active with
    | none => exact h
    | some i => exact fetchCount_isFinite i st h
  | response k outcome =>
    simp only [pollStep]
    cases st.inFlight.get? k with
    | none => exact h
    | some i =>
      simp only [fetchCountSettled]
      cases st.runs i with
      | none => exact h
      | some run =>
        simp only []
        cases run.mounted
        · exact h
        · exact unreadOf_isFinite stringToNumber outcome

theorem pollRun_isFinite {ε : Type} (stringToNumber : String → JSNumber) :
    ∀ (evs : List (PollEvent ε)) (st : PollState), st.unread.isFinite = true →
      (pollRun stringToNumber evs st).unread.isFinite = true := by
  intro evs
  induction evs with
  | nil => intro st h; exact h
  | cons ev rest ih =>
    intro st h
    exact ih _ (pollStep_isFinite stringToNumber ev st h)

theorem response_after_cleanup {ε : Type} (stringToNumber : String → JSNumber) (i k : Nat)
    (outcome : Except ε JSVal) (st : PollState) (h : st.cleanedUp i = true)
    (hk : st.inFlight.get? k = some i) :
    (pollStep stringToNumber (.response k outcome) st).unread = st.unread := by
  unfold PollState.cleanedUp at h
  simp only [Bool.and_eq_true, decide_eq_true_eq] at h
  simp only [pollStep, hk, fetchCountSettled]
  cases hr : st.runs i with
  | none => rfl
  | some run =>
    simp only [hr] at h
    simp only []
    cases hm : run.mounted with
    | false => rfl
    | true => simp [hm] at h

theorem unreadField_eq (d : JSVal) :
    unreadField d
      = .ok (coalesce (coalesce (field d "unread") (field d "count")) (num 0)) := by
  simp [unreadField, optProp_eq_field, Except.bind]

theorem unreadOf_ok {ε : Type} (stringToNumber : String → JSNumber) (d : JSVal) :
    unreadOf stringToNumber (.ok d : Except ε JSVal)
      = match Number stringToNumber
          (coalesce (coalesce (field d "unread") (field d "count")) (num 0)) with
        | .ok n => if n.isFinite then n else .finite 0
        | .error _ => .finite 0 := by
  simp only [unreadOf, unreadField_eq, Except.bind]

theorem interceptorToken_eq (store : Storage) :
    ∀ keys : List String, interceptorToken store keys = firstNonEmpty store keys := by
  intro keys
  induction keys with
  | nil => rfl
  | cons k rest ih =>
    unfold firstNonEmpty at ih ⊢
    cases hk : store k with
    | none => simp [interceptorToken, hk, ih, Option.filter]
    | some v =>
      by_cases hv : v = ""
      · simp [interceptorToken, hk, hv, ih, Option.filter]
      · simp [interceptorToken, hk, hv, Option.filter]

theorem firstNonEmpty_skip (store : Storage) (k : String) (rest : List String)
    (h : store k = none ∨ store k = some "") :
    firstNonEmpty store (k :: rest) = firstNonEmpty store rest := by
  unfold firstNonEmpty
  rcases h with h | h <;> simp [List.findSome?, h, Option.filter]

theorem firstNonEmpty_cons_congr (store : Storage) (k : String) (rest rest' : List String)
    (h : firstNonEmpty store rest = firstNonEmpty store rest') :
    firstNonEmpty store (k :: rest) = firstNonEmpty store (k :: rest') := by
  unfold firstNonEmpty at h ⊢
  simp only [List.findSome?, h]

theorem lookup_cons (k a : String) (w : JSVal) (rest : List (String × JSVal)) :
    lookup k ((a, w) :: rest) = if a = k then some w else lookup k rest := rfl

theorem lookup_map_other (k k' : String) (v : JSVal) (h : k' ≠ k) :
    ∀ fields : List (String × JSVal),
      lookup k' (fields.map fun p => if p.1 = k then (k, v) else p) = lookup k' fields := by
  intro fields
  induction fields with
  | nil => rfl
  | cons p rest ih =>
    obtain ⟨a, w⟩ := p
    have hne : ¬ k = k' := fun h' => h h'.symm
    by_cases ha : a = k
    · subst ha
      have ha' : ¬ a = k' := hne
      rw [List.map_cons, if_pos rfl, lookup_cons, lookup_cons, if_neg ha', if_neg ha', ih]
    · simp only [List.map_cons, ha, if_false, lookup_cons, ih]

theorem lookup_map_same (k : String) (v : JSVal) :
    ∀ fields : List (String × JSVal), (lookup k fields).isSome = true →
      lookup k (fields.map fun p => if p.1 = k then (k, v) else p) = some v := by
  intro fields
  induction fields with
  | nil => intro h; simp [lookup] at h
  | cons p rest ih =>
    obtain ⟨a, w⟩ := p
    intro h
    by_cases ha : a = k
    · simp only [List.map_cons, ha, if_true, lookup_cons]
    · simp only [lookup_cons, ha, if_false] at h
      simp only [List.map_cons, ha, if_false, lookup_cons, ih h]

theorem lookup_append_none (k : String) (extra : List (String × JSVal)) :
    ∀ fields : List (String × JSVal), lookup k fields = none →
      lookup k (fields ++ extra) = lookup k extra := by
  intro fields
  induction fields with
  | nil => intro _; rfl
  | cons p rest ih =>
    obtain ⟨a, w⟩ := p
    intro h
    by_cases ha : a = k
    · simp [lookup, ha] at h
    · simp only [lookup, ha, if_false] at h
      simp [lookup, ha, ih h]

theorem lookup_append_other (k k' : String) (v : JSVal) (h : k' ≠ k) :
    ∀ fields : List (String × JSVal), lookup k' (fields ++ [(k, v)]) = lookup k' fields := by
  intro fields
  have hne : ¬ k = k' := fun h' => h h'.symm
  induction fields with
  | nil => simp [lookup, hne]
  | cons p rest ih =>
    obtain ⟨a, w⟩ := p
    by_cases ha : a = k'
    · simp [lookup, ha]
    · simp [lookup, ha, ih]

theorem field_setField_same (k : String) (v : JSVal) (fields : List (String × JSVal)) :
    field (obj (setField k v fields)) k = v := by
  unfold setField field
  cases h : (lookup k fields).isSome with
  | true => simp [lookup_map_same k v fields h]
  | false =>
    have hnone : lookup k fields = none := by simpa using h
    simp [lookup_append_none k _ fields hnone, lookup]

theorem field_setField_other (k k' : String) (v : JSVal) (fields : List (String × JSVal))
    (h : k' ≠ k) : field (obj (setField k v fields)) k' = field (obj fields) k' := by
  unfold setField field
  cases (lookup k fields).isSome with
  | true => simp [lookup_map_other k k' v h fields]
  | false => simp [lookup_append_other k k' v h fields]

theorem or_truthy (a b : JSVal) : (a.or b).truthy = (a.truthy || b.truthy) := by
  unfold JSVal.or
  cases h : a.truthy <;> simp [h]

theorem roleFallback_truthy (data user : JSVal) : (roleFallback data user).truthy = true := by
  unfold roleFallback
  rw [or_truthy]
  simp [truthy]

theorem handleSubmit_requests (JSON_stringify : JSVal → String) (typeErrorMessage : String)
    (post : String → JSVal → Except JSVal JSVal) (from_ : Option Location)
    (email pw : String) (st : AuthState) :
    (handleSubmit JSON_stringify typeErrorMessage post from_ email pw st).requests
      = (postAttempts post (obj [("email", str email), ("password", str pw)])
        loginEndpoints).1 := by
  simp only [handleSubmit]
  generalize (postAttempts post (obj [("email", str email), ("password", str pw)])
      loginEndpoints).1 = q
  generalize (postAttempts post (obj [("email", str email), ("password", str pw)])
      loginEndpoints).2 = o
  cases o with
  | none => rfl
  | some resData =>
    simp only []
    generalize ensureRole (responseData resData)
      (responseUser (responseData resData) email) = er
    cases er with
    | error e => rfl
    | ok ur =>
      obtain ⟨user, role⟩ := ur
      simp only []
      cases destination from_ role <;> rfl

theorem handleSubmit_all_fail (JSON_stringify : JSVal → String) (typeErrorMessage : String)
    (post : String → JSVal → Except JSVal JSVal) (from_ : Option Location)
    (email pw : String) (st : AuthState)
    (h : (postAttempts post (obj [("email", str email), ("password", str pw)])
        loginEndpoints).2 = none) :
    (handleSubmit JSON_stringify typeErrorMessage post from_ email pw st).auth = st
    ∧ (handleSubmit JSON_stringify typeErrorMessage post from_ email pw st).navigation = none
    ∧ (handleSubmit JSON_stringify typeErrorMessage post from_ email pw st).err
        = "Login failed." := by
  simp only [handleSubmit, h]
  exact ⟨trivial, trivial, rfl⟩

theorem handleSubmit_auth (JSON_stringify : JSVal → String) (typeErrorMessage : String)
    (post : String → JSVal → Except JSVal JSVal) (from_ : Option Location)
    (email pw : String) (st : AuthState) (resData user role : JSVal)
    (h1 : (postAttempts post (obj [("email", str email), ("password", str pw)])
        loginEndpoints).2 = some resData)
    (h2 : ensureRole (responseData resData) (responseUser (responseData resData) email)
        = .ok (user, role)) :
    (handleSubmit JSON_stringify typeErrorMessage post from_ email pw st).auth
      = login JSON_stringify st user (responseToken (responseData resData)) := by
  simp only [handleSubmit, h1, h2]
  cases destination from_ role <;> rfl

theorem handleSubmit_navigation (JSON_stringify : JSVal → String) (typeErrorMessage : String)
    (post : String → JSVal → Except JSVal JSVal) (from_ : Option Location)
    (email pw : String) (st : AuthState) (resData user role : JSVal) (target : String)
    (h1 : (postAttempts post (obj [("email", str email), ("password", str pw)])
        loginEndpoints).2 = some resData)
    (h2 : ensureRole (responseData resData) (responseUser (responseData resData) email)
        = .ok (user, role))
    (h3 : destination from_ role = .ok target) :
    (handleSubmit JSON_stringify typeErrorMessage post from_ email pw st).navigation
      = some ⟨target, true⟩ := by
  simp only [handleSubmit, h1, h2, h3]

theorem login_user (JSON_stringify : JSVal → String) (st : AuthState) (u token : JSVal)
    (hu : u.truthy = true) :
    (login JSON_stringify st u token).auth.user = u
    ∧ (login JSON_stringify st u token).storage "user" = some (JSON_stringify u) := by
  refine ⟨by simp [login, hu], ?_⟩
  simp only [login, hu, if_true, KEYS.USER, KEYS.TOKEN]
  cases token.truthy with
  | false => simp [setItem]
  | true =>
    simp only [if_true]
    cases callToString token with
    | error e => simp [setItem]
    | ok t => simp [setItem]

theorem ensureRole_obj (data : JSVal) (fields : List (String × JSVal)) :
    ∃ user role, ensureRole data (obj fields) = .ok (user, role)
      ∧ user.truthy = true
      ∧ field user "role" = role
      ∧ role.truthy = true
      ∧ role = (if (field (obj fields) "role").truthy then field (obj fields) "role"
          else roleFallback data (obj fields))
      ∧ ∀ k, k ≠ "role" → field user k = field (obj fields) k := by
  cases h : (field (obj fields) "role").truthy with
  | true =>
    refine ⟨obj fields, field (obj fields) "role", ?_, rfl, rfl, h, ?_, fun _ _ => rfl⟩
    · simp only [ensureRole, h, if_true]
    · simp
  | false =>
    refine ⟨obj (setField "role" (roleFallback data (obj fields)) fields),
      roleFallback data (obj fields), ?_, rfl, field_setField_same _ _ _,
      roleFallback_truthy _ _, ?_, fun k hk => field_setField_other _ _ _ _ hk⟩
    · simp only [ensureRole, h]
      rfl
    · simp

theorem destination_eq (from_ : Option Location) (role : JSVal) (s : String)
    (hs : stringOf role = .ok s) :
    destination from_ role
      = .ok (match from_ with
        | some l =>
          if l.pathname ≠ "" then l.pathname
          else if toLowerCase s = "employer" then "/employer/jobs" else "/jobs"
        | none => if toLowerCase s = "employer" then "/employer/jobs" else "/jobs") := by
  cases from_ with
  | none => simp [destination, truthy, hs, Except.map]
  | some l =>
    by_cases hp : l.pathname = ""
    · simp [destination, truthy, hs, Except.map, hp]
    · simp [destination, truthy, hp]

theorem postTries_bodies (post : String → JSVal → Except JSVal JSVal) (body : JSVal) :
    ∀ (urls : List String) (lastError : JSVal),
      ∀ r ∈ (postTries post body urls lastError).1, r.2 = body := by
  intro urls
  induction urls with
  | nil => intro lastError r hr; simp [postTries] at hr
  | cons url rest ih =>
    intro lastError r hr
    unfold postTries at hr
    cases hp : post url body with
    | ok d =>
      rw [hp] at hr
      simp only [List.mem_singleton] at hr
      rw [hr]
    | error e2 =>
      rw [hp] at hr
      simp only [List.mem_cons] at hr
      rcases hr with hr | hr
      · rw [hr]
      · exact ih e2 r hr

theorem submit_bodies (post : String → JSVal → Except JSVal JSVal)
    (name email role pw pw2 : String) :
    ∀ r ∈ (submit post name email role pw pw2).requests,
      r.2 = registerBody name email role pw := by
  intro r hr
  unfold submit at hr
  by_cases h1 : (rules pw).ok = true
  · by_cases h2 : passwordsMatch pw pw2 = true
    · simp only [h1, h2, Bool.not_true, Bool.false_eq_true, if_false] at hr
      have hb := postTries_bodies post (registerBody name email role pw) registerEndpoints null
      generalize postTries post (registerBody name email role pw) registerEndpoints null = t
        at hr hb
      obtain ⟨requests, ok, lastError⟩ := t
      cases ok <;> exact hb r hr
    · simp [h1, h2] at hr
  · simp [h1] at hr

theorem map_ite_false {α : Type} (p : α → Bool) (f : α → α) (l : List α)
    (h : ∀ x ∈ l, p x = false) : (l.map fun x => if p x then f x else x) = l := by
  induction l with
  | nil => rfl
  | cons a rest ih =>
    rw [List.map_cons, ih fun x hx => h x (List.mem_cons_of_mem _ hx),
      h a (List.mem_cons_self _ _)]
    simp

theorem jobId_setStatus (v : JSVal) (j : Job) : jobId (setField "status" v j) = jobId j := by
  unfold jobId
  rw [field_setField_other "status" "_id" v j (by decide),
    field_setField_other "status" "id" v j (by decide)]

theorem getStatus_range (job : Job) (s : String) (h : getStatus job = .ok s) :
    s = "open" ∨ s = "closed" := by
  unfold getStatus at h
  cases hc : callToString (((field (obj job) "status").or (field (obj job) "state")).or
      (str "")) with
  | error e => rw [hc] at h; cases h
  | ok raw =>
    rw [hc] at h
    simp only [Except.bind] at h
    split at h
    · rename_i hr
      have h2 : toLowerCase raw = s := by simpa using h
      rw [← h2]
      exact hr
    · split at h
      · left
        have h2 : "open" = s := by simpa using h
        exact h2.symm
      · split at h
        · right
          have h2 : "closed" = s := by simpa using h
          exact h2.symm
        · left
          have h2 : "open" = s := by simpa using h
          exact h2.symm

theorem getStatus_setStatus (target : String) (j : Job)
    (ht : target = "open" ∨ target = "closed") :
    getStatus (setField "status" (str target) j) = .ok target := by
  have hne : target ≠ "" := by
    rcases ht with ht | ht <;> rw [ht] <;> decide
  have hlow : toLowerCase target = target := by
    rcases ht with ht | ht <;> rw [ht] <;> decide
  have hor : ((field (obj (setField "status" (str target) j)) "status").or
      (field (obj (setField "status" (str target) j)) "state")).or (str "") = str target := by
    rw [field_setField_same]
    simp [JSVal.or, truthy, hne]
  unfold getStatus
  rw [hor]
  simp only [callToString, Except.bind, hlow]
  rw [if_pos ht]

theorem optimisticUpdate_only (j : Job) (target : String) (before after : List Job)
    (hid : strictEquals (jobId j) (jobId j) = true)
    (hb : ∀ x ∈ before, strictEquals (jobId x) (jobId j) = false)
    (ha : ∀ x ∈ after, strictEquals (jobId x) (jobId j) = false) :
    optimisticUpdate (jobId j) target (before ++ j :: after)
      = before ++ setField "status" (str target) j :: after := by
  unfold optimisticUpdate
  rw [List.map_append, List.map_cons,
    map_ite_false (fun x => strictEquals (jobId x) (jobId j)) _ before hb,
    map_ite_false (fun x => strictEquals (jobId x) (jobId j)) _ after ha, hid]
  simp

theorem rollback_restores (j : Job) (target : String) (before after : List Job)
    (hid : strictEquals (jobId j) (jobId j) = true)
    (hb : ∀ x ∈ before, strictEquals (jobId x) (jobId j) = false)
    (ha : ∀ x ∈ after, strictEquals (jobId x) (jobId j) = false) :
    rollback j (optimisticUpdate (jobId j) target (before ++ j :: after))
      = before ++ j :: after := by
  rw [optimisticUpdate_only j target before after hid hb ha]
  unfold rollback
  rw [List.map_append, List.map_cons,
    map_ite_false (fun x => strictEquals (jobId x) (jobId j)) _ before hb,
    map_ite_false (fun x => strictEquals (jobId x) (jobId j)) _ after ha,
    jobId_setStatus, hid]
  simp

theorem getStatus_total (job : Job) (hp : plain (obj job) = true) :
    ∃ s, getStatus job = .ok s := by
  have h1 : plain (((field (obj job) "status").or (field (obj job) "state")).or (str ""))
      = true := by
    have ha := plain_field (obj job) "status" hp
    have hb := plain_field (obj job) "state" hp
    generalize field (obj job) "status" = a at ha
    generalize field (obj job) "state" = b at hb
    unfold JSVal.or
    cases hta : a.truthy with
    | true => simp only [if_true, hta]; exact ha
    | false =>
      simp only [Bool.false_eq_true, if_false]
      cases htb : b.truthy with
      | true => simp only [if_true]; exact hb
      | false => simp [plain]
  have h2 : (((field (obj job) "status").or (field (obj job) "state")).or (str "")).nullish
      = false := by
    generalize (field (obj job) "status").or (field (obj job) "state") = c
    unfold JSVal.or
    cases htc : c.truthy with
    | true =>
      simp only [if_true]
      cases c <;> simp_all [truthy, nullish]
    | false => simp [nullish]
  obtain ⟨raw, hraw⟩ := callToString_plain _ h1 h2
  unfold getStatus
  rw [hraw]
  simp only [Except.bind]
  split
  · exact ⟨_, rfl⟩
  · split
    · exact ⟨_, rfl⟩
    · split <;> exact ⟨_, rfl⟩

theorem postAttempts_first_success (post : String → JSVal → Except JSVal JSVal)
    (body : JSVal) (url : String) (rest : List String) (r : JSVal)
    (hs : post url body = .ok r) :
    ∀ failed : List String, (∀ u ∈ failed, ∃ e, post u body = .error e) →
      postAttempts post body (failed ++ url :: rest)
        = ((failed ++ [url]).map (fun u => (u, body)), some r) := by
  intro failed
  induction failed with
  | nil =>
    intro _
    simp [postAttempts, hs]
  | cons a more ih =>
    intro hf
    obtain ⟨e, he⟩ := hf a (List.mem_cons_self _ _)
    have := ih fun u hu => hf u (List.mem_cons_of_mem _ hu)
    simp [postAttempts, he, this]

theorem postAttempts_all_fail (post : String → JSVal → Except JSVal JSVal) (body : JSVal) :
    ∀ urls : List String, (∀ u ∈ urls, ∃ e, post u body = .error e) →
      postAttempts post body urls = (urls.map (fun u => (u, body)), none) := by
  intro urls
  induction urls with
  | nil => intro _; rfl
  | cons a more ih =>
    intro hf
    obtain ⟨e, he⟩ := hf a (List.mem_cons_self _ _)
    have := ih fun u hu => hf u (List.mem_cons_of_mem _ hu)
    simp [postAttempts, he, this]

theorem responseUser_truthy (data : JSVal) (email : String) :
    (responseUser data email).truthy = true := by
  unfold responseUser
  split
  · assumption
  · rfl

theorem ensureRole_user_truthy (data u user role : JSVal) (hu : u.truthy = true)
    (h : ensureRole data u = .ok (user, role)) : user.truthy = true := by
  unfold ensureRole at h
  split at h
  · simp only [Except.ok.injEq, Prod.mk.injEq] at h
    rw [← h.1]
    exact hu
  · cases u with
    | obj fields =>
      simp only [Except.ok.injEq, Prod.mk.injEq] at h
      rw [← h.1]
      rfl
    | arr items =>
      simp only [Except.ok.injEq, Prod.mk.injEq] at h
      rw [← h.1]
      rfl
    | _ => simp at h

theorem handleSubmit_of_first_success (JSON_stringify : JSVal → String)
    (typeErrorMessage : String) (post : String → JSVal → Except JSVal JSVal)
    (from_ : Option Location) (email pw : String) (st : AuthState) (r : JSVal)
    (h1 : (postAttempts post (obj [("email", str email), ("password", str pw)])
        loginEndpoints).2 = some r) :
    (∀ user role,
        ensureRole (responseData r) (responseUser (responseData r) email) = .ok (user, role) →
        (handleSubmit JSON_stringify typeErrorMessage post from_ email pw st).auth
          = login JSON_stringify st user (responseToken (responseData r))
        ∧ (handleSubmit JSON_stringify typeErrorMessage post from_ email pw st).auth.auth.user
          = user
        ∧ (handleSubmit JSON_stringify typeErrorMessage post from_ email pw
            st).auth.storage "user" = some (JSON_stringify user)
        ∧ (∀ target, destination from_ role = .ok target →
            (handleSubmit JSON_stringify typeErrorMessage post from_ email pw st).navigation
              = some ⟨target, true⟩
            ∧ (handleSubmit JSON_stringify typeErrorMessage post from_ email pw st).err = "")
        ∧ (∀ e, destination from_ role = .error e →
            (handleSubmit JSON_stringify typeErrorMessage post from_ email pw st).navigation
              = none
            ∧ (handleSubmit JSON_stringify typeErrorMessage post from_ email pw st).err
              = errorText typeErrorMessage .typeError))
    ∧ (∀ e, ensureRole (responseData r) (responseUser (responseData r) email) = .error e →
        (handleSubmit JSON_stringify typeErrorMessage post from_ email pw st).auth = st
        ∧ (handleSubmit JSON_stringify typeErrorMessage post from_ email pw st).navigation
          = none
        ∧ (handleSubmit JSON_stringify typeErrorMessage post from_ email pw st).err
          = errorText typeErrorMessage .typeError) := by
  refine ⟨?_, ?_⟩
  · intro user role h2
    have ha := handleSubmit_auth JSON_stringify typeErrorMessage post from_ email pw st
      r user role h1 h2
    have hu := ensureRole_user_truthy _ _ user role (responseUser_truthy _ email) h2
    have hl := login_user JSON_stringify st user (responseToken (responseData r)) hu
    refine ⟨ha, by rw [ha]; exact hl.1, by rw [ha]; exact hl.2, ?_, ?_⟩
    · intro target h3
      simp only [handleSubmit, h1, h2, h3]
      exact ⟨trivial, trivial⟩
    · intro e h3
      simp only [handleSubmit, h1, h2, h3]
      exact ⟨trivial, trivial⟩
  · intro e h2
    simp only [handleSubmit, h1, h2]
    exact ⟨trivial, trivial, trivial⟩

/-! ## Route guard -/

/-- C1: when the token or the user is absent (falsy, as the guard tests it with
`!token || !user`), `ProtectedRoute` returns the redirect to `/login` with
state `{from: location}` for every role list and location, and does not return
its children. -/
theorem protectedRoute_no_session {Loc Child : Type} (auth : Session) (location : Loc)
    (roles : List JSVal) (children : Child)
    (h : auth.token.truthy = false ∨ auth.user.truthy = false) :
    ProtectedRoute auth location roles children
        = .ok (.navigate "/login" (some location) true)
      ∧ ∀ c : Child, ProtectedRoute auth location roles children ≠ .ok (.children c) := by
  have key : ProtectedRoute auth location roles children
      = .ok (.navigate "/login" (some location) true) := by
    unfold ProtectedRoute
    rcases h with h | h <;> simp [h]
  refine ⟨key, ?_⟩
  intro c hc
  rw [key] at hc
  cases hc

theorem protectedRoute_no_session_witness :
    (ProtectedRoute ⟨.obj [("role", .str "admin")], .null⟩ "/admin/verifications"
        [.str "admin"] "AdminVerifications"
        = .ok (.navigate "/login" (some "/admin/verifications") true)
      ∧ ∀ c : String,
        ProtectedRoute ⟨.obj [("role", .str "admin")], .null⟩ "/admin/verifications"
          [.str "admin"] "AdminVerifications" ≠ .ok (.children c))
    ∧ (ProtectedRoute ⟨.undefined, .str "t1"⟩ "/profile" [] "Profile"
        = .ok (.navigate "/login" (some "/profile") true)
      ∧ ∀ c : String,
        ProtectedRoute ⟨.undefined, .str "t1"⟩ "/profile" [] "Profile" ≠ .ok (.children c)) :=
  ⟨protectedRoute_no_session _ _ _ _ (Or.inl rfl), protectedRoute_no_session _ _ _ _ (Or.inr rfl)⟩

/-- C2: with a present (truthy) token and user and a non-empty role list that
does not include the raw `role` property of the user, `ProtectedRoute` returns
the redirect to `/` and does not return its children. -/
theorem protectedRoute_role_denied {Loc Child : Type} (auth : Session) (location : Loc)
    (roles : List JSVal) (children : Child)
    (ht : auth.token.truthy = true) (hu : auth.user.truthy = true)
    (hne : roles ≠ []) (hnot : includes roles (field auth.user "role") = false) :
    ProtectedRoute auth location roles children = .ok (.navigate "/" none true)
      ∧ ∀ c : Child, ProtectedRoute auth location roles children ≠ .ok (.children c) := by
  have hlen : 0 < roles.length := List.length_pos.mpr hne
  have key : ProtectedRoute auth location roles children = .ok (.navigate "/" none true) := by
    unfold ProtectedRoute
    simp [ht, hu, getProp_of_truthy _ _ hu, Except.bind, hnot, hlen]
  refine ⟨key, ?_⟩
  intro c hc
  rw [key] at hc
  cases hc

theorem protectedRoute_role_denied_witness :
    ProtectedRoute ⟨.obj [("role", .str "employer")], .str "t1"⟩ "/admin/verifications"
        [.str "admin"] "AdminVerifications" = .ok (.navigate "/" none true)
      ∧ ∀ c : String,
        ProtectedRoute ⟨.obj [("role", .str "employer")], .str "t1"⟩ "/admin/verifications"
          [.str "admin"] "AdminVerifications" ≠ .ok (.children c) :=
  protectedRoute_role_denied _ _ _ _ rfl rfl (by simp) rfl

/-- C3: with a present token and user the guard returns the children exactly
when the role list is empty or includes the raw `role` of the user; with an
empty list every logged-in user is admitted; and for every session the result
is exactly one of the three outcomes redirect to login, redirect to home,
render. -/
theorem protectedRoute_render_iff {Loc Child : Type} (auth : Session) (location : Loc)
    (roles : List JSVal) (children : Child) :
    (auth.token.truthy = true → auth.user.truthy = true →
      (ProtectedRoute auth location roles children = .ok (.children children)
        ↔ roles = [] ∨ includes roles (field auth.user "role") = true))
    ∧ (auth.token.truthy = true → auth.user.truthy = true →
        ProtectedRoute auth location [] children = .ok (.children children))
    ∧ (ProtectedRoute auth location roles children
          = .ok (.navigate "/login" (some location) true)
        ∨ ProtectedRoute auth location roles children = .ok (.navigate "/" none true)
        ∨ ProtectedRoute auth location roles children = .ok (.children children))
    ∧ ((Except.ok (.navigate "/login" (some location) true)
          : Except JSError (Element Loc Child)) ≠ .ok (.navigate "/" none true)
        ∧ (Except.ok (.navigate "/login" (some location) true)
          : Except JSError (Element Loc Child)) ≠ .ok (.children children)
        ∧ (Except.ok (.navigate "/" none true)
          : Except JSError (Element Loc Child)) ≠ .ok (.children children)) := by
  refine ⟨?_, ?_, ?_, ?_⟩
  · intro ht hu
    unfold ProtectedRoute
    cases roles with
    | nil => simp [ht, hu, getProp_of_truthy _ _ hu, Except.bind]
    | cons r rs =>
      cases hinc : includes (r :: rs) (field auth.user "role") <;>
        simp [ht, hu, getProp_of_truthy _ _ hu, Except.bind, hinc]
  · intro ht hu
    unfold ProtectedRoute
    simp [ht, hu, getProp_of_truthy _ _ hu, Except.bind]
  · unfold ProtectedRoute
    cases ht : auth.token.truthy <;> cases hu : auth.user.truthy <;> simp
    simp only [getProp_of_truthy _ _ hu, Except.bind]
    cases roles with
    | nil => simp
    | cons r rs =>
      cases hinc : includes (r :: rs) (field auth.user "role") <;> simp
  · refine ⟨?_, ?_, ?_⟩ <;> simp

theorem protectedRoute_render_iff_witness :
    ProtectedRoute ⟨.obj [("role", .str "employer")], .str "t1"⟩ "/profile"
        [.str "jobseeker", .str "employer", .str "admin"] "Profile"
        = .ok (.children "Profile")
    ∧ ProtectedRoute ⟨.obj [("role", .arr [.str "employer"])], .str "t1"⟩ "/jobs"
        [] "JobsList" = .ok (.children "JobsList") :=
  ⟨((protectedRoute_render_iff ⟨.obj [("role", .str "employer")], .str "t1"⟩ "/profile"
      [.str "jobseeker", .str "employer", .str "admin"] "Profile").1 rfl rfl).mpr (Or.inr rfl),
    (protectedRoute_render_iff ⟨.obj [("role", .arr [.str "employer"])], .str "t1"⟩ "/jobs"
      [] "JobsList").2.1 rfl rfl⟩

/-! ## Role classifier -/

/-- C4 (counterexample): a record without a `roles` list is classified both as
employer and jobseeker when `role` and `type` disagree, and both as employer
and admin when the `isAdmin` flag is set next to `role: "employer"`; a record
whose `roles` list names the single role jobseeker next to `role: "employer"`
is classified both as employer and jobseeker. -/
theorem role_predicates_overlap :
    (field (obj [("role", str "employer"), ("type", str "jobseeker")]) "roles").isArray = false
    ∧ isEmployer (obj [("role", str "employer"), ("type", str "jobseeker")]) = .ok true
    ∧ isJobseeker (obj [("role", str "employer"), ("type", str "jobseeker")]) = .ok true
    ∧ isEmployer (obj [("role", str "employer"), ("isAdmin", .bool true)]) = .ok true
    ∧ isAdmin (obj [("role", str "employer"), ("isAdmin", .bool true)]) = .ok true
    ∧ isEmployer (obj [("role", str "employer"), ("roles", arr [str "jobseeker"])]) = .ok true
    ∧ isJobseeker (obj [("role", str "employer"), ("roles", arr [str "jobseeker"])])
      = .ok true :=
  ⟨rfl, rfl, rfl, rfl, rfl, rfl, rfl⟩

/-- C4 (amended): for a user record whose sources do not disagree, at most one
of `isJobseeker`, `isEmployer`, `isAdmin` is true.  The sources do not disagree
when there is one role name `t` such that the normalized `role`, the
lower-cased `type` and every role the `roles` list contains, whenever they
name employer, jobseeker or admin (employer or jobseeker for `type`), name
`t`, and the `isAdmin` flag is set only when `t` is admin.  A record with a
`roles` list is in scope as long as the list names no second role. -/
theorem role_predicates_exclusive (u : JSVal) (t : String)
    (hrole : ∀ r, normalizeRole (field u "role") = .ok r →
      r = "employer" ∨ r = "jobseeker" ∨ r = "admin" → r = t)
    (htype : ∀ s, typeLowerCase u = .ok (some s) → s = "employer" ∨ s = "jobseeker" → s = t)
    (hflag : (field u "isAdmin").truthy = true → t = "admin")
    (hroles : ∀ s, s = "employer" ∨ s = "jobseeker" ∨ s = "admin" →
      rolesInclude u s = .ok true → s = t) :
    ¬ (isEmployer u = .ok true ∧ isJobseeker u = .ok true)
    ∧ ¬ (isEmployer u = .ok true ∧ isAdmin u = .ok true)
    ∧ ¬ (isJobseeker u = .ok true ∧ isAdmin u = .ok true) := by
  have hE : isEmployer u = .ok true → t = "employer" := by
    intro h
    obtain ⟨_, r, hr, h1 | h1 | h1⟩ := isEmployer_true u h
    · rw [← hrole r hr (Or.inl h1), h1]
    · exact (htype _ h1 (Or.inl rfl)).symm
    · exact (hroles _ (Or.inl rfl) h1).symm
  have hJ : isJobseeker u = .ok true → t = "jobseeker" := by
    intro h
    obtain ⟨_, r, hr, h1 | h1 | h1⟩ := isJobseeker_true u h
    · rw [← hrole r hr (Or.inr (Or.inl h1)), h1]
    · exact (htype _ h1 (Or.inr rfl)).symm
    · exact (hroles _ (Or.inr (Or.inl rfl)) h1).symm
  have hA : isAdmin u = .ok true → t = "admin" := by
    intro h
    obtain ⟨_, h1 | ⟨r, hr, h1 | h1⟩⟩ := isAdmin_true u h
    · exact hflag h1
    · rw [← hrole r hr (Or.inr (Or.inr h1)), h1]
    · exact (hroles _ (Or.inr (Or.inr rfl)) h1).symm
  refine ⟨?_, ?_, ?_⟩
  · rintro ⟨h1, h2⟩
    have := (hE h1).symm.trans (hJ h2)
    simp at this
  · rintro ⟨h1, h2⟩
    have := (hE h1).symm.trans (hA h2)
    simp at this
  · rintro ⟨h1, h2⟩
    have := (hJ h1).symm.trans (hA h2)
    simp at this

theorem role_predicates_exclusive_witness :
    isEmployer (obj [("role", str "employer"), ("roles", arr [str "Employer"])]) = .ok true
    ∧ (¬ (isEmployer (obj [("role", str "employer"), ("roles", arr [str "Employer"])])
            = .ok true
          ∧ isJobseeker (obj [("role", str "employer"), ("roles", arr [str "Employer"])])
            = .ok true)
      ∧ ¬ (isEmployer (obj [("role", str "employer"), ("roles", arr [str "Employer"])])
            = .ok true
          ∧ isAdmin (obj [("role", str "employer"), ("roles", arr [str "Employer"])])
            = .ok true)
      ∧ ¬ (isJobseeker (obj [("role", str "employer"), ("roles", arr [str "Employer"])])
            = .ok true
          ∧ isAdmin (obj [("role", str "employer"), ("roles", arr [str "Employer"])])
            = .ok true)) :=
  ⟨rfl, role_predicates_exclusive
    (obj [("role", str "employer"), ("roles", arr [str "Employer"])]) "employer"
    (fun r h _ => by
      have h2 : (Except.ok "employer" : Except JSError String) = .ok r := h
      simp only [Except.ok.injEq] at h2
      exact h2.symm)
    (fun s h _ => by
      have h2 : (Except.ok none : Except JSError (Option String)) = .ok (some s) := h
      simp at h2)
    (fun h => by cases h)
    (fun s hs h => by
      rcases hs with rfl | rfl | rfl
      · rfl
      · have h2 : (Except.ok false : Except JSError Bool) = .ok true := h
        simp at h2
      · have h2 : (Except.ok false : Except JSError Bool) = .ok true := h
        simp at h2)⟩

/-- C5 (failing input): `isAdmin` never reads `type`, so a user whose only role
information is `type: "admin"` is not classified as admin, while `isEmployer`
and `isJobseeker` accept the same shape.  On present records without an own
`toString` entry, `isEmployer` and `isJobseeker` follow the claimed rule
(`role`, `type`, `roles`), and `isAdmin` is true exactly for the admin flag,
`role` or `roles`. -/
theorem isAdmin_ignores_type :
    (isAdmin (obj [("type", str "admin")]) = .ok false
      ∧ (∀ t : JSVal, isAdmin (obj [("type", t)]) = .ok false)
      ∧ isEmployer (obj [("type", str "employer")]) = .ok true
      ∧ isJobseeker (obj [("type", str "jobseeker")]) = .ok true)
    ∧ (∀ u : JSVal, u.truthy = true → plain u = true →
        (isEmployer u = .ok true ↔
          (normalizeRole (field u "role") = .ok "employer"
            ∨ typeLowerCase u = .ok (some "employer")
            ∨ ∃ items, field u "roles" = arr items
                ∧ ∃ x ∈ items, normalizeRole x = .ok "employer")))
    ∧ (∀ u : JSVal, u.truthy = true → plain u = true →
        (isJobseeker u = .ok true ↔
          (normalizeRole (field u "role") = .ok "jobseeker"
            ∨ typeLowerCase u = .ok (some "jobseeker")
            ∨ ∃ items, field u "roles" = arr items
                ∧ ∃ x ∈ items, normalizeRole x = .ok "jobseeker")))
    ∧ (∀ u : JSVal, u.truthy = true → plain u = true →
        (isAdmin u = .ok true ↔
          ((field u "isAdmin").truthy = true
            ∨ normalizeRole (field u "role") = .ok "admin"
            ∨ ∃ items, field u "roles" = arr items
                ∧ ∃ x ∈ items, normalizeRole x = .ok "admin"))) := by
  refine ⟨⟨rfl, fun _ => rfl, rfl, rfl⟩, ?_, ?_, ?_⟩
  · intro u hu hp
    rw [isEmployer_iff u hu hp, rolesInclude_iff u _ hu hp]
  · intro u hu hp
    rw [isJobseeker_iff u hu hp, rolesInclude_iff u _ hu hp]
  · intro u hu hp
    rw [isAdmin_iff u hu hp, rolesInclude_iff u _ hu hp]

/-- C6 (counterexample): for the value `false`, which is not absent, the code
returns the empty string, not the lower-cased string form `"false"` (the same
holds for `0`). -/
theorem normalizeRole_false_not_string_form :
    normalizeRole (.bool false) = .ok ""
    ∧ normalizeRoleSpec (.bool false) = .ok "false"
    ∧ normalizeRole (num 0) = .ok ""
    ∧ normalizeRoleSpec (num 0) = .ok "0" :=
  ⟨rfl, rfl, rfl, rfl⟩

/-- C6 (amended): `normalizeRole` replaces a list by its first element, then an
object by its first non-null sub-field among `name`, `role`, `type`, and
returns the lower-cased string form of the value, or the empty string when the
value is falsy.  It returns whenever no object inside the value carries its
own `toString` entry, every returned string equals its own lower-casing, and
the listed examples evaluate as stated. -/
theorem normalizeRole_rule :
    (∀ v : JSVal, normalizeRole v = normalizeRoleAmended v)
    ∧ (∀ v : JSVal, plain v = true → ∃ s, normalizeRole v = .ok s ∧ toLowerCase s = s)
    ∧ (∀ (v : JSVal) (s : String), normalizeRole v = .ok s → toLowerCase s = s)
    ∧ normalizeRole (str "Employer") = .ok "employer"
    ∧ normalizeRole (arr [str "EMPLOYER"]) = .ok "employer"
    ∧ normalizeRole (obj [("name", str "employer")]) = .ok "employer"
    ∧ normalizeRole null = .ok ""
    ∧ normalizeRole undefined = .ok ""
    ∧ normalizeRole (arr []) = .ok "" := by
  refine ⟨normalizeRole_eq_amended, ?_, normalizeRole_lower, rfl, rfl, rfl, rfl, rfl, rfl⟩
  intro v hv
  obtain ⟨s, hs⟩ := normalizeRole_total v hv
  exact ⟨s, hs, normalizeRole_lower v s hs⟩

theorem normalizeRole_rule_witness :
    ∃ s, normalizeRole (obj [("name", arr [str "Employer", num 2])]) = .ok s
      ∧ toLowerCase s = s :=
  normalizeRole_rule.2.1 _ rfl

/-- C7 (failing inputs): an object that carries an own `toString` entry under
`type`, under `role.name` or under `verificationStatus` makes the predicates
raise a `TypeError` instead of returning a boolean.  The rest of the claim
holds: a falsy user (`null`, `undefined`) gives `false`, a record without such
an entry always gives a boolean, and a record with none of the fields gives
`false`. -/
theorem classifier_throws_on_own_toString :
    (isEmployer (obj [("type", obj [("toString", num 1)])]) = .error .typeError
      ∧ isJobseeker (obj [("type", obj [("toString", num 1)])]) = .error .typeError
      ∧ isAdmin (obj [("role", obj [("name", obj [("toString", num 1)])])])
          = .error .typeError
      ∧ isEmployerVerified (obj [("verificationStatus", obj [("toString", num 1)])])
          = .error .typeError)
    ∧ (∀ u : JSVal, u.truthy = false →
        isEmployer u = .ok false ∧ isJobseeker u = .ok false ∧ isAdmin u = .ok false
          ∧ isEmployerVerified u = .ok false)
    ∧ (∀ u : JSVal, plain u = true →
        (∃ b, isEmployer u = .ok b) ∧ (∃ b, isJobseeker u = .ok b) ∧ (∃ b, isAdmin u = .ok b)
          ∧ (∃ b, isEmployerVerified u = .ok b))
    ∧ (∀ u : JSVal,
        (∀ k ∈ ["role", "type", "roles", "isAdmin", "isVerified", "verified", "is_verified",
          "verificationStatus"], field u k = undefined) →
        isEmployer u = .ok false ∧ isJobseeker u = .ok false ∧ isAdmin u = .ok false
          ∧ isEmployerVerified u = .ok false) := by
  refine ⟨⟨rfl, rfl, rfl, rfl⟩, ?_, ?_, ?_⟩
  · intro u hu
    simp [isEmployer, isJobseeker, isAdmin, isEmployerVerified, hu]
  · intro u hp
    exact ⟨isEmployer_total u hp, isJobseeker_total u hp, isAdmin_total u hp,
      isEmployerVerified_total u hp⟩
  · intro u h
    have hrole : field u "role" = undefined := h _ (by simp)
    have htype : field u "type" = undefined := h _ (by simp)
    have hroles : field u "roles" = undefined := h _ (by simp)
    have hflag : field u "isAdmin" = undefined := h _ (by simp)
    have h1 : field u "isVerified" = undefined := h _ (by simp)
    have h2 : field u "verified" = undefined := h _ (by simp)
    have h3 : field u "is_verified" = undefined := h _ (by simp)
    have h4 : field u "verificationStatus" = undefined := h _ (by simp)
    have hnorm : normalizeRole undefined = .ok "" := rfl
    have hstr : callToString (str "") = .ok "" := rfl
    have hlow : toLowerCase "" = "" := rfl
    cases hu : u.truthy with
    | false => simp [isEmployer, isJobseeker, isAdmin, isEmployerVerified, hu]
    | true =>
      simp [isEmployer, isJobseeker, isAdmin, isEmployerVerified, typeLowerCase, rolesInclude,
        hu, getProp_of_truthy u _ hu, optProp_of_truthy u _ hu, hrole, htype, hroles, hflag,
        h1, h2, h3, h4, hnorm, hstr, hlow, Except.bind, truthy, nullish]

/-- C8 (counterexample): the truthy, non-boolean flag `isVerified: 1` alone
makes `isEmployerVerified` true, although no alias is the boolean `true` and
there is no status. -/
theorem isEmployerVerified_truthy_flag :
    isEmployerVerified (obj [("isVerified", num 1)]) = .ok true
    ∧ isEmployerVerifiedSpec (obj [("isVerified", num 1)]) = false :=
  ⟨rfl, rfl⟩

/-- C8 (amended): for a present user whose `verificationStatus` has a string
form, `isEmployerVerified` returns whether one of `isVerified`, `verified`,
`is_verified` is truthy or the lower-cased string form of `verificationStatus`
is `approved`. -/
theorem isEmployerVerified_rule (u : JSVal) (hu : u.truthy = true)
    (hp : plain (field u "verificationStatus") = true) :
    isEmployerVerified u
      = .ok ((field u "isVerified").truthy || (field u "verified").truthy
          || (field u "is_verified").truthy || statusApproved u)
    ∧ (isEmployerVerified u = .ok true ↔
        ((field u "isVerified").truthy = true ∨ (field u "verified").truthy = true
          ∨ (field u "is_verified").truthy = true ∨ statusApproved u = true)) := by
  have key : isEmployerVerified u
      = .ok ((field u "isVerified").truthy || (field u "verified").truthy
          || (field u "is_verified").truthy || statusApproved u) := by
    obtain ⟨s, hs⟩ := callToString_orEmpty _ hp
    unfold isEmployerVerified statusApproved
    simp only [hu, Bool.not_true, Bool.false_eq_true, if_false, optProp_of_truthy u _ hu,
      Except.bind, hs]
  refine ⟨key, ?_⟩
  rw [key]
  simp [or_assoc]

theorem isEmployerVerified_rule_witness :
    (isEmployerVerified (obj [("verificationStatus", str "APPROVED")]) = .ok true
      ∧ isEmployerVerified (obj [("verificationStatus", str "pending")]) = .ok false)
    ∧ (isEmployerVerified (obj [("verificationStatus", str "APPROVED")])
        = .ok ((field (obj [("verificationStatus", str "APPROVED")]) "isVerified").truthy
          || (field (obj [("verificationStatus", str "APPROVED")]) "verified").truthy
          || (field (obj [("verificationStatus", str "APPROVED")]) "is_verified").truthy
          || statusApproved (obj [("verificationStatus", str "APPROVED")]))
      ∧ (isEmployerVerified (obj [("verificationStatus", str "APPROVED")]) = .ok true ↔
        ((field (obj [("verificationStatus", str "APPROVED")]) "isVerified").truthy = true
          ∨ (field (obj [("verificationStatus", str "APPROVED")]) "verified").truthy = true
          ∨ (field (obj [("verificationStatus", str "APPROVED")]) "is_verified").truthy = true
          ∨ statusApproved (obj [("verificationStatus", str "APPROVED")]) = true))) :=
  ⟨⟨rfl, rfl⟩, isEmployerVerified_rule _ rfl rfl⟩

/-! ## Session store -/

/-- C9: when the first non-empty user alias holds valid JSON, or no user alias
holds a value, `readFromStorage` returns as user the parsed value of the first
non-empty key among `user`, `authUser`, `currentUser` (`null` if none) and as
token the raw value of the first non-empty key among `token`, `authToken`,
`accessToken` (`null` if none); with no alias key present it returns
`{user: null, token: null}`. -/
theorem readFromStorage_valid (JSON_parse : String → Except JSError JSVal) (store : Storage)
    (user : JSVal)
    (h : match firstNonEmpty store ALIASES.USER with
      | none => user = null
      | some raw => JSON_parse raw = .ok user) :
    readFromStorage JSON_parse store
        = ⟨user, match firstNonEmpty store ALIASES.TOKEN with
          | none => null
          | some raw => str raw⟩
    ∧ ((∀ k ∈ ALIASES.USER ++ ALIASES.TOKEN, store k = none) →
        readFromStorage JSON_parse store = ⟨null, null⟩) := by
  have key : readFromStorage JSON_parse store
        = ⟨user, match firstNonEmpty store ALIASES.TOKEN with
          | none => null
          | some raw => str raw⟩ := by
    unfold readFromStorage
    rw [userLoop_eq]
    cases hu : firstNonEmpty store ALIASES.USER with
    | none =>
      rw [hu] at h
      simp only [] at h
      subst h
      simp only [tokenLoop_eq]
      cases firstNonEmpty store ALIASES.TOKEN <;> rfl
    | some raw =>
      rw [hu] at h
      simp only [] at h
      simp only [h, tokenLoop_eq]
      cases firstNonEmpty store ALIASES.TOKEN <;> rfl
  refine ⟨key, ?_⟩
  intro hnone
  have hU : firstNonEmpty store ALIASES.USER = none :=
    firstNonEmpty_none store _ fun k hk => hnone k (List.mem_append_left _ hk)
  have hT : firstNonEmpty store ALIASES.TOKEN = none :=
    firstNonEmpty_none store _ fun k hk => hnone k (List.mem_append_right _ hk)
  rw [hU] at h
  simp only [] at h
  rw [key, hT, h]

theorem readFromStorage_valid_witness :
    readFromStorage sampleParse (storageOf [("authUser", "\x7b\x7d"), ("accessToken", "t9")])
        = ⟨obj [], str "t9"⟩
    ∧ readFromStorage sampleParse (storageOf [("token", "t1")]) = ⟨null, str "t1"⟩
    ∧ readFromStorage sampleParse
        (storageOf [("user", ""), ("currentUser", "\x7b\"role\":\"employer\"\x7d")])
        = ⟨obj [("role", str "employer")], null⟩
    ∧ readFromStorage sampleParse (storageOf []) = ⟨null, null⟩ :=
  ⟨(readFromStorage_valid sampleParse
      (storageOf [("authUser", "\x7b\x7d"), ("accessToken", "t9")]) (obj []) rfl).1,
    (readFromStorage_valid sampleParse (storageOf [("token", "t1")]) null rfl).1,
    (readFromStorage_valid sampleParse
      (storageOf [("user", ""), ("currentUser", "\x7b\"role\":\"employer\"\x7d")])
      (obj [("role", str "employer")]) rfl).1,
    (readFromStorage_valid sampleParse (storageOf []) null rfl).2 (fun _ _ => rfl)⟩

/-- C10: when the first non-empty user alias holds text that `JSON.parse`
rejects, `readFromStorage` returns `{user: null, token: null}`, whatever the
other user aliases and the token aliases hold. -/
theorem readFromStorage_parse_failure (JSON_parse : String → Except JSError JSVal)
    (store : Storage) (raw : String) (e : JSError)
    (h1 : firstNonEmpty store ALIASES.USER = some raw) (h2 : JSON_parse raw = .error e) :
    readFromStorage JSON_parse store = ⟨null, null⟩ := by
  unfold readFromStorage
  rw [userLoop_eq, h1]
  simp only [h2]

theorem readFromStorage_parse_failure_witness :
    firstNonEmpty (storageOf [("user", "not json"), ("authUser", "\x7b\x7d"), ("token", "t1")])
        ALIASES.USER = some "not json"
    ∧ sampleParse "not json" = .error .syntaxError
    ∧ readFromStorage sampleParse
        (storageOf [("user", "not json"), ("authUser", "\x7b\x7d"), ("token", "t1")])
        = ⟨null, null⟩ :=
  ⟨rfl, rfl, readFromStorage_parse_failure sampleParse _ "not json" .syntaxError rfl rfl⟩

/-- C11 (counterexample): `login(u, "")`, the call `Login.jsx` makes when the
response carries no token, writes no `token` key, so the token of the previous
session stays in storage and is what `readFromStorage` returns, while the
in-memory token is `null`; and `login(null, t)` leaves the stored user of the
previous session in place. -/
theorem login_falsy_keeps_previous :
    (login sampleStringify ⟨storageOf [("token", "old")], ⟨null, null⟩⟩
        (obj [("role", str "employer")]) (str "")).storage "token" = some "old"
    ∧ (login sampleStringify ⟨storageOf [("token", "old")], ⟨null, null⟩⟩
        (obj [("role", str "employer")]) (str "")).auth
        = ⟨obj [("role", str "employer")], null⟩
    ∧ readFromStorage sampleParse
        (login sampleStringify ⟨storageOf [("token", "old")], ⟨null, null⟩⟩
          (obj [("role", str "employer")]) (str "")).storage
        = ⟨obj [("role", str "employer")], str "old"⟩
    ∧ (login sampleStringify ⟨storageOf [("user", "\x7b\x7d")], ⟨obj [], null⟩⟩
        null (str "t1")).storage "user" = some "\x7b\x7d" :=
  ⟨rfl, rfl, rfl, rfl⟩

/-- C11 (amended): for a truthy user `u` and a non-empty string token `t`, after
`login(u, t)` the key `user` holds the serialization of `u`, the key `token`
holds `t`, every other key is unchanged, the in-memory session is exactly
`{user: u, token: t}`, and, `JSON.parse` inverting `JSON.stringify` on `u`, an
immediately following `readFromStorage()` yields `u` and `t`. -/
theorem login_stores (JSON_stringify : JSVal → String) (st : AuthState) (u : JSVal)
    (t : String) (hu : u.truthy = true) (ht : t ≠ "") :
    (login JSON_stringify st u (str t)).storage "user" = some (JSON_stringify u)
    ∧ (login JSON_stringify st u (str t)).storage "token" = some t
    ∧ (∀ k, k ≠ "user" → k ≠ "token" →
        (login JSON_stringify st u (str t)).storage k = st.storage k)
    ∧ (login JSON_stringify st u (str t)).auth = ⟨u, str t⟩
    ∧ (∀ JSON_parse : String → Except JSError JSVal, JSON_stringify u ≠ "" →
        JSON_parse (JSON_stringify u) = .ok u →
        readFromStorage JSON_parse (login JSON_stringify st u (str t)).storage = ⟨u, str t⟩) := by
  have htt : (str t).truthy = true := by simp [truthy, ht]
  have hstore : (login JSON_stringify st u (str t)).storage
      = setItem (setItem st.storage "user" (JSON_stringify u)) "token" t := by
    simp [login, hu, htt, callToString, KEYS.USER, KEYS.TOKEN]
  have h1 : (login JSON_stringify st u (str t)).storage "user" = some (JSON_stringify u) := by
    rw [hstore, setItem_other _ _ _ _ (by decide), setItem_same]
  have h2 : (login JSON_stringify st u (str t)).storage "token" = some t := by
    rw [hstore, setItem_same]
  refine ⟨h1, h2, ?_, ?_, ?_⟩
  · intro k hk1 hk2
    rw [hstore, setItem_other _ _ _ _ hk2, setItem_other _ _ _ _ hk1]
  · simp [login, hu, htt]
  · intro JSON_parse hne hparse
    have hT : firstNonEmpty (login JSON_stringify st u (str t)).storage ALIASES.TOKEN
        = some t := firstNonEmpty_head _ "token" t _ h2 ht
    rw [readFromStorage_user_first JSON_parse _ _ u h1 hne hparse, hT]

theorem login_stores_witness :
    (login sampleStringify ⟨storageOf [("authUser", "\x7b\x7d"), ("token", "old")],
        ⟨obj [], str "old"⟩⟩ (obj [("role", str "employer")]) (str "t1")).auth
      = ⟨obj [("role", str "employer")], str "t1"⟩
    ∧ readFromStorage sampleParse
        (login sampleStringify ⟨storageOf [("authUser", "\x7b\x7d"), ("token", "old")],
          ⟨obj [], str "old"⟩⟩ (obj [("role", str "employer")]) (str "t1")).storage
      = ⟨obj [("role", str "employer")], str "t1"⟩ :=
  ⟨(login_stores sampleStringify _ (obj [("role", str "employer")]) "t1" rfl
      (by decide)).2.2.2.1,
    (login_stores sampleStringify
      ⟨storageOf [("authUser", "\x7b\x7d"), ("token", "old")], ⟨obj [], str "old"⟩⟩
      (obj [("role", str "employer")]) "t1" rfl (by decide)).2.2.2.2 sampleParse
      (by decide) rfl⟩

/-- C12: after `logout()`, and after the Navbar's `handleLogout()`, none of the
six alias keys is present in storage, every other key is unchanged, the
in-memory session is `{user: null, token: null}` and `readFromStorage()`
returns `{user: null, token: null}`. -/
theorem logout_clears (st : AuthState) :
    (∀ k ∈ ALIASES.USER ++ ALIASES.TOKEN, (logout st).storage k = none)
    ∧ (∀ k, k ∉ ALIASES.USER ++ ALIASES.TOKEN → (logout st).storage k = st.storage k)
    ∧ (logout st).auth = ⟨null, null⟩
    ∧ (∀ JSON_parse : String → Except JSError JSVal,
        readFromStorage JSON_parse (logout st).storage = ⟨null, null⟩)
    ∧ (∀ k ∈ ALIASES.USER ++ ALIASES.TOKEN, (handleLogout st).1.storage k = none)
    ∧ (∀ k, k ∉ ALIASES.USER ++ ALIASES.TOKEN → (handleLogout st).1.storage k = st.storage k)
    ∧ (handleLogout st).1.auth = ⟨null, null⟩
    ∧ (∀ JSON_parse : String → Except JSError JSVal,
        readFromStorage JSON_parse (handleLogout st).1.storage = ⟨null, null⟩) := by
  have hA : ∀ k ∈ ALIASES.USER ++ ALIASES.TOKEN, (logout st).storage k = none := by
    intro k hk
    simp only [logout, removeAll_apply, hk, if_true]
  have hB : ∀ k ∈ ALIASES.USER ++ ALIASES.TOKEN, (handleLogout st).1.storage k = none := by
    intro k hk
    simp only [handleLogout, logout, removeAll_apply, hk, if_true]
  refine ⟨hA, ?_, rfl, fun p => readFromStorage_cleared p _ hA, hB, ?_, rfl,
    fun p => readFromStorage_cleared p _ hB⟩
  · intro k hk
    simp only [logout, removeAll_apply, hk, if_false]
  · intro k hk
    have hk' : k ∉ ["user", "authUser", "currentUser", "token", "authToken", "accessToken"] :=
      hk
    simp only [handleLogout, logout, removeAll_apply, hk, hk', if_false]

/-- C13: `logout` is idempotent: the storage and the in-memory session after
`logout(); logout()` are those after a single `logout()`. -/
theorem logout_idempotent (st : AuthState) : logout (logout st) = logout st := by
  have hs : (logout (logout st)).storage = (logout st).storage := by
    funext k
    simp only [logout, removeAll_apply]
    split <;> rfl
  have ha : (logout (logout st)).auth = (logout st).auth := rfl
  cases h1 : logout (logout st)
  cases h2 : logout st
  rw [h1] at hs ha
  rw [h2] at hs ha
  simp only at hs ha
  rw [hs, ha]

/-- C14: when the current-user request fails, whatever the failure,
`refreshUser()` returns `null` and leaves storage and the in-memory session as
they were. -/
theorem refreshUser_failure {ε : Type} (JSON_stringify : JSVal → String) (e : ε)
    (st : AuthState) :
    refreshUser JSON_stringify (.error e : Except ε JSVal) st = (st, null) :=
  rfl

/-- C15 (counterexample): a successful response with the body `null` (or with
an empty body, `""`) sets the in-memory user to `null` but does not overwrite
the stored user, so the two disagree afterwards; for the empty body the
returned value is `null`, not the body. -/
theorem refreshUser_falsy_body :
    (refreshUser sampleStringify (.ok null : Except JSError JSVal)
        ⟨storageOf [("user", "\x7b\x7d")], ⟨obj [], str "t1"⟩⟩).1.storage "user"
      = some "\x7b\x7d"
    ∧ (refreshUser sampleStringify (.ok null : Except JSError JSVal)
        ⟨storageOf [("user", "\x7b\x7d")], ⟨obj [], str "t1"⟩⟩).1.auth.user = null
    ∧ (readFromStorage sampleParse
        (refreshUser sampleStringify (.ok null : Except JSError JSVal)
          ⟨storageOf [("user", "\x7b\x7d")], ⟨obj [], str "t1"⟩⟩).1.storage).user = obj []
    ∧ (refreshUser sampleStringify (.ok (str "") : Except JSError JSVal)
        ⟨storageOf [("user", "\x7b\x7d")], ⟨obj [], str "t1"⟩⟩).2 = null :=
  ⟨rfl, rfl, rfl, rfl⟩

/-- C15 (amended): for a successful response with a truthy body `d`,
`refreshUser()` returns `d`, overwrites the key `user` with the serialization
of `d`, sets the in-memory user to `d` and leaves every other key and the
in-memory token unchanged; `JSON.parse` inverting `JSON.stringify` on `d`, the
user read back from storage is the in-memory user. -/
theorem refreshUser_success (JSON_stringify : JSVal → String) (d : JSVal) (st : AuthState)
    (hd : d.truthy = true) :
    (refreshUser JSON_stringify (.ok d : Except JSError JSVal) st).2 = d
    ∧ (refreshUser JSON_stringify (.ok d : Except JSError JSVal) st).1.storage "user"
        = some (JSON_stringify d)
    ∧ (∀ k, k ≠ "user" →
        (refreshUser JSON_stringify (.ok d : Except JSError JSVal) st).1.storage k
          = st.storage k)
    ∧ (refreshUser JSON_stringify (.ok d : Except JSError JSVal) st).1.auth
        = ⟨d, st.auth.token⟩
    ∧ (∀ JSON_parse : String → Except JSError JSVal, JSON_stringify d ≠ "" →
        JSON_parse (JSON_stringify d) = .ok d →
        (readFromStorage JSON_parse
          (refreshUser JSON_stringify (.ok d : Except JSError JSVal) st).1.storage).user
          = (refreshUser JSON_stringify (.ok d : Except JSError JSVal) st).1.auth.user) := by
  have hstore : (refreshUser JSON_stringify (.ok d : Except JSError JSVal) st).1.storage
      = setItem st.storage "user" (JSON_stringify d) := by
    simp [refreshUser, hd, KEYS.USER]
  have hauth : (refreshUser JSON_stringify (.ok d : Except JSError JSVal) st).1.auth
      = ⟨d, st.auth.token⟩ := by
    simp [refreshUser, hd]
  have h1 : (refreshUser JSON_stringify (.ok d : Except JSError JSVal) st).1.storage "user"
      = some (JSON_stringify d) := by
    rw [hstore, setItem_same]
  refine ⟨by simp [refreshUser, hd], h1, ?_, hauth, ?_⟩
  · intro k hk
    rw [hstore, setItem_other _ _ _ _ hk]
  · intro JSON_parse hne hparse
    rw [readFromStorage_user_first JSON_parse _ _ d h1 hne hparse, hauth]

theorem refreshUser_success_witness :
    (refreshUser sampleStringify (.ok (obj [("role", str "employer")]) : Except JSError JSVal)
        ⟨storageOf [("user", "\x7b\x7d"), ("token", "t1")], ⟨obj [], str "t1"⟩⟩).2
      = obj [("role", str "employer")]
    ∧ (refreshUser sampleStringify
        (.ok (obj [("role", str "employer")]) : Except JSError JSVal)
        ⟨storageOf [("user", "\x7b\x7d"), ("token", "t1")], ⟨obj [], str "t1"⟩⟩).1.auth
      = ⟨obj [("role", str "employer")], str "t1"⟩
    ∧ (readFromStorage sampleParse
        (refreshUser sampleStringify
          (.ok (obj [("role", str "employer")]) : Except JSError JSVal)
          ⟨storageOf [("user", "\x7b\x7d"), ("token", "t1")],
            ⟨obj [], str "t1"⟩⟩).1.storage).user
      = (refreshUser sampleStringify
          (.ok (obj [("role", str "employer")]) : Except JSError JSVal)
          ⟨storageOf [("user", "\x7b\x7d"), ("token", "t1")],
            ⟨obj [], str "t1"⟩⟩).1.auth.user :=
  ⟨(refreshUser_success sampleStringify (obj [("role", str "employer")])
      ⟨storageOf [("user", "\x7b\x7d"), ("token", "t1")], ⟨obj [], str "t1"⟩⟩ rfl).1,
    (refreshUser_success sampleStringify (obj [("role", str "employer")])
      ⟨storageOf [("user", "\x7b\x7d"), ("token", "t1")], ⟨obj [], str "t1"⟩⟩ rfl).2.2.2.1,
    (refreshUser_success sampleStringify (obj [("role", str "employer")])
      ⟨storageOf [("user", "\x7b\x7d"), ("token", "t1")], ⟨obj [], str "t1"⟩⟩ rfl).2.2.2.2
      sampleParse (by decide) rfl⟩

/-! ## Navigation renderer -/

/-- C16 (failing input): for a session user whose `name` is truthy and not a
string, `(sessionUser?.name || "Profile").split(" ")` raises a `TypeError`
during the render, so the Navbar renders no entry, not even "Home".  For every
other session (name absent, falsy or a string, and no own `toString` entry in
the record) the claim holds in both menus: "Home" is present; "Jobs",
"Notifications", the profile link and "Logout" are present exactly when the
session user is truthy; "Register" and "Login" exactly when it is not. -/
theorem navbar_session_entries :
    Navbar (obj [("role", str "employer"), ("name", num 5)]) null false false
      = .error .typeError
    ∧ Navbar undefined (obj [("name", arr [str "Ama"])]) true false = .error .typeError
    ∧ ∀ (ctxUser storedUser : JSVal) (open_ darkNow : Bool),
        plain (sessionUserOf ctxUser storedUser) = true →
        nameIsText (sessionUserOf ctxUser storedUser) = true →
        ∃ view text, Navbar ctxUser storedUser open_ darkNow = .ok view
          ∧ (open_ = true → ∃ m, view.mobile = some m)
          ∧ ∀ items t, ((items = view.desktop ∧ t = text)
                ∨ (view.mobile = some items ∧ t = "Profile")) →
              NavItem.link "/" "Home" ∈ items
              ∧ (NavItem.link "/jobs" "Jobs" ∈ items
                  ↔ (sessionUserOf ctxUser storedUser).truthy = true)
              ∧ (NavItem.link "/notifications" "Notifications" ∈ items
                  ↔ (sessionUserOf ctxUser storedUser).truthy = true)
              ∧ (NavItem.link "/profile" t ∈ items
                  ↔ (sessionUserOf ctxUser storedUser).truthy = true)
              ∧ (NavItem.button "Logout" ∈ items
                  ↔ (sessionUserOf ctxUser storedUser).truthy = true)
              ∧ (NavItem.link "/register" "Register" ∈ items
                  ↔ (sessionUserOf ctxUser storedUser).truthy = false)
              ∧ (NavItem.link "/login" "Login" ∈ items
                  ↔ (sessionUserOf ctxUser storedUser).truthy = false) := by
  refine ⟨rfl, rfl, ?_⟩
  intro ctxUser storedUser open_ darkNow hp hn
  obtain ⟨e, j, a, v, text, _, _, _, _, hnav⟩ :=
    Navbar_total ctxUser storedUser open_ darkNow hp hn
  refine ⟨_, text, hnav, ?_, ?_⟩
  · intro ho
    simp [ho]
  · rintro items t (⟨rfl, rfl⟩ | ⟨hm, rfl⟩)
    · exact navEntries_session _ _ _ _ _ _ _
    · cases open_ with
      | false => simp at hm
      | true =>
        simp only [if_true, Option.some.injEq] at hm
        subst hm
        exact navEntries_session _ _ _ _ _ _ _

/-- C17 (failing inputs): a jobseeker whose `name` is a number makes the render
raise a `TypeError` (the defect of C16), and an employer whose
`verificationStatus` carries an own `toString` entry makes it raise one inside
the employer branch (the defect of C7); no entry is rendered although
`isJobseeker`, respectively `isEmployer`, is true.  For every other session
the claim holds in both menus: "Applications" is present exactly when
`isJobseeker`, "Post Job" and "My Jobs" exactly when `isEmployer`, "Verify"
exactly when `isEmployer` and not `isEmployerVerified`, "Admin" exactly when
`isAdmin`, and the mobile menu lists the same entries in the same order as the
desktop menu. -/
theorem navbar_role_entries :
    (isJobseeker (obj [("role", str "jobseeker"), ("name", num 5)]) = .ok true
      ∧ Navbar (obj [("role", str "jobseeker"), ("name", num 5)]) null true false
          = .error .typeError)
    ∧ (isEmployer (obj [("role", str "employer"),
          ("verificationStatus", obj [("toString", num 1)])]) = .ok true
      ∧ Navbar (obj [("role", str "employer"),
          ("verificationStatus", obj [("toString", num 1)])]) null false false
          = .error .typeError)
    ∧ ∀ (ctxUser storedUser : JSVal) (open_ darkNow : Bool),
        plain (sessionUserOf ctxUser storedUser) = true →
        nameIsText (sessionUserOf ctxUser storedUser) = true →
        ∃ view, Navbar ctxUser storedUser open_ darkNow = .ok view
          ∧ (open_ = true → ∃ m, view.mobile = some m
              ∧ m.map NavItem.key = view.desktop.map NavItem.key)
          ∧ ∀ items, (items = view.desktop ∨ view.mobile = some items) →
              (NavItem.link "/applications" "Applications" ∈ items
                  ↔ isJobseeker (sessionUserOf ctxUser storedUser) = .ok true)
              ∧ (NavItem.link "/employer/post-job" "Post Job" ∈ items
                  ↔ isEmployer (sessionUserOf ctxUser storedUser) = .ok true)
              ∧ (NavItem.link "/employer/jobs" "My Jobs" ∈ items
                  ↔ isEmployer (sessionUserOf ctxUser storedUser) = .ok true)
              ∧ (NavItem.link "/employer/verify" "Verify" ∈ items
                  ↔ (isEmployer (sessionUserOf ctxUser storedUser) = .ok true
                      ∧ isEmployerVerified (sessionUserOf ctxUser storedUser) = .ok false))
              ∧ (NavItem.link "/admin/verifications" "Admin" ∈ items
                  ↔ isAdmin (sessionUserOf ctxUser storedUser) = .ok true) := by
  refine ⟨⟨rfl, rfl⟩, ⟨rfl, rfl⟩, ?_⟩
  intro ctxUser storedUser open_ darkNow hp hn
  obtain ⟨e, j, a, v, text, he, hj, ha, hv, hnav⟩ :=
    Navbar_total ctxUser storedUser open_ darkNow hp hn
  have hroles : ∀ t,
      (NavItem.link "/applications" "Applications"
          ∈ navEntries (sessionUserOf ctxUser storedUser).truthy j e v a t darkNow
            ↔ isJobseeker (sessionUserOf ctxUser storedUser) = .ok true)
      ∧ (NavItem.link "/employer/post-job" "Post Job"
          ∈ navEntries (sessionUserOf ctxUser storedUser).truthy j e v a t darkNow
            ↔ isEmployer (sessionUserOf ctxUser storedUser) = .ok true)
      ∧ (NavItem.link "/employer/jobs" "My Jobs"
          ∈ navEntries (sessionUserOf ctxUser storedUser).truthy j e v a t darkNow
            ↔ isEmployer (sessionUserOf ctxUser storedUser) = .ok true)
      ∧ (NavItem.link "/employer/verify" "Verify"
          ∈ navEntries (sessionUserOf ctxUser storedUser).truthy j e v a t darkNow
            ↔ (isEmployer (sessionUserOf ctxUser storedUser) = .ok true
                ∧ isEmployerVerified (sessionUserOf ctxUser storedUser) = .ok false))
      ∧ (NavItem.link "/admin/verifications" "Admin"
          ∈ navEntries (sessionUserOf ctxUser storedUser).truthy j e v a t darkNow
            ↔ isAdmin (sessionUserOf ctxUser storedUser) = .ok true) := by
    intro t
    have h := navEntries_roles (sessionUserOf ctxUser storedUser).truthy j e v a t darkNow
    rw [he, hj, ha, hv]
    simpa using h
  refine ⟨_, hnav, ?_, ?_⟩
  · intro ho
    exact ⟨navEntries (sessionUserOf ctxUser storedUser).truthy j e v a "Profile" darkNow,
      by simp [ho], navEntries_keys _ _ _ _ _ _ _ _⟩
  · rintro items (rfl | hm)
    · exact hroles text
    · cases open_ with
      | false => simp at hm
      | true =>
        simp only [if_true, Option.some.injEq] at hm
        subst hm
        exact hroles "Profile"

/-- C18 (counterexample): for the response body `{unread: true}` the chosen
value is not numeric, yet the count stored is `1`, not `0`; the same for
`{count: true}`, and for `{unread: [5]}` the count stored is `5`. -/
theorem unread_count_of_non_number :
    (pollRun (fun _ => JSNumber.nan)
        [(.effect (obj [("role", str "employer")]) : PollEvent JSError),
          .response 0 (.ok (obj [("unread", .bool true)]))] PollState.initial).unread
      = .finite 1
    ∧ unreadOf (fun _ => JSNumber.nan)
        (.ok (obj [("unread", .bool true)]) : Except JSError JSVal) = .finite 1
    ∧ unreadOf (fun _ => JSNumber.nan)
        (.ok (obj [("count", .bool true)]) : Except JSError JSVal) = .finite 1
    ∧ unreadOf (fun s => if s = "5" then JSNumber.finite 5 else JSNumber.nan)
        (.ok (obj [("unread", arr [num 5])]) : Except JSError JSVal) = .finite 5 :=
  ⟨rfl, rfl, rfl, rfl⟩

/-- C18 (amended): for a response body `d` let `v` be `d.unread` when that
field is present (not `null` or `undefined`), otherwise `d.count` when
present, otherwise `0`.  The count passed to `setUnread` is `Number(v)` when
that is a finite number and `0` when it is not or when the conversion throws:
a number `n` gives `n`, `true` gives `1`, `false` gives `0`, a string gives
its numeric value when it has a finite one and `0` otherwise.  A failed
request gives `0`; a mounted run stores exactly this value, and the stored
count is finite in every reachable state. -/
theorem unread_count_rule {ε : Type} (stringToNumber : String → JSNumber) (d : JSVal) :
    (∀ n : ℤ, field d "unread" = num n →
        unreadOf stringToNumber (.ok d : Except ε JSVal) = .finite n)
    ∧ (∀ n : ℤ, (field d "unread").nullish = true → field d "count" = num n →
        unreadOf stringToNumber (.ok d : Except ε JSVal) = .finite n)
    ∧ ((field d "unread").nullish = true → (field d "count").nullish = true →
        unreadOf stringToNumber (.ok d : Except ε JSVal) = .finite 0)
    ∧ (∀ m, Number stringToNumber
          (coalesce (coalesce (field d "unread") (field d "count")) (num 0)) = .ok m →
        unreadOf stringToNumber (.ok d : Except ε JSVal)
          = if m.isFinite then m else .finite 0)
    ∧ (∀ e, Number stringToNumber
          (coalesce (coalesce (field d "unread") (field d "count")) (num 0)) = .error e →
        unreadOf stringToNumber (.ok d : Except ε JSVal) = .finite 0)
    ∧ (∀ e : ε, unreadOf stringToNumber (.error e : Except ε JSVal) = .finite 0)
    ∧ (∀ r : Except ε JSVal, (unreadOf stringToNumber r).isFinite = true)
    ∧ (∀ (i : Nat) (st : PollState) (run : EffectRun) (r : Except ε JSVal),
        st.runs i = some run → run.mounted = true →
        (fetchCountSettled stringToNumber i r st).unread = unreadOf stringToNumber r)
    ∧ (∀ evs : List (PollEvent ε),
        (pollRun stringToNumber evs PollState.initial).unread.isFinite = true)
    ∧ (∀ b : Bool,
        coalesce (coalesce (field d "unread") (field d "count")) (num 0) = .bool b →
        unreadOf stringToNumber (.ok d : Except ε JSVal) = .finite (if b then 1 else 0))
    ∧ (∀ s : String,
        coalesce (coalesce (field d "unread") (field d "count")) (num 0) = str s →
        unreadOf stringToNumber (.ok d : Except ε JSVal)
          = if (stringToNumber s).isFinite then stringToNumber s else .finite 0) := by
  refine ⟨?_, ?_, ?_, ?_, ?_, fun _ => rfl, unreadOf_isFinite stringToNumber, ?_, ?_, ?_, ?_⟩
  · intro n h
    rw [unreadOf_ok, h]
    simp [coalesce, nullish, Number, JSNumber.isFinite]
  · intro n h1 h2
    have hc : coalesce (coalesce (field d "unread") (field d "count")) (num 0) = num n := by
      rw [h2]
      simp only [coalesce, h1, if_true]
      rfl
    rw [unreadOf_ok, hc]
    rfl
  · intro h1 h2
    have hc : coalesce (coalesce (field d "unread") (field d "count")) (num 0) = num 0 := by
      simp only [coalesce, h1, h2, if_true]
    rw [unreadOf_ok, hc]
    simp [Number, JSNumber.isFinite]
  · intro m h
    rw [unreadOf_ok, h]
  · intro e h
    rw [unreadOf_ok, h]
  · intro i st run r hrun hm
    simp [fetchCountSettled, hrun, hm]
  · intro evs
    exact pollRun_isFinite stringToNumber evs _ rfl
  · intro b h
    rw [unreadOf_ok, h]
    rfl
  · intro s h
    rw [unreadOf_ok, h]
    rfl

theorem unread_count_rule_witness :
    unreadOf (fun _ => JSNumber.nan)
        (.ok (obj [("unread", num 3), ("count", num 9)]) : Except JSError JSVal)
      = .finite ((3 : ℤ) : ℚ)
    ∧ unreadOf (fun _ => JSNumber.nan)
        (.ok (obj [("unread", null), ("count", num 2)]) : Except JSError JSVal)
      = .finite ((2 : ℤ) : ℚ)
    ∧ unreadOf (fun _ => JSNumber.nan) (.ok (obj []) : Except JSError JSVal) = .finite 0
    ∧ unreadOf (fun _ => JSNumber.nan)
        (.ok (obj [("unread", str "many")]) : Except JSError JSVal) = .finite 0
    ∧ unreadOf (fun _ => JSNumber.nan)
        (.ok (obj [("unread", obj [("toString", num 1)])]) : Except JSError JSVal)
      = .finite 0 :=
  ⟨(unread_count_rule (fun _ => JSNumber.nan) (obj [("unread", num 3), ("count", num 9)])).1
      3 rfl,
    (unread_count_rule (fun _ => JSNumber.nan)
      (obj [("unread", null), ("count", num 2)])).2.1 2 rfl rfl,
    (unread_count_rule (fun _ => JSNumber.nan) (obj [])).2.2.1 rfl rfl,
    (unread_count_rule (fun _ => JSNumber.nan) (obj [("unread", str "many")])).2.2.2.1
      JSNumber.nan rfl,
    (unread_count_rule (fun _ => JSNumber.nan)
      (obj [("unread", obj [("toString", num 1)])])).2.2.2.2.1 .typeError rfl⟩

/-- C19: in every state the poll can reach, a run of `fetchCount` for a run of
the effect without a session user (the initial call when the effect starts,
an interval tick, a `notifications-changed` event) sets the count to `0` and
issues no request; and once the active run has been cleaned up (by an unmount
or by the next run of the effect), a response to any request it issued leaves
the count unchanged, whatever happens in between. -/
theorem poll_without_session {ε : Type} (stringToNumber : String → JSNumber)
    (evs : List (PollEvent ε)) :
    (∀ su : JSVal, su.truthy = false →
        (pollStep stringToNumber (.effect su : PollEvent ε)
            (pollRun stringToNumber evs PollState.initial)).unread = .finite 0
        ∧ (pollStep stringToNumber (.effect su : PollEvent ε)
            (pollRun stringToNumber evs PollState.initial)).issued
          = (pollRun stringToNumber evs PollState.initial).issued
        ∧ (pollStep stringToNumber (.effect su : PollEvent ε)
            (pollRun stringToNumber evs PollState.initial)).inFlight
          = (pollRun stringToNumber evs PollState.initial).inFlight)
    ∧ (∀ (i : Nat) (run : EffectRun) (ev : PollEvent ε),
        (pollRun stringToNumber evs PollState.initial).active = some i →
        (pollRun stringToNumber evs PollState.initial).runs i = some run →
        run.sessionUser.truthy = false →
        (ev = .tick ∨ ev = .notificationsChanged) →
        (pollStep stringToNumber ev (pollRun stringToNumber evs PollState.initial)).unread
          = .finite 0
        ∧ (pollStep stringToNumber ev (pollRun stringToNumber evs PollState.initial)).issued
          = (pollRun stringToNumber evs PollState.initial).issued
        ∧ (pollStep stringToNumber ev (pollRun stringToNumber evs PollState.initial)).inFlight
          = (pollRun stringToNumber evs PollState.initial).inFlight)
    ∧ (∀ (i : Nat) (ev : PollEvent ε) (later : List (PollEvent ε)) (k : Nat)
        (outcome : Except ε JSVal),
        (pollRun stringToNumber evs PollState.initial).active = some i →
        (ev = .unmount ∨ ∃ su, ev = .effect su) →
        (pollRun stringToNumber later
          (pollStep stringToNumber ev
            (pollRun stringToNumber evs PollState.initial))).inFlight.get? k = some i →
        (pollStep stringToNumber (.response k outcome)
          (pollRun stringToNumber later
            (pollStep stringToNumber ev
              (pollRun stringToNumber evs PollState.initial)))).unread
          = (pollRun stringToNumber later
            (pollStep stringToNumber ev
              (pollRun stringToNumber evs PollState.initial))).unread) := by
  have hwf : (pollRun stringToNumber evs PollState.initial).activeMounted = true :=
    pollRun_activeMounted stringToNumber evs _ rfl
  generalize pollRun stringToNumber evs PollState.initial = st at hwf
  refine ⟨fun su hs => runEffect_no_session su st hs, ?_, ?_⟩
  · intro i run ev ha hrun hs hev
    have hm : run.mounted = true := by
      unfold PollState.activeMounted at hwf
      simp only [ha, hrun, Bool.and_eq_true, decide_eq_true_eq] at hwf
      exact hwf.2
    rcases hev with rfl | rfl <;>
      simpa [pollStep, ha] using fetchCount_no_session i st run hrun hs hm
  · intro i ev later k outcome ha hev hk
    have hc : (pollStep stringToNumber ev st).cleanedUp i = true := by
      rcases hev with rfl | ⟨su, rfl⟩
      · exact cleanupEffect_active i st ha hwf
      · exact runEffect_cleanedUp su i st (cleanupEffect_active i st ha hwf)
    exact response_after_cleanup stringToNumber i k outcome _
      (pollRun_cleanedUp stringToNumber i later _ hc) hk

theorem poll_without_session_witness :
    (pollRun (fun _ => JSNumber.nan)
        [(.effect (obj [("role", str "employer")]) : PollEvent JSError),
          .response 0 (.ok (obj [("unread", num 4)]))] PollState.initial).unread
      = .finite ((4 : ℤ) : ℚ)
    ∧ (pollStep (fun _ => JSNumber.nan) (.effect null : PollEvent JSError)
        (pollRun (fun _ => JSNumber.nan)
          [(.effect (obj [("role", str "employer")]) : PollEvent JSError),
            .response 0 (.ok (obj [("unread", num 4)])), .tick] PollState.initial)).unread
      = .finite 0
    ∧ (pollStep (fun _ => JSNumber.nan)
        (.response 0 (.ok (obj [("unread", num 7)])) : PollEvent JSError)
        (pollRun (fun _ => JSNumber.nan) [(.tick : PollEvent JSError)]
          (pollStep (fun _ => JSNumber.nan) (.effect null : PollEvent JSError)
            (pollRun (fun _ => JSNumber.nan)
              [(.effect (obj [("role", str "employer")]) : PollEvent JSError),
                .response 0 (.ok (obj [("unread", num 4)])), .tick]
              PollState.initial)))).unread
      = (pollRun (fun _ => JSNumber.nan) [(.tick : PollEvent JSError)]
          (pollStep (fun _ => JSNumber.nan) (.effect null : PollEvent JSError)
            (pollRun (fun _ => JSNumber.nan)
              [(.effect (obj [("role", str "employer")]) : PollEvent JSError),
                .response 0 (.ok (obj [("unread", num 4)])), .tick]
              PollState.initial))).unread :=
  ⟨rfl,
    ((poll_without_session (fun _ => JSNumber.nan)
      [(.effect (obj [("role", str "employer")]) : PollEvent JSError),
        .response 0 (.ok (obj [("unread", num 4)])), .tick]).1 null rfl).1,
    (poll_without_session (fun _ => JSNumber.nan)
      [(.effect (obj [("role", str "employer")]) : PollEvent JSError),
        .response 0 (.ok (obj [("unread", num 4)])), .tick]).2.2 0 (.effect null)
      [.tick] 0 (.ok (obj [("unread", num 7)])) rfl (Or.inr ⟨null, rfl⟩) rfl⟩

/-! ## API client -/

/-- C20: for a config whose `X-Skip-Auth` header is set (truthy), the
interceptor returns the config with that header removed and every other
header, `Authorization` included, and every other field unchanged, whatever
the storage holds. -/
theorem interceptor_skip_auth {α : Type} (store : Storage) (config : RequestConfig α)
    (headers : Headers) (hh : config.headers = some headers)
    (hmark : ((headers "X-Skip-Auth").getD undefined).truthy = true) :
    ∃ headers', (requestInterceptor store config).headers = some headers'
      ∧ headers' "X-Skip-Auth" = none
      ∧ headers' "Authorization" = headers "Authorization"
      ∧ (∀ name, name ≠ "X-Skip-Auth" → headers' name = headers name)
      ∧ (requestInterceptor store config).rest = config.rest := by
  refine ⟨fun name => if name = "X-Skip-Auth" then none else headers name, ?_, ?_, ?_, ?_, ?_⟩
  · simp [requestInterceptor, hh, hmark]
  · simp
  · simp
  · intro name hname
    simp [hname]
  · simp [requestInterceptor, hh, hmark]

theorem interceptor_skip_auth_witness :
    ∃ headers', (requestInterceptor (storageOf [("token", "t1")])
        (⟨some fun name =>
            if name = "X-Skip-Auth" then some (str "true")
            else if name = "Accept" then some (str "application/json") else none,
          "/api/jobs"⟩ : RequestConfig String)).headers = some headers'
      ∧ headers' "X-Skip-Auth" = none
      ∧ headers' "Authorization" = none
      ∧ (∀ name, name ≠ "X-Skip-Auth" → headers' name
          = (if name = "X-Skip-Auth" then some (str "true")
            else if name = "Accept" then some (str "application/json") else none))
      ∧ (requestInterceptor (storageOf [("token", "t1")])
        (⟨some fun name =>
            if name = "X-Skip-Auth" then some (str "true")
            else if name = "Accept" then some (str "application/json") else none,
          "/api/jobs"⟩ : RequestConfig String)).rest = "/api/jobs" :=
  interceptor_skip_auth (storageOf [("token", "t1")])
    (⟨some fun name =>
        if name = "X-Skip-Auth" then some (str "true")
        else if name = "Accept" then some (str "application/json") else none,
      "/api/jobs"⟩ : RequestConfig String)
    (fun name =>
      if name = "X-Skip-Auth" then some (str "true")
      else if name = "Accept" then some (str "application/json") else none) rfl rfl

/-- C21 (counterexample): with only a `jwt` key stored the interceptor sends
`Bearer j1` although `readFromStorage()` returns no token, and with a stored
user that does not parse `readFromStorage()` returns no token although the
interceptor sends the stored one. -/
theorem interceptor_token_not_session_token :
    (readFromStorage sampleParse (storageOf [("jwt", "j1")])).token = null
    ∧ (requestInterceptor (storageOf [("jwt", "j1")])
        (⟨none, "/api/jobs"⟩ : RequestConfig String)).headers.bind
          (fun headers => headers "Authorization") = some (str "Bearer j1")
    ∧ (readFromStorage sampleParse
        (storageOf [("user", "not json"), ("token", "t1")])).token = null
    ∧ (requestInterceptor (storageOf [("user", "not json"), ("token", "t1")])
        (⟨none, "/api/jobs"⟩ : RequestConfig String)).headers.bind
          (fun headers => headers "Authorization") = some (str "Bearer t1") :=
  ⟨rfl, rfl, rfl, rfl⟩

/-- C21 (amended): for a config not marked to skip authentication, let `t` be
the first non-empty value among the keys `token`, `authToken`, `jwt`,
`accessToken` of storage (the interceptor's own scan; without a `jwt` entry it
is the first non-empty token alias): if `t` exists the interceptor sets
`Authorization` to `"Bearer " + t`, otherwise it returns the config as it is;
no other header or field changes. -/
theorem interceptor_attaches_token {α : Type} (store : Storage) (config : RequestConfig α)
    (hskip : ∀ headers, config.headers = some headers →
      ((headers "X-Skip-Auth").getD undefined).truthy = false) :
    (∀ t, firstNonEmpty store ["token", "authToken", "jwt", "accessToken"] = some t →
        ∃ headers', (requestInterceptor store config).headers = some headers'
          ∧ headers' "Authorization" = some (str ("Bearer " ++ t))
          ∧ (∀ name, name ≠ "Authorization" →
              headers' name = (config.headers.getD fun _ => none) name)
          ∧ (requestInterceptor store config).rest = config.rest)
    ∧ (firstNonEmpty store ["token", "authToken", "jwt", "accessToken"] = none →
        requestInterceptor store config = config)
    ∧ ((store "jwt" = none ∨ store "jwt" = some "") →
        firstNonEmpty store ["token", "authToken", "jwt", "accessToken"]
          = firstNonEmpty store ALIASES.TOKEN) := by
  have hno : (match config.headers with
      | some headers => ((headers "X-Skip-Auth").getD undefined).truthy
      | none => false) = false := by
    cases hc : config.headers with
    | none => rfl
    | some headers => exact hskip headers hc
  refine ⟨?_, ?_, ?_⟩
  · intro t ht
    rw [← interceptorToken_eq] at ht
    refine ⟨fun name =>
      if name = "Authorization" then some (str ("Bearer " ++ t))
      else (config.headers.getD fun _ => none) name, ?_, ?_, ?_, ?_⟩
    · simp [requestInterceptor, hno, ht]
    · simp
    · intro name hname
      simp [hname]
    · simp [requestInterceptor, hno, ht]
  · intro ht
    rw [← interceptorToken_eq] at ht
    simp [requestInterceptor, hno, ht]
  · intro hj
    exact firstNonEmpty_cons_congr store "token" _ _
      (firstNonEmpty_cons_congr store "authToken" _ _ (firstNonEmpty_skip store "jwt" _ hj))

theorem interceptor_attaches_token_witness :
    (∃ headers', (requestInterceptor (storageOf [("authToken", "t2"), ("accessToken", "t3")])
          (⟨some fun name => if name = "Accept" then some (str "application/json") else none,
            "/api/jobs"⟩ : RequestConfig String)).headers = some headers'
        ∧ headers' "Authorization" = some (str ("Bearer " ++ "t2"))
        ∧ (∀ name, name ≠ "Authorization" →
            headers' name = ((some fun name =>
              if name = "Accept" then some (str "application/json") else none
                : Option Headers).getD fun _ => none) name)
        ∧ (requestInterceptor (storageOf [("authToken", "t2"), ("accessToken", "t3")])
          (⟨some fun name => if name = "Accept" then some (str "application/json") else none,
            "/api/jobs"⟩ : RequestConfig String)).rest = "/api/jobs")
    ∧ requestInterceptor (storageOf [("theme", "dark")])
        (⟨none, "/api/jobs"⟩ : RequestConfig String) = ⟨none, "/api/jobs"⟩ :=
  ⟨(interceptor_attaches_token (storageOf [("authToken", "t2"), ("accessToken", "t3")])
      (⟨some fun name => if name = "Accept" then some (str "application/json") else none,
        "/api/jobs"⟩ : RequestConfig String)
      (fun headers h => by
        simp only [Option.some.injEq] at h
        subst h
        rfl)).1 "t2" rfl,
    (interceptor_attaches_token (storageOf [("theme", "dark")])
      (⟨none, "/api/jobs"⟩ : RequestConfig String)
      (fun headers h => by cases h)).2.1 rfl⟩

/-- C26: for the sessions with token `t1` and `role: ["employer"]`, respectively
`role: {name: "employer"}`, the classifier accepts the user (`isEmployer` is
true and the Navbar renders "Post Job" and "My Jobs"), while `ProtectedRoute`
with roles `["employer"]` redirects to the home page. -/
theorem guard_denies_classified_employer :
    (isEmployer (obj [("role", arr [str "employer"])]) = .ok true
      ∧ (∃ view, Navbar (obj [("role", arr [str "employer"])]) null false false = .ok view
          ∧ NavItem.link "/employer/post-job" "Post Job" ∈ view.desktop
          ∧ NavItem.link "/employer/jobs" "My Jobs" ∈ view.desktop)
      ∧ (obj [("role", arr [str "employer"])]).truthy = true ∧ (str "t1").truthy = true
      ∧ ProtectedRoute ⟨obj [("role", arr [str "employer"])], str "t1"⟩ "/employer/jobs"
          [str "employer"] "EmployerJobs" = .ok (.navigate "/" none true))
    ∧ (isEmployer (obj [("role", obj [("name", str "employer")])]) = .ok true
      ∧ (∃ view, Navbar (obj [("role", obj [("name", str "employer")])]) null false false
            = .ok view
          ∧ NavItem.link "/employer/post-job" "Post Job" ∈ view.desktop
          ∧ NavItem.link "/employer/jobs" "My Jobs" ∈ view.desktop)
      ∧ ProtectedRoute ⟨obj [("role", obj [("name", str "employer")])], str "t1"⟩
          "/employer/post-job" [str "employer"] "PostJob" = .ok (.navigate "/" none true)) := by
  refine ⟨⟨rfl, ⟨_, rfl, ?_, ?_⟩, rfl, rfl, rfl⟩, ⟨rfl, ⟨_, rfl, ?_, ?_⟩, rfl⟩⟩ <;> decide

/-- C27 (failing input): a `jwt` entry survives `logout()` and `handleLogout()`,
and the interceptor, which also reads `jwt`, still attaches it as the bearer
token of the next request.  Without a `jwt` entry the claim holds: after
either logout the interceptor finds no token and adds no `Authorization`
header. -/
theorem logout_leaves_jwt :
    ((requestInterceptor (logout ⟨storageOf [("token", "t1"), ("jwt", "j1")],
          ⟨obj [], str "t1"⟩⟩).storage (⟨none, "/api/jobs"⟩ : RequestConfig String)).headers.bind
        (fun headers => headers "Authorization") = some (str "Bearer j1")
      ∧ (requestInterceptor (handleLogout ⟨storageOf [("token", "t1"), ("jwt", "j1")],
          ⟨obj [], str "t1"⟩⟩).1.storage
            (⟨none, "/api/jobs"⟩ : RequestConfig String)).headers.bind
        (fun headers => headers "Authorization") = some (str "Bearer j1"))
    ∧ (∀ (st : AuthState) (config : RequestConfig String),
        (st.storage "jwt" = none ∨ st.storage "jwt" = some "") →
        (requestInterceptor (logout st).storage config).headers.bind
            (fun headers => headers "Authorization")
          = config.headers.bind (fun headers => headers "Authorization")
        ∧ (requestInterceptor (handleLogout st).1.storage config).headers.bind
            (fun headers => headers "Authorization")
          = config.headers.bind (fun headers => headers "Authorization")) := by
  refine ⟨⟨rfl, rfl⟩, ?_⟩
  intro st config hj
  have key : ∀ store : Storage, (∀ k ∈ ALIASES.USER ++ ALIASES.TOKEN, store k = none) →
      (store "jwt" = none ∨ store "jwt" = some "") →
      (requestInterceptor store config).headers.bind (fun headers => headers "Authorization")
        = config.headers.bind (fun headers => headers "Authorization") := by
    intro store hnone hjwt
    have ht : interceptorToken store ["token", "authToken", "jwt", "accessToken"] = none := by
      rw [interceptorToken_eq, firstNonEmpty_cons_congr store "token" _ _
        (firstNonEmpty_cons_congr store "authToken" _ _ (firstNonEmpty_skip store "jwt" _ hjwt))]
      exact firstNonEmpty_none store _ fun k hk => hnone k (List.mem_append_right _ hk)
    unfold requestInterceptor
    cases hc : config.headers with
    | none => simp [ht, hc]
    | some headers =>
      cases hs : ((headers "X-Skip-Auth").getD undefined).truthy with
      | false => simp [ht, hc, hs]
      | true => simp [hc, hs]
  have hjwt1 : (logout st).storage "jwt" = none ∨ (logout st).storage "jwt" = some "" := by
    have : (logout st).storage "jwt" = st.storage "jwt" := by
      simp only [logout, removeAll_apply]
      rw [if_neg (by decide)]
    rw [this]
    exact hj
  have hjwt2 : (handleLogout st).1.storage "jwt" = none
      ∨ (handleLogout st).1.storage "jwt" = some "" := by
    have : (handleLogout st).1.storage "jwt" = st.storage "jwt" := by
      simp only [handleLogout, logout, removeAll_apply]
      rw [if_neg (by decide), if_neg (by decide)]
    rw [this]
    exact hj
  refine ⟨key _ ?_ hjwt1, key _ ?_ hjwt2⟩
  · intro k hk
    simp only [logout, removeAll_apply, hk, if_true]
  · intro k hk
    simp only [handleLogout, logout, removeAll_apply, hk, if_true]

/-! ## Login page -/

/-- C24: the candidates `/api/auth/login`, `/api/login`, `/api/users/login` are
posted to in that order.  For every pattern in which some candidate succeeds,
the requests made are the candidates up to and including the first one that
does not fail, no later candidate is posted to, and the outcome is computed
from the response `r` of that candidate: `login()` is invoked with the user
taken from `r` and the token of `r`, that user is held in memory and stored,
and the navigation follows.  When all three fail `login()` is not invoked:
the session store is unchanged, nothing is navigated to and the error is
"Login failed.".  With the first candidate rejected and the second and third
answering with different sessions, the session of the second is the one kept. -/
theorem login_attempts_in_order (JSON_stringify : JSVal → String) (typeErrorMessage : String)
    (post : String → JSVal → Except JSVal JSVal) (from_ : Option Location)
    (email pw : String) (st : AuthState) :
    loginEndpoints = ["/api/auth/login", "/api/login", "/api/users/login"]
    ∧ (∀ (failed : List String) (url : String) (rest : List String) (r : JSVal),
        loginEndpoints = failed ++ url :: rest →
        (∀ u ∈ failed, ∃ e,
          post u (obj [("email", str email), ("password", str pw)]) = .error e) →
        post url (obj [("email", str email), ("password", str pw)]) = .ok r →
        (handleSubmit JSON_stringify typeErrorMessage post from_ email pw st).requests
          = (failed ++ [url]).map
              (fun u => (u, obj [("email", str email), ("password", str pw)]))
        ∧ (∀ user role,
            ensureRole (responseData r) (responseUser (responseData r) email)
              = .ok (user, role) →
            (handleSubmit JSON_stringify typeErrorMessage post from_ email pw st).auth
              = login JSON_stringify st user (responseToken (responseData r))
            ∧ (handleSubmit JSON_stringify typeErrorMessage post from_ email pw
                st).auth.auth.user = user
            ∧ (handleSubmit JSON_stringify typeErrorMessage post from_ email pw
                st).auth.storage "user" = some (JSON_stringify user)
            ∧ (∀ target, destination from_ role = .ok target →
                (handleSubmit JSON_stringify typeErrorMessage post from_ email pw
                    st).navigation = some ⟨target, true⟩
                ∧ (handleSubmit JSON_stringify typeErrorMessage post from_ email pw st).err
                  = "")
            ∧ (∀ e, destination from_ role = .error e →
                (handleSubmit JSON_stringify typeErrorMessage post from_ email pw
                    st).navigation = none
                ∧ (handleSubmit JSON_stringify typeErrorMessage post from_ email pw st).err
                  = errorText typeErrorMessage .typeError))
        ∧ (∀ e,
            ensureRole (responseData r) (responseUser (responseData r) email) = .error e →
            (handleSubmit JSON_stringify typeErrorMessage post from_ email pw st).auth = st
            ∧ (handleSubmit JSON_stringify typeErrorMessage post from_ email pw st).navigation
              = none
            ∧ (handleSubmit JSON_stringify typeErrorMessage post from_ email pw st).err
              = errorText typeErrorMessage .typeError))
    ∧ ((∀ u ∈ loginEndpoints, ∃ e,
          post u (obj [("email", str email), ("password", str pw)]) = .error e) →
        (handleSubmit JSON_stringify typeErrorMessage post from_ email pw st).requests
          = loginEndpoints.map
              (fun u => (u, obj [("email", str email), ("password", str pw)]))
        ∧ (handleSubmit JSON_stringify typeErrorMessage post from_ email pw st).auth = st
        ∧ (handleSubmit JSON_stringify typeErrorMessage post from_ email pw st).navigation
          = none
        ∧ (handleSubmit JSON_stringify typeErrorMessage post from_ email pw st).err
          = "Login failed.")
    ∧ ((handleSubmit JSON_stringify typeErrorMessage
          (fun url _ =>
            if url = "/api/auth/login" then .error (obj [("message", str "Not Found")])
            else if url = "/api/login" then
              .ok (obj [("token", str "t2"), ("user", obj [("role", str "employer")])])
            else .ok (obj [("token", str "t3"), ("user", obj [("role", str "jobseeker")])]))
          none "a@b.com" "x" st).requests
        = [("/api/auth/login", obj [("email", str "a@b.com"), ("password", str "x")]),
            ("/api/login", obj [("email", str "a@b.com"), ("password", str "x")])]
      ∧ (handleSubmit JSON_stringify typeErrorMessage
          (fun url _ =>
            if url = "/api/auth/login" then .error (obj [("message", str "Not Found")])
            else if url = "/api/login" then
              .ok (obj [("token", str "t2"), ("user", obj [("role", str "employer")])])
            else .ok (obj [("token", str "t3"), ("user", obj [("role", str "jobseeker")])]))
          none "a@b.com" "x" st).auth.auth = ⟨obj [("role", str "employer")], str "t2"⟩
      ∧ (handleSubmit JSON_stringify typeErrorMessage
          (fun url _ =>
            if url = "/api/auth/login" then .error (obj [("message", str "Not Found")])
            else if url = "/api/login" then
              .ok (obj [("token", str "t2"), ("user", obj [("role", str "employer")])])
            else .ok (obj [("token", str "t3"), ("user", obj [("role", str "jobseeker")])]))
          none "a@b.com" "x" st).auth.storage "token" = some "t2"
      ∧ (handleSubmit JSON_stringify typeErrorMessage
          (fun url _ =>
            if url = "/api/auth/login" then .error (obj [("message", str "Not Found")])
            else if url = "/api/login" then
              .ok (obj [("token", str "t2"), ("user", obj [("role", str "employer")])])
            else .ok (obj [("token", str "t3"), ("user", obj [("role", str "jobseeker")])]))
          none "a@b.com" "x" st).auth.storage "user"
        = some (JSON_stringify (obj [("role", str "employer")]))
      ∧ (handleSubmit JSON_stringify typeErrorMessage
          (fun url _ =>
            if url = "/api/auth/login" then .error (obj [("message", str "Not Found")])
            else if url = "/api/login" then
              .ok (obj [("token", str "t2"), ("user", obj [("role", str "employer")])])
            else .ok (obj [("token", str "t3"), ("user", obj [("role", str "jobseeker")])]))
          none "a@b.com" "x" st).navigation = some ⟨"/employer/jobs", true⟩) := by
  refine ⟨rfl, ?_, ?_, rfl, rfl, rfl, rfl, rfl⟩
  · intro failed url rest r hsplit hf hs
    have hp := postAttempts_first_success post _ url rest r hs failed hf
    rw [← hsplit] at hp
    refine ⟨?_, handleSubmit_of_first_success JSON_stringify typeErrorMessage post from_
      email pw st r (by rw [hp])⟩
    rw [handleSubmit_requests, hp]
  · intro hf
    have hp := postAttempts_all_fail post _ loginEndpoints hf
    refine ⟨?_, handleSubmit_all_fail JSON_stringify typeErrorMessage post from_ email pw st
      (by rw [hp])⟩
    rw [handleSubmit_requests, hp]

/-- C25 (failing input): when the three login endpoints reject with an error
whose response carries the message "Invalid credentials", the inline error of
the login page is "Login failed.": the loop drops every rejection, so for any
error objects the text shown is the generic one.  The registration page, which
keeps the last rejection, shows "Invalid credentials" for the same errors. -/
theorem login_error_message_dropped :
    (∀ (JSON_stringify : JSVal → String) (typeErrorMessage : String)
        (from_ : Option Location) (st : AuthState),
      (handleSubmit JSON_stringify typeErrorMessage
        (fun _ _ => .error (obj [("response", obj [("data",
            obj [("message", str "Invalid credentials")])]),
          ("message", str "Request failed with status code 401")]))
        from_ "a@b.com" "x" st).err = "Login failed.")
    ∧ (∀ (JSON_stringify : JSVal → String) (typeErrorMessage : String)
        (post : String → JSVal → Except JSVal JSVal) (from_ : Option Location)
        (email pw : String) (st : AuthState) (e1 e2 e3 : JSVal),
        post "/api/auth/login" (obj [("email", str email), ("password", str pw)]) = .error e1 →
        post "/api/login" (obj [("email", str email), ("password", str pw)]) = .error e2 →
        post "/api/users/login" (obj [("email", str email), ("password", str pw)])
          = .error e3 →
        (handleSubmit JSON_stringify typeErrorMessage post from_ email pw st).err
          = "Login failed.")
    ∧ (submit
        (fun _ _ => .error (obj [("response", obj [("data",
            obj [("message", str "Invalid credentials")])]),
          ("message", str "Request failed with status code 401")]))
        "Ama" "a@b.com" "jobseeker" "Abcde!" "Abcde!").err = str "Invalid credentials" := by
  refine ⟨?_, ?_, rfl⟩
  · intro JSON_stringify typeErrorMessage from_ st
    exact (handleSubmit_all_fail JSON_stringify typeErrorMessage
      (fun _ _ => .error (obj [("response", obj [("data",
          obj [("message", str "Invalid credentials")])]),
        ("message", str "Request failed with status code 401")]))
      from_ "a@b.com" "x" st rfl).2.2
  · intro JSON_stringify typeErrorMessage post from_ email pw st e1 e2 e3 h1 h2 h3
    exact (handleSubmit_all_fail _ _ _ _ _ _ _
      (by simp [postAttempts, loginEndpoints, h1, h2, h3])).2.2

/-- C22 (failing input): for the successful response `{token: "t1", user: "u123"}`
the assignment `user.role = ...` on the string is a `TypeError`: `login()` is
not invoked, nothing is stored or navigated to and the error is shown.  When
the user taken from the response (the first truthy of `user`, `account`,
`profile`, `me`, else `{email}`) is an object, the user handed to `login()`,
held in memory and stored has a truthy `role`: its own role when that is
truthy, otherwise the first truthy of `data.role`, `data.userRole`,
`user.type`, and "jobseeker" when there is none; every other field is
unchanged.  Response `{token: "t1", user: {email: "a@b.com"}}` with no return
location stores `{email: "a@b.com", role: "jobseeker"}` and navigates to `/jobs`. -/
theorem login_fills_role :
    (∀ (JSON_stringify : JSVal → String) (typeErrorMessage : String)
        (from_ : Option Location) (st : AuthState),
      (handleSubmit JSON_stringify typeErrorMessage
          (fun _ _ => .ok (obj [("token", str "t1"), ("user", str "u123")]))
          from_ "a@b.com" "x" st).auth = st
      ∧ (handleSubmit JSON_stringify typeErrorMessage
          (fun _ _ => .ok (obj [("token", str "t1"), ("user", str "u123")]))
          from_ "a@b.com" "x" st).navigation = none
      ∧ (handleSubmit JSON_stringify typeErrorMessage
          (fun _ _ => .ok (obj [("token", str "t1"), ("user", str "u123")]))
          from_ "a@b.com" "x" st).err = errorText typeErrorMessage .typeError)
    ∧ (∀ (JSON_stringify : JSVal → String) (typeErrorMessage : String)
        (post : String → JSVal → Except JSVal JSVal) (from_ : Option Location)
        (email pw : String) (st : AuthState) (resData : JSVal)
        (fields : List (String × JSVal)),
        (postAttempts post (obj [("email", str email), ("password", str pw)])
          loginEndpoints).2 = some resData →
        responseUser (responseData resData) email = obj fields →
        ∃ user,
          (handleSubmit JSON_stringify typeErrorMessage post from_ email pw st).auth
            = login JSON_stringify st user (responseToken (responseData resData))
          ∧ (handleSubmit JSON_stringify typeErrorMessage post from_ email pw st).auth.auth.user
            = user
          ∧ (handleSubmit JSON_stringify typeErrorMessage post from_ email pw
              st).auth.storage "user" = some (JSON_stringify user)
          ∧ (field user "role").truthy = true
          ∧ field user "role"
            = (if (field (obj fields) "role").truthy then field (obj fields) "role"
              else roleFallback (responseData resData) (obj fields))
          ∧ ∀ k, k ≠ "role" → field user k = field (obj fields) k)
    ∧ (∀ data user : JSVal,
        roleFallback data user
          = if (field data "role").truthy then field data "role"
            else if (field data "userRole").truthy then field data "userRole"
            else if (field user "type").truthy then field user "type"
            else str "jobseeker")
    ∧ (∀ (data : JSVal) (email : String),
        responseUser data email
          = if (field data "user").truthy then field data "user"
            else if (field data "account").truthy then field data "account"
            else if (field data "profile").truthy then field data "profile"
            else if (field data "me").truthy then field data "me"
            else obj [("email", str email)])
    ∧ (∀ (JSON_stringify : JSVal → String) (typeErrorMessage : String) (st : AuthState),
      (handleSubmit JSON_stringify typeErrorMessage
          (fun _ _ => .ok (obj [("token", str "t1"), ("user", obj [("email", str "a@b.com")])]))
          none "a@b.com" "x" st).auth.auth
        = ⟨obj [("email", str "a@b.com"), ("role", str "jobseeker")], str "t1"⟩
      ∧ (handleSubmit JSON_stringify typeErrorMessage
          (fun _ _ => .ok (obj [("token", str "t1"), ("user", obj [("email", str "a@b.com")])]))
          none "a@b.com" "x" st).auth.storage "user"
        = some (JSON_stringify (obj [("email", str "a@b.com"), ("role", str "jobseeker")]))
      ∧ (handleSubmit JSON_stringify typeErrorMessage
          (fun _ _ => .ok (obj [("token", str "t1"), ("user", obj [("email", str "a@b.com")])]))
          none "a@b.com" "x" st).navigation = some ⟨"/jobs", true⟩
      ∧ (handleSubmit JSON_stringify typeErrorMessage
          (fun _ _ => .ok (obj [("token", str "t1"), ("user", obj [("email", str "a@b.com")])]))
          none "a@b.com" "x" st).err = "") := by
  refine ⟨fun _ _ _ _ => ⟨rfl, rfl, rfl⟩, ?_, ?_, ?_, fun _ _ _ => ⟨rfl, rfl, rfl, rfl⟩⟩
  · intro JSON_stringify typeErrorMessage post from_ email pw st resData fields h1 h2
    obtain ⟨user, role, he, hu, hr, hrt, hre, hk⟩ := ensureRole_obj (responseData resData) fields
    rw [← h2] at he
    have ha := handleSubmit_auth JSON_stringify typeErrorMessage post from_ email pw st
      resData user role h1 he
    have hl := login_user JSON_stringify st user (responseToken (responseData resData)) hu
    refine ⟨user, ha, ?_, ?_, ?_, ?_, hk⟩
    · rw [ha]; exact hl.1
    · rw [ha]; exact hl.2
    · rw [hr]; exact hrt
    · rw [hr]; exact hre
  · intro data user
    simp only [roleFallback]
    generalize field data "role" = a
    generalize field data "userRole" = b
    generalize field user "type" = c
    cases ha : a.truthy <;> cases hb : b.truthy <;> cases hc : c.truthy <;>
      simp [JSVal.or, ha, hb, hc]
  · intro data email
    simp only [responseUser]
    generalize field data "user" = a
    generalize field data "account" = b
    generalize field data "profile" = c
    generalize field data "me" = d
    cases ha : a.truthy <;> cases hb : b.truthy <;> cases hc : c.truthy <;>
      cases hd : d.truthy <;> simp [JSVal.or, ha, hb, hc, hd]

/-- C23 (counterexample): the guard records the location `/profile?tab=2#reviews`
in the redirect state, and after a successful login the app navigates to
`/profile`, which is not the recorded location. -/
theorem login_return_drops_search_and_hash :
    ProtectedRoute ⟨null, null⟩ (⟨"/profile", "?tab=2", "#reviews"⟩ : Location)
        [] "Profile" = .ok (.navigate "/login" (some ⟨"/profile", "?tab=2", "#reviews"⟩) true)
    ∧ (∀ (JSON_stringify : JSVal → String) (typeErrorMessage : String) (st : AuthState),
      (handleSubmit JSON_stringify typeErrorMessage
          (fun _ _ => .ok (obj [("token", str "t1"),
            ("user", obj [("email", str "a@b.com"), ("role", str "jobseeker")])]))
          (some ⟨"/profile", "?tab=2", "#reviews"⟩) "a@b.com" "x" st).navigation
        = some ⟨"/profile", true⟩)
    ∧ (⟨"/profile", "?tab=2", "#reviews"⟩ : Location).createPath = "/profile?tab=2#reviews"
    ∧ "/profile" ≠ (⟨"/profile", "?tab=2", "#reviews"⟩ : Location).createPath := by
  refine ⟨rfl, fun _ _ _ => rfl, by decide, by decide⟩

/-- C23 (amended): after a successful login in which `login()` was invoked with
a user whose role prints as `s`, the app navigates, replacing the history
entry, to the `pathname` of the location recorded in the redirect state when
there is one with a non-empty pathname (its query string and fragment are not
part of the target); otherwise to `/employer/jobs` when `s`, lower-cased, is
"employer", and to `/jobs` for every other role. -/
theorem login_destination (JSON_stringify : JSVal → String) (typeErrorMessage : String)
    (post : String → JSVal → Except JSVal JSVal) (from_ : Option Location)
    (email pw : String) (st : AuthState) (resData user role : JSVal) (s : String)
    (hres : (postAttempts post (obj [("email", str email), ("password", str pw)])
        loginEndpoints).2 = some resData)
    (hrole : ensureRole (responseData resData) (responseUser (responseData resData) email)
        = .ok (user, role))
    (hs : stringOf role = .ok s) :
    (handleSubmit JSON_stringify typeErrorMessage post from_ email pw st).navigation
      = some ⟨match from_ with
          | some l =>
            if l.pathname ≠ "" then l.pathname
            else if toLowerCase s = "employer" then "/employer/jobs" else "/jobs"
          | none => if toLowerCase s = "employer" then "/employer/jobs" else "/jobs", true⟩ :=
  handleSubmit_navigation JSON_stringify typeErrorMessage post from_ email pw st resData
    user role _ hres hrole (destination_eq from_ role s hs)

theorem login_destination_witness :
    (handleSubmit sampleStringify "" (fun _ _ => .ok (obj [("token", str "t1"),
        ("user", obj [("role", str "Employer")])])) none "a@b.com" "x"
        ⟨storageOf [], ⟨null, null⟩⟩).navigation
      = some ⟨match (none : Option Location) with
          | some l =>
            if l.pathname ≠ "" then l.pathname
            else if toLowerCase "Employer" = "employer" then "/employer/jobs" else "/jobs"
          | none => if toLowerCase "Employer" = "employer" then "/employer/jobs" else "/jobs",
          true⟩ :=
  login_destination sampleStringify "" (fun _ _ => .ok (obj [("token", str "t1"),
      ("user", obj [("role", str "Employer")])])) none "a@b.com" "x"
    ⟨storageOf [], ⟨null, null⟩⟩
    (obj [("token", str "t1"), ("user", obj [("role", str "Employer")])])
    (obj [("role", str "Employer")]) (str "Employer") "Employer" rfl rfl rfl

/-! ## Registration page -/

/-- C28 (failing input): the password `"Abcde "` (a trailing space) passes the
registration rules and equals its confirmation, but the password transmitted in
the registration request is `"Abcde"`: it is not `pw`, it fails the rules, and
it differs from the `"Abcde "` the login page transmits for the same input.
Every registration request carries `pw.trim()`, so the claim holds exactly for
the passwords without white space at either end. -/
theorem register_transmits_trimmed_password :
    ((rules "Abcde ").ok = true ∧ passwordsMatch "Abcde " "Abcde " = true
      ∧ (submit (fun _ _ => .ok null) "Ama" "a@b.com" "jobseeker" "Abcde " "Abcde ").requests.map
          (fun r => (r.1, field r.2 "password")) = [("/api/auth/register", str "Abcde")]
      ∧ (rules "Abcde").ok = false
      ∧ ∀ (JSON_stringify : JSVal → String) (typeErrorMessage : String) (st : AuthState),
        (handleSubmit JSON_stringify typeErrorMessage (fun _ _ => .ok null) none
            "a@b.com" "Abcde " st).requests.map (fun r => (r.1, field r.2 "password"))
          = [("/api/auth/login", str "Abcde ")])
    ∧ (∀ (post : String → JSVal → Except JSVal JSVal) (name email role pw pw2 : String),
        ∀ r ∈ (submit post name email role pw pw2).requests,
          field r.2 "password" = str (trim pw))
    ∧ (∀ (post : String → JSVal → Except JSVal JSVal) (name email role pw pw2 : String),
        trim pw = pw →
        ∀ r ∈ (submit post name email role pw pw2).requests, field r.2 "password" = str pw)
    ∧ (∀ (JSON_stringify : JSVal → String) (typeErrorMessage : String)
        (post : String → JSVal → Except JSVal JSVal) (from_ : Option Location)
        (email pw : String) (st : AuthState),
        ∀ r ∈ (handleSubmit JSON_stringify typeErrorMessage post from_ email pw st).requests,
          field r.2 "password" = str pw) := by
  refine ⟨⟨by decide, by decide, rfl, by decide, fun _ _ _ => rfl⟩, ?_, ?_, ?_⟩
  · intro post name email role pw pw2 r hr
    rw [submit_bodies post name email role pw pw2 r hr]
    rfl
  · intro post name email role pw pw2 ht r hr
    rw [submit_bodies post name email role pw pw2 r hr]
    show str (trim pw) = str pw
    rw [ht]
  · intro JSON_stringify typeErrorMessage post from_ email pw st r hr
    rw [handleSubmit_requests] at hr
    have key : ∀ urls : List String,
        ∀ q ∈ (postAttempts post (obj [("email", str email), ("password", str pw)]) urls).1,
          q.2 = obj [("email", str email), ("password", str pw)] := by
      intro urls
      induction urls with
      | nil => intro q hq; simp [postAttempts] at hq
      | cons url rest ih =>
        intro q hq
        unfold postAttempts at hq
        cases hp : post url (obj [("email", str email), ("password", str pw)]) with
        | ok d =>
          rw [hp] at hq
          simp only [List.mem_singleton] at hq
          rw [hq]
        | error e =>
          rw [hp] at hq
          simp only [List.mem_cons] at hq
          rcases hq with hq | hq
          · rw [hq]
          · exact ih q hq
    rw [key loginEndpoints r hr]
    rfl

/-! ## Post Job page -/

/-- C29 (failing input): with minimum salary 500 and maximum salary 0 entered,
`canSubmit` holds (the minimum is greater than 0) and the `salary` sent is 0,
which is not strictly positive.  Whenever `canSubmit` holds the payload is
sent with `salary` equal to the maximum when one is entered and to the minimum
otherwise; it is strictly positive when no maximum is entered or the maximum
entered is greater than 0. -/
theorem postJob_salary_not_positive :
    (canSubmit "Driver" "Greater Accra" "Deliver goods" (some 500) (some 0) = true
      ∧ (onSubmit false "Driver" "Greater Accra" "Deliver goods" (some 500) (some 0)).map
          (fun payload => payload.salary) = some 0)
    ∧ (∀ (title region description : String) (minSalary maxSalary : Option Int),
        canSubmit title region description minSalary maxSalary = true →
        ∃ payload, onSubmit false title region description minSalary maxSalary = some payload
          ∧ (∀ n, maxSalary = some n → payload.salary = n)
          ∧ (maxSalary = none → minSalary = some payload.salary)
          ∧ ((maxSalary = none ∨ ∃ n, maxSalary = some n ∧ 0 < n) → 0 < payload.salary)) := by
  refine ⟨⟨by decide, by decide⟩, ?_⟩
  intro title region description minSalary maxSalary hc
  refine ⟨_, by simp only [onSubmit, hc]; rfl, ?_, ?_, ?_⟩
  · intro n hn
    simp [salaryNumber, hn]
  · intro hn
    subst hn
    cases minSalary with
    | none => simp [canSubmit] at hc
    | some m => simp [salaryNumber]
  · intro h
    rcases h with hn | ⟨n, hn, hpos⟩
    · subst hn
      cases minSalary with
      | none => simp [canSubmit] at hc
      | some m =>
        simp only [canSubmit, Bool.or_false, Bool.and_eq_true, decide_eq_true_eq] at hc
        simpa [salaryNumber] using hc.2
    · subst hn
      simpa [salaryNumber] using hpos

/-! ## Employer jobs page -/

/-- C30: `toggleOpen` is called from the button of a rendered row, so with a
job `j` for which `getStatus(j)` returned when the row was rendered.  Every
value `getStatus` returns is "open" or "closed", and it returns one for every
job without an own `toString` entry inside.  In a list where only `j` has the
id of `j`, the optimistic update replaces `j` by `j` with `status` set to the
target and leaves every other job and the order as they are, every other
field of `j` is kept, `getStatus` of the updated `j` is the target, which is
the opposite of `getStatus(j)`, and when every update request fails the list
after rollback is the list before the toggle. -/
theorem toggleOpen_status_and_rollback :
    (∀ (job : Job) (s : String), getStatus job = .ok s → s = "open" ∨ s = "closed")
    ∧ (∀ job : Job, plain (obj job) = true → ∃ s, getStatus job = .ok s)
    ∧ (∀ (j : Job) (before after : List Job) (current : String),
        getStatus j = .ok current →
        strictEquals (jobId j) (jobId j) = true →
        (∀ x ∈ before, strictEquals (jobId x) (jobId j) = false) →
        (∀ x ∈ after, strictEquals (jobId x) (jobId j) = false) →
        optimisticUpdate (jobId j) (if current = "open" then "closed" else "open")
            (before ++ j :: after)
          = before ++ setField "status" (str (if current = "open" then "closed" else "open")) j
              :: after
        ∧ getStatus (setField "status" (str (if current = "open" then "closed" else "open")) j)
          = .ok (if current = "open" then "closed" else "open")
        ∧ (if current = "open" then "closed" else "open") ≠ current
        ∧ (∀ k, k ≠ "status" →
            field (obj (setField "status"
              (str (if current = "open" then "closed" else "open")) j)) k = field (obj j) k)
        ∧ ∀ request : String → Except JSVal JSVal,
          (∀ r ∈ toggleRequests, ∃ e, request r = .error e) →
          toggleOpen request j (before ++ j :: after)
            = .ok ⟨before ++ j :: after, some "Could not update status."⟩)
    ∧ toggleOpen (fun _ => .error null) [("_id", str "2"), ("status", str "Open")]
        [[("_id", str "1")], [("_id", str "2"), ("status", str "Open")],
          [("id", num 3), ("isOpen", bool false)]]
      = .ok ⟨[[("_id", str "1")], [("_id", str "2"), ("status", str "Open")],
          [("id", num 3), ("isOpen", bool false)]], some "Could not update status."⟩ := by
  refine ⟨getStatus_range, getStatus_total, ?_, rfl⟩
  intro j before after current hcur hid hb ha
  have hrange := getStatus_range j current hcur
  have htarget : (if current = "open" then "closed" else "open") = "open"
      ∨ (if current = "open" then "closed" else "open") = "closed" := by
    rcases hrange with h | h <;> rw [h] <;> decide
  refine ⟨optimisticUpdate_only j _ before after hid hb ha, getStatus_setStatus _ j htarget,
    ?_, fun k hk => field_setField_other _ _ _ _ hk, ?_⟩
  · rcases hrange with h | h <;> rw [h] <;> decide
  · intro request hfail
    have hnone : firstUpdate request toggleRequests = none := by
      obtain ⟨e1, h1⟩ := hfail "PUT /api/jobs/:id" (by decide)
      obtain ⟨e2, h2⟩ := hfail "PATCH /api/jobs/:id" (by decide)
      obtain ⟨e3, h3⟩ := hfail "PATCH /api/employer/jobs/:id" (by decide)
      simp [firstUpdate, toggleRequests, h1, h2, h3]
    unfold toggleOpen
    rw [hcur]
    simp only [Except.bind, hnone]
    rw [rollback_restores j _ before after hid hb ha]

end Adwumawura
